import Mathlib

/-!
# EloquentTwitter: event registry, stream adapter, REST operations, data wrappers

A shallow embedding of `EloquentEvent.js` (the event-name keyed callback
registry), of the stream handlers of `EloquentTwitter.js` that classify
incoming events, of its REST operations, and of the accessors of
`data/DataTweet.js` and `data/DataDirectMessageQuickReply.js`, together with
the properties established about them.

Conventions of the embedding

* A JavaScript function value registered as a subscriber is represented by its
  identity (a natural number).  What happens when it is called is given by a
  `Behaviour`: it either returns or throws a value.  Subscribers are assumed
  not to call back into the registry that is delivering to them.
* Execution is recorded in a `Log`: every call of `fireEvents` and every
  invocation of a subscriber appends one entry, in program order.
* `_eventContainer` is an ordinary JavaScript object created by `{}`.  Its own
  properties and its prototype slot are both part of the state, because the
  source reaches `hasOwnProperty` through the object itself and assigns with
  `obj[key] = value`, which for the key `__proto__` runs the inherited setter.
* Payloads are immutable values: reading the same member twice yields the same
  value.
* The parameter that the source calls `on` is written `evt`.
* The external client is not part of the repository.  It is represented by
  what the repository hands to it: the `stream(path, params)` calls, the
  listeners bound with `on` and the `start()` and `stop()` calls of a
  connection, and for a REST operation the path, the parameters and the answer
  function.  An emission runs the listeners bound to the emitted name.
* A successful answer of `statuses/user_timeline` is an array of statuses, and
  one of `search/tweets` an object with the array `statuses`: the answer
  functions of these operations receive the elements of the array.
* An omitted argument is `undefined`; an omitted callback of the caller is
  `none`.
* A wrapper holds the identity of the instance it was created by; a method of
  a wrapper that calls the instance receives the map from identities to
  instances.
-/

namespace Eloquent

/-! ## JavaScript values -/

/-- JSON-like JavaScript values, as delivered by the streaming client.
Numbers are restricted to integers. -/
inductive JVal where
  | undefined : JVal
  | null : JVal
  | bool (b : Bool) : JVal
  | num (n : Int) : JVal
  | str (s : String) : JVal
  | arr (items : List JVal) : JVal
  | obj (fields : List (String × JVal)) : JVal

/-- Errors that surface as JavaScript exceptions: a `TypeError` raised by the
language itself (the text describes the cause, it is not the wording of an
engine), or a value thrown by a subscriber. -/
inductive JSError where
  | typeError (what : String) : JSError
  | thrown (value : JVal) : JSError

/-- ToBoolean, as used by `!!x` and by `if (x)`. -/
def JVal.truthy : JVal → Bool
  | .undefined => false
  | .null => false
  | .bool b => b
  | .num n => n != 0
  | .str s => s != ""
  | .arr _ => true
  | .obj _ => true

/-- Own field of an object literal, `undefined` when the key is absent. -/
def JVal.field : List (String × JVal) → String → JVal
  | [], _ => .undefined
  | (k, v) :: rest, key => if k = key then v else JVal.field rest key

/-- Property read `v.key` for a key that is not a built-in property of the
prototype chain of `v` (every key read by the handlers below is such a key):
reading from `undefined` or `null` throws, an object yields its own field,
any other value yields `undefined`. -/
def JVal.getProp : JVal → String → Except JSError JVal
  | .undefined, key => .error (.typeError ("Cannot read properties of undefined (reading " ++ key ++ ")"))
  | .null, key => .error (.typeError ("Cannot read properties of null (reading " ++ key ++ ")"))
  | .obj fields, key => .ok (JVal.field fields key)
  | _, _ => .ok .undefined

/-! ## Data wrappers (`data/*.js`) -/

/-- `DataTweet`: a view over a raw tweet payload, with an optional reference to
the `EloquentTwitter` instance that produced it (an object identity). -/
structure DataTweet where
  _data : JVal
  _eloquentTwitter : Option Nat

/-- `new DataTweet(tweetObj, eloquentTwitter)`: the second field is
`eloquentTwitter || null`. -/
def DataTweet.constructor (tweetObj : JVal) (eloquentTwitter : Option Nat) : DataTweet :=
  { _data := tweetObj, _eloquentTwitter := eloquentTwitter }

/-- Getter `isRetweet`: `!!(this._data.retweeted_status)`. -/
def DataTweet.isRetweet (t : DataTweet) : Except JSError Bool :=
  match t._data.getProp "retweeted_status" with
  | .error e => .error e
  | .ok v => .ok v.truthy

/-- `DataDirectMessageDelete`: a view over a deleted direct message. -/
structure DataDirectMessageDelete where
  _data : JVal

/-- `new DataDirectMessageDelete(directMessage)`. -/
def DataDirectMessageDelete.constructor (directMessage : JVal) : DataDirectMessageDelete :=
  { _data := directMessage }

/-- `DataTweetDelete`: a view over a deleted status. -/
structure DataTweetDelete where
  _data : JVal

/-- `new DataTweetDelete(tweetDelete)`. -/
def DataTweetDelete.constructor (tweetDelete : JVal) : DataTweetDelete :=
  { _data := tweetDelete }

/-- `DataEvent`: a view over a user-stream event. -/
structure DataEvent where
  _data : JVal

/-- `new DataEvent(event)`. -/
def DataEvent.constructor (event : JVal) : DataEvent :=
  { _data := event }

/-- `DataError`: a view over an error reported by the client. -/
structure DataError where
  _data : JVal

/-- `new DataError(errorData)`. -/
def DataError.constructor (errorData : JVal) : DataError :=
  { _data := errorData }

/-- `DataDirectMessage`: a view over a direct message, with an optional
reference to the `EloquentTwitter` instance. -/
structure DataDirectMessage where
  _data : JVal
  _eloquentTwitter : Option Nat

/-- `new DataDirectMessage(message, eloquentTwitter)`: the second field is
`eloquentTwitter || null`. -/
def DataDirectMessage.constructor (message : JVal) (eloquentTwitter : Option Nat) :
    DataDirectMessage :=
  { _data := message, _eloquentTwitter := eloquentTwitter }

/-- `DataUser`: a view over a user object. -/
structure DataUser where
  _data : JVal

/-- `new DataUser(user)`. -/
def DataUser.constructor (user : JVal) : DataUser :=
  { _data := user }

/-- `DataConnections`: a view over the answer of `friendships/lookup`. -/
structure DataConnections where
  _data : JVal

/-- `new DataConnections(userConnections)`. -/
def DataConnections.constructor (userConnections : JVal) : DataConnections :=
  { _data := userConnections }

/-- `DataSearchMetadata`: a view over the `search_metadata` member of a search
answer. -/
structure DataSearchMetadata where
  _data : JVal

/-- `new DataSearchMetadata(searchMetadata)`. -/
def DataSearchMetadata.constructor (searchMetadata : JVal) : DataSearchMetadata :=
  { _data := searchMetadata }

/-- Values handed to subscribers and callbacks: raw payloads, one of the
wrappers, or an array of wrapped tweets. -/
inductive JSArg where
  | raw (v : JVal) : JSArg
  | dataTweet (t : DataTweet) : JSArg
  | dataDirectMessageDelete (d : DataDirectMessageDelete) : JSArg
  | dataTweetDelete (d : DataTweetDelete) : JSArg
  | dataEvent (d : DataEvent) : JSArg
  | dataError (d : DataError) : JSArg
  | dataDirectMessage (d : DataDirectMessage) : JSArg
  | dataUser (d : DataUser) : JSArg
  | dataConnections (d : DataConnections) : JSArg
  | dataTweets (ts : List DataTweet) : JSArg
  | dataSearchMetadata (d : DataSearchMetadata) : JSArg

/-! ## Execution log and subscriber behaviour -/

/-- Identity of a registered callback. -/
abbrev Subscriber := Nat

/-- One observable step: a call of `fireEvents(on, parameters)` (with
`parameters = none` when the argument is omitted), or the invocation of a
subscriber with its positional arguments. -/
inductive LogEntry where
  | fired (evt : String) (parameters : Option (List JSArg)) : LogEntry
  | invoked (fn : Subscriber) (args : List JSArg) : LogEntry

/-- Program-ordered record of what happened so far. -/
abbrev Log := List LogEntry

/-- What calling a subscriber does: `none` when the call returns, `some e` when
it throws `e`.  The outcome may depend on everything that happened before. -/
abbrev Behaviour := Log → Subscriber → List JSArg → Option JVal

/-- The subscribers invoked in a log, in order. -/
def invokedIn : Log → List Subscriber
  | [] => []
  | .invoked fn _ :: rest => fn :: invokedIn rest
  | .fired _ _ :: rest => invokedIn rest

/-- The invocations recorded in a log, with their arguments, in order. -/
def invocationsIn : Log → List (Subscriber × List JSArg)
  | [] => []
  | .invoked fn args :: rest => (fn, args) :: invocationsIn rest
  | .fired _ _ :: rest => invocationsIn rest

/-- The `fireEvents` calls recorded in a log, in order. -/
def firedIn : Log → List (String × Option (List JSArg))
  | [] => []
  | .fired evt parameters :: rest => (evt, parameters) :: firedIn rest
  | .invoked _ _ :: rest => firedIn rest

/-! ## `EloquentEvent.js` -/

/-- Own string-keyed properties of `_eventContainer`, in insertion order; every
value stored by the source is an array of subscribers. -/
abbrev OwnProps := List (String × List Subscriber)

/-- Own property lookup. -/
def OwnProps.get : OwnProps → String → Option (List Subscriber)
  | [], _ => none
  | (k, v) :: rest, key => if k = key then some v else OwnProps.get rest key

/-- Create or overwrite an own data property. -/
def OwnProps.put : OwnProps → String → List Subscriber → OwnProps
  | [], key, v => [(key, v)]
  | (k, w) :: rest, key, v => if k = key then (k, v) :: rest else (k, w) :: OwnProps.put rest key v

/-- The object behind `this._eventContainer`.  `proto = none` means the
prototype is still `Object.prototype`; `proto = some a` means the prototype has
been replaced by the array `a` (whose own chain ends in `Object.prototype`). -/
structure EventContainer where
  own : OwnProps
  proto : Option (List Subscriber)

/-- The method call `this._eventContainer.hasOwnProperty(on)`.  The method is
looked up on the object itself: an own property named `hasOwnProperty` (always
an array here) shadows `Object.prototype.hasOwnProperty`, and calling it
throws.  Otherwise the inherited method answers whether `on` is an own key. -/
def EventContainer.hasOwnProperty (c : EventContainer) (evt : String) : Except JSError Bool :=
  match c.own.get "hasOwnProperty" with
  | some _ => .error (.typeError "this._eventContainer.hasOwnProperty is not a function")
  | none => .ok (c.own.get evt).isSome

/-- The assignment `this._eventContainer[on] = value` with an array value.  For
the key `__proto__` the setter inherited from `Object.prototype` runs and
replaces the prototype; no own property is created.  Every other key creates
or overwrites an own data property. -/
def EventContainer.assign (c : EventContainer) (evt : String) (value : List Subscriber) : EventContainer :=
  if evt = "__proto__" then { c with proto := some value }
  else { c with own := c.own.put evt value }

/-- Class `EloquentEvent`. -/
structure EloquentEvent where
  _eventContainer : EventContainer

/-- `constructor()`: `this._eventContainer = {}`. -/
def EloquentEvent.constructor : EloquentEvent :=
  { _eventContainer := { own := [], proto := none } }

/-- `registerEvent(on, fun)`. -/
def EloquentEvent.registerEvent (self : EloquentEvent) (evt : String) (fn : Subscriber) :
    Except JSError EloquentEvent :=
  match self._eventContainer.hasOwnProperty evt with
  | .error e => .error e
  | .ok true =>
    match self._eventContainer.own.get evt with
    | some subscribers =>
      .ok { _eventContainer := { self._eventContainer with
              own := self._eventContainer.own.put evt (subscribers ++ [fn]) } }
    | none => .error (.typeError "Cannot read properties of undefined (reading push)")
  | .ok false => .ok { _eventContainer := self._eventContainer.assign evt [fn] }

/-- The body of the `for` loop of `fireEvents`, over the subscribers that are
still to be called.  Each iteration spreads `parameters` (which throws when
`parameters` is `undefined`) and then calls the subscriber; an exception leaves
the loop at once. -/
def fireLoop (beh : Behaviour) (parameters : Option (List JSArg)) :
    List Subscriber → Log → Log × Except JSError Unit
  | [], log => (log, .ok ())
  | fn :: rest, log =>
    match parameters with
    | none => (log, .error (.typeError "parameters is not iterable"))
    | some args =>
      match beh log fn args with
      | some e => (log ++ [.invoked fn args], .error (.thrown e))
      | none => fireLoop beh parameters rest (log ++ [.invoked fn args])

/-- `fireEvents(on, parameters)`; `parameters = none` is the call with the
second argument omitted. -/
def EloquentEvent.fireEvents (beh : Behaviour) (self : EloquentEvent) (evt : String)
    (parameters : Option (List JSArg)) (log : Log) : Log × Except JSError Bool :=
  match self._eventContainer.hasOwnProperty evt with
  | .error e => (log ++ [.fired evt parameters], .error e)
  | .ok false => (log ++ [.fired evt parameters], .ok false)
  | .ok true =>
    match self._eventContainer.own.get evt with
    | none => (log ++ [.fired evt parameters],
        .error (.typeError "Cannot read properties of undefined (reading length)"))
    | some subscribers =>
      match fireLoop beh parameters subscribers (log ++ [.fired evt parameters]) with
      | (log', .error e) => (log', .error e)
      | (log', .ok _) => (log', .ok true)

/-- Registration as seen by a caller that keeps going: a registration that
throws leaves the registry as it was. -/
def EloquentEvent.register (self : EloquentEvent) (evt : String) (fn : Subscriber) : EloquentEvent :=
  match self.registerEvent evt fn with
  | .ok r => r
  | .error _ => self

/-- A sequence of `registerEvent` calls, each on the state left by the ones
before it. -/
def EloquentEvent.registerMany : EloquentEvent → List (String × Subscriber) → EloquentEvent
  | self, [] => self
  | self, (evt, fn) :: rest => EloquentEvent.registerMany (self.register evt fn) rest

/-- A sequence of `registerEvent` calls that stops at the first one that
throws. -/
def EloquentEvent.registerAll : EloquentEvent → List (String × Subscriber) → Except JSError EloquentEvent
  | self, [] => .ok self
  | self, (evt, fn) :: rest =>
    match self.registerEvent evt fn with
    | .error e => .error e
    | .ok r => EloquentEvent.registerAll r rest

/-- The subscriber list stored under an event name, empty when there is none. -/
def EloquentEvent.subscribers (self : EloquentEvent) (evt : String) : List Subscriber :=
  (self._eventContainer.own.get evt).getD []

/-- The subscribers that a sequence of registrations puts under one event
name, in registration order, duplicates kept. -/
def registeredUnder (evt : String) : List (String × Subscriber) → List Subscriber
  | [] => []
  | (name, fn) :: rest => if name = evt then fn :: registeredUnder evt rest else registeredUnder evt rest

/-- The inherited `hasOwnProperty` is still reachable through the container:
no own property shadows it. -/
def EloquentEvent.Unshadowed (self : EloquentEvent) : Prop :=
  self._eventContainer.own.get "hasOwnProperty" = none

/-- One operation on a registry: a registration, or a firing. -/
inductive Operation where
  | register (evt : String) (fn : Subscriber) : Operation
  | fire (evt : String) (parameters : Option (List JSArg)) : Operation

/-- Effect of one operation on the registry and on the log.  `fireEvents` has
no assignment to the container, so the registry it leaves is the one it
found. -/
def EloquentEvent.step (beh : Behaviour) (self : EloquentEvent) (log : Log) :
    Operation → EloquentEvent × Log
  | .register evt fn => (self.register evt fn, log)
  | .fire evt parameters => (self, (self.fireEvents beh evt parameters log).1)

/-- Effect of a sequence of operations. -/
def EloquentEvent.run (beh : Behaviour) : EloquentEvent → Log → List Operation → EloquentEvent × Log
  | self, log, [] => (self, log)
  | self, log, op :: rest =>
    EloquentEvent.run beh (self.step beh log op).1 (self.step beh log op).2 rest

/-! ## `EloquentTwitterEvent.js` -/

/-- `EloquentTwitterEvent.TWEET`. -/
def EloquentTwitterEvent.TWEET : String := "TWEET"

/-- `EloquentTwitterEvent.TWEET_NOT_RETWEET`. -/
def EloquentTwitterEvent.TWEET_NOT_RETWEET : String := "TWEET_NOT_RETWEET"

/-- `EloquentTwitterEvent.TWEET_RETWEET`. -/
def EloquentTwitterEvent.TWEET_RETWEET : String := "TWEET_RETWEET"

/-- `EloquentTwitterEvent.DELETE`. -/
def EloquentTwitterEvent.DELETE : String := "DELETE"

/-- `EloquentTwitterEvent.DELETE_DIRECT_MESSAGE`. -/
def EloquentTwitterEvent.DELETE_DIRECT_MESSAGE : String := "DELETE_DIRECT_MESSAGE"

/-- `EloquentTwitterEvent.DELETE_STATUS`. -/
def EloquentTwitterEvent.DELETE_STATUS : String := "DELETE_STATUS"

/-- `EloquentTwitterEvent.ANY`. -/
def EloquentTwitterEvent.ANY : String := "ANY"

/-- `EloquentTwitterEvent.LIMIT`. -/
def EloquentTwitterEvent.LIMIT : String := "LIMIT"

/-- `EloquentTwitterEvent.FRIENDS`. -/
def EloquentTwitterEvent.FRIENDS : String := "FRIENDS"

/-- `EloquentTwitterEvent.DIRECT_MESSAGE`. -/
def EloquentTwitterEvent.DIRECT_MESSAGE : String := "DIRECT_MESSAGE"

/-- `EloquentTwitterEvent.USER_EVENT`. -/
def EloquentTwitterEvent.USER_EVENT : String := "USER_EVENT"

/-- `EloquentTwitterEvent.USER_EVENT_BLOCKED`. -/
def EloquentTwitterEvent.USER_EVENT_BLOCKED : String := "USER_EVENT_BLOCKED"

/-- `EloquentTwitterEvent.USER_EVENT_UNBLOCKED`. -/
def EloquentTwitterEvent.USER_EVENT_UNBLOCKED : String := "USER_EVENT_UNBLOCKED"

/-- `EloquentTwitterEvent.USER_EVENT_FAVORITE`. -/
def EloquentTwitterEvent.USER_EVENT_FAVORITE : String := "USER_EVENT_FAVORITE"

/-- `EloquentTwitterEvent.USER_EVENT_UNFAVORITE`. -/
def EloquentTwitterEvent.USER_EVENT_UNFAVORITE : String := "USER_EVENT_UNFAVORITE"

/-- `EloquentTwitterEvent.USER_EVENT_FOLLOW`. -/
def EloquentTwitterEvent.USER_EVENT_FOLLOW : String := "USER_EVENT_FOLLOW"

/-- `EloquentTwitterEvent.USER_EVENT_UNFOLLOW`. -/
def EloquentTwitterEvent.USER_EVENT_UNFOLLOW : String := "USER_EVENT_UNFOLLOW"

/-- `EloquentTwitterEvent.USER_EVENT_MUTE`. -/
def EloquentTwitterEvent.USER_EVENT_MUTE : String := "USER_EVENT_MUTE"

/-- `EloquentTwitterEvent.USER_EVENT_UNMUTE`. -/
def EloquentTwitterEvent.USER_EVENT_UNMUTE : String := "USER_EVENT_UNMUTE"

/-- `EloquentTwitterEvent.USER_EVENT_USER_UPDATE`. -/
def EloquentTwitterEvent.USER_EVENT_USER_UPDATE : String := "USER_EVENT_USER_UPDATE"

/-- `EloquentTwitterEvent.USER_EVENT_LIST_CREATED`. -/
def EloquentTwitterEvent.USER_EVENT_LIST_CREATED : String := "USER_EVENT_LIST_CREATED"

/-- `EloquentTwitterEvent.USER_EVENT_LIST_DESTROYED`. -/
def EloquentTwitterEvent.USER_EVENT_LIST_DESTROYED : String := "USER_EVENT_LIST_DESTROYED"

/-- `EloquentTwitterEvent.USER_EVENT_LIST_UPDATED`. -/
def EloquentTwitterEvent.USER_EVENT_LIST_UPDATED : String := "USER_EVENT_LIST_UPDATED"

/-- `EloquentTwitterEvent.USER_EVENT_LIST_MEMBER_ADDED`. -/
def EloquentTwitterEvent.USER_EVENT_LIST_MEMBER_ADDED : String := "USER_EVENT_LIST_MEMBER_ADDED"

/-- `EloquentTwitterEvent.USER_EVENT_LIST_MEMBER_REMOVED`. -/
def EloquentTwitterEvent.USER_EVENT_LIST_MEMBER_REMOVED : String := "USER_EVENT_LIST_MEMBER_REMOVED"

/-- `EloquentTwitterEvent.USER_EVENT_LIST_USER_SUBSCRIBED`. -/
def EloquentTwitterEvent.USER_EVENT_LIST_USER_SUBSCRIBED : String := "USER_EVENT_LIST_USER_SUBSCRIBED"

/-- `EloquentTwitterEvent.USER_EVENT_LIST_USER_UNSUBSCRIBED`. -/
def EloquentTwitterEvent.USER_EVENT_LIST_USER_UNSUBSCRIBED : String := "USER_EVENT_LIST_USER_UNSUBSCRIBED"

/-- `EloquentTwitterEvent.USER_EVENT_QUOTED_TWEET`. -/
def EloquentTwitterEvent.USER_EVENT_QUOTED_TWEET : String := "USER_EVENT_QUOTED_TWEET"

/-- `EloquentTwitterEvent.USER_EVENT_RETWEETED_RETWEET`. -/
def EloquentTwitterEvent.USER_EVENT_RETWEETED_RETWEET : String := "USER_EVENT_RETWEETED_RETWEET"

/-- `EloquentTwitterEvent.USER_EVENT_FAVORITED_RETWEET`. -/
def EloquentTwitterEvent.USER_EVENT_FAVORITED_RETWEET : String := "USER_EVENT_FAVORITED_RETWEET"

/-- `EloquentTwitterEvent.USER_EVENT_UNKNOWN`. -/
def EloquentTwitterEvent.USER_EVENT_UNKNOWN : String := "USER_EVENT_UNKNOWN"

/-- `EloquentTwitterEvent.ERROR`. -/
def EloquentTwitterEvent.ERROR : String := "ERROR"

/-- `EloquentTwitterEvent.SCRUB_GEO`. -/
def EloquentTwitterEvent.SCRUB_GEO : String := "SCRUB_GEO"

/-- `EloquentTwitterEvent.DISCONNECT`. -/
def EloquentTwitterEvent.DISCONNECT : String := "DISCONNECT"

/-- `EloquentTwitterEvent.CONNECT`. -/
def EloquentTwitterEvent.CONNECT : String := "CONNECT"

/-- `EloquentTwitterEvent.CONNECTED`. -/
def EloquentTwitterEvent.CONNECTED : String := "CONNECTED"

/-- `EloquentTwitterEvent.RECONNECT`. -/
def EloquentTwitterEvent.RECONNECT : String := "RECONNECT"

/-- `EloquentTwitterEvent.WARNING`. -/
def EloquentTwitterEvent.WARNING : String := "WARNING"

/-- `EloquentTwitterEvent.STATUS_WITHHELD`. -/
def EloquentTwitterEvent.STATUS_WITHHELD : String := "STATUS_WITHHELD"

/-- `EloquentTwitterEvent.USER_WITHHELD`. -/
def EloquentTwitterEvent.USER_WITHHELD : String := "USER_WITHHELD"

/-- `EloquentTwitterEvent.OTHER`. -/
def EloquentTwitterEvent.OTHER : String := "OTHER"

/-! ## `EloquentTwitter.js`: stream handlers -/

/-- The two streams of an instance. -/
inductive StreamKind where
  | user : StreamKind
  | statusesFilter : StreamKind

/-- How a forwarding handler presents the payload it received: as it is, inside
`new DataEvent(data)`, or inside `new DataError(data)`. -/
inductive Wrapper where
  | raw : Wrapper
  | dataEvent : Wrapper
  | dataError : Wrapper

/-- The wrapper applied to a payload. -/
def Wrapper.apply : Wrapper → JVal → JSArg
  | .raw, data => .raw data
  | .dataEvent, data => .dataEvent (DataEvent.constructor data)
  | .dataError, data => .dataError (DataError.constructor data)

/-- The anonymous functions that `startUserStream` and
`startStatusesFilterStream` hand to `on`.  `forward stream logical wrapper` is
`function (data) { self.<registry of stream>.fireEvents(logical, [wrapper(data)]); }`,
the shape of every handler except those of `tweet`, `delete`, `reconnect` and
`direct_message`. -/
inductive Handler where
  | tweet (stream : StreamKind) : Handler
  | delete : Handler
  | directMessage : Handler
  | reconnect (stream : StreamKind) : Handler
  | forward (stream : StreamKind) (logical : String) (wrapper : Wrapper) : Handler

/-- The stream whose registry a handler fires on. -/
def Handler.stream : Handler → StreamKind
  | .tweet stream => stream
  | .delete => .user
  | .directMessage => .user
  | .reconnect stream => stream
  | .forward stream _ _ => stream

/-- A call received by a streaming connection. -/
inductive ConnectionCall where
  | start : ConnectionCall
  | stop : ConnectionCall

/-- The streaming connection object of the external client: its identity, the
path and the `track` parameter it was created with (serialised by the client
when the connection is created), the listeners bound with `on` in binding
order, and the `start()` and `stop()` calls it has received. -/
structure StreamingAPIConnection where
  id : Nat
  path : String
  track : Option (List JVal)
  listeners : List (String × Handler)
  calls : List ConnectionCall

/-- `connection.on(name, handler)`. -/
def StreamingAPIConnection.on (c : StreamingAPIConnection) (name : String) (handler : Handler) :
    StreamingAPIConnection :=
  { c with listeners := c.listeners ++ [(name, handler)] }

/-- A sequence of `on` calls, in order. -/
def StreamingAPIConnection.onAll (c : StreamingAPIConnection) :
    List (String × Handler) → StreamingAPIConnection
  | [] => c
  | (name, handler) :: rest => StreamingAPIConnection.onAll (c.on name handler) rest

/-- `connection.start()`. -/
def StreamingAPIConnection.start (c : StreamingAPIConnection) : StreamingAPIConnection :=
  { c with calls := c.calls ++ [.start] }

/-- `connection.stop()`. -/
def StreamingAPIConnection.stop (c : StreamingAPIConnection) : StreamingAPIConnection :=
  { c with calls := c.calls ++ [.stop] }

/-- The external client object `new Twit(keys)`, as far as streams go: the
`stream(path, params)` calls it has received, oldest first. -/
structure Twit where
  streams : List (String × Option (List JVal))

/-- `twit.stream(path, { track })` (`track = none` when no parameters are
given): records the call and returns a new connection. -/
def Twit.stream (t : Twit) (path : String) (track : Option (List JVal)) :
    Twit × StreamingAPIConnection :=
  ({ streams := t.streams ++ [(path, track)] },
   { id := t.streams.length, path := path, track := track, listeners := [], calls := [] })

/-- An `EloquentTwitter` instance: its identity (handed to the wrappers as
`self`), the two registries, the client (`null` when no keys were given), the
two stored connections (`null` when unbound) and the track list. -/
structure EloquentTwitter where
  ref : Nat
  _userStreamEvents : EloquentEvent
  _statusesFilterStreamEvents : EloquentEvent
  _twit : Option Twit
  _userStream : Option StreamingAPIConnection
  _statusesFilterStream : Option StreamingAPIConnection
  _trackaStatusesFilterStream : List JVal

/-- The body shared, word for word, by the two handlers bound to the external
event `tweet` (in `startUserStream` and in `startStatusesFilterStream`); they
differ only in the registry `events` they fire on.  `self` is the identity of
the instance. -/
def tweetHandler (beh : Behaviour) (events : EloquentEvent) (self : Nat) (data : JVal) (log : Log) :
    Log × Except JSError Unit :=
  let tweet := DataTweet.constructor data (some self)
  match events.fireEvents beh EloquentTwitterEvent.TWEET (some [.dataTweet tweet]) log with
  | (log1, .error e) => (log1, .error e)
  | (log1, .ok _) =>
    match tweet.isRetweet with
    | .error e => (log1, .error e)
    | .ok true =>
      match events.fireEvents beh EloquentTwitterEvent.TWEET_RETWEET (some [.dataTweet tweet]) log1 with
      | (log2, .error e) => (log2, .error e)
      | (log2, .ok _) => (log2, .ok ())
    | .ok false =>
      match events.fireEvents beh EloquentTwitterEvent.TWEET_NOT_RETWEET (some [.dataTweet tweet]) log1 with
      | (log2, .error e) => (log2, .error e)
      | (log2, .ok _) => (log2, .ok ())

/-- The handler that `startUserStream` binds to `tweet`. -/
def EloquentTwitter.startUserStream_tweet (beh : Behaviour) (self : EloquentTwitter) (data : JVal)
    (log : Log) : Log × Except JSError Unit :=
  tweetHandler beh self._userStreamEvents self.ref data log

/-- The handler that `startStatusesFilterStream` binds to `tweet`. -/
def EloquentTwitter.startStatusesFilterStream_tweet (beh : Behaviour) (self : EloquentTwitter)
    (data : JVal) (log : Log) : Log × Except JSError Unit :=
  tweetHandler beh self._statusesFilterStreamEvents self.ref data log

/-- The handler that `startUserStream` binds to `delete`.  The argument of the
first `fireEvents` call, `data.delete.direct_message`, is evaluated before the
call; the same expression is read again by the `if` and by the wrapper. -/
def EloquentTwitter.startUserStream_delete (beh : Behaviour) (self : EloquentTwitter) (data : JVal)
    (log : Log) : Log × Except JSError Unit :=
  match data.getProp "delete" with
  | .error e => (log, .error e)
  | .ok del =>
    match del.getProp "direct_message" with
    | .error e => (log, .error e)
    | .ok directMessage =>
      match self._userStreamEvents.fireEvents beh EloquentTwitterEvent.DELETE
          (some [.raw directMessage]) log with
      | (log1, .error e) => (log1, .error e)
      | (log1, .ok _) =>
        if directMessage.truthy then
          match self._userStreamEvents.fireEvents beh EloquentTwitterEvent.DELETE_DIRECT_MESSAGE
              (some [.dataDirectMessageDelete (DataDirectMessageDelete.constructor directMessage)])
              log1 with
          | (log2, .error e) => (log2, .error e)
          | (log2, .ok _) => (log2, .ok ())
        else
          match del.getProp "status" with
          | .error e => (log1, .error e)
          | .ok status =>
            match self._userStreamEvents.fireEvents beh EloquentTwitterEvent.DELETE_STATUS
                (some [.dataTweetDelete (DataTweetDelete.constructor status)]) log1 with
            | (log2, .error e) => (log2, .error e)
            | (log2, .ok _) => (log2, .ok ())

/-! ## `EloquentTwitter.js`: construction, registration, track list -/

/-- `new EloquentTwitter(keysObject)` for the instance of identity `ref`:
`setKeys` stores `new Twit(keysObject)` when keys are given and `null`
otherwise, both registries are new, no connection is stored, the track list is
empty. -/
def EloquentTwitter.constructor (ref : Nat) (keysObject : JVal) : EloquentTwitter :=
  { ref := ref
    _userStreamEvents := EloquentEvent.constructor
    _statusesFilterStreamEvents := EloquentEvent.constructor
    _twit := if keysObject.truthy then some { streams := [] } else none
    _userStream := none
    _statusesFilterStream := none
    _trackaStatusesFilterStream := [] }

/-- The registry of a stream. -/
def EloquentTwitter.events (self : EloquentTwitter) : StreamKind → EloquentEvent
  | .user => self._userStreamEvents
  | .statusesFilter => self._statusesFilterStreamEvents

/-- `getTrackaStatusesFilterStream()`. -/
def EloquentTwitter.getTrackaStatusesFilterStream (self : EloquentTwitter) : List JVal :=
  self._trackaStatusesFilterStream

/-- `registerUserStreamEvent(on, fun)`. -/
def EloquentTwitter.registerUserStreamEvent (self : EloquentTwitter) (evt : String)
    (fn : Subscriber) : Except JSError EloquentTwitter :=
  match self._userStreamEvents.registerEvent evt fn with
  | .error e => .error e
  | .ok r => .ok { self with _userStreamEvents := r }

/-- `registerStatusesFilterStreamEvent(on, fun)`. -/
def EloquentTwitter.registerStatusesFilterStreamEvent (self : EloquentTwitter) (evt : String)
    (fn : Subscriber) : Except JSError EloquentTwitter :=
  match self._statusesFilterStreamEvents.registerEvent evt fn with
  | .error e => .error e
  | .ok r => .ok { self with _statusesFilterStreamEvents := r }

/-- `addTracksToStatusesFilterStream(...tracks)`: the rest parameter `tracks`
is the list of the arguments of the call, and `push(...tracks)` appends each
argument, as it is, to the track list. -/
def EloquentTwitter.addTracksToStatusesFilterStream (self : EloquentTwitter)
    (tracks : List JVal) : EloquentTwitter :=
  { self with _trackaStatusesFilterStream := self._trackaStatusesFilterStream ++ tracks }

/-- `resetTracksToStatusesFilterStream()`. -/
def EloquentTwitter.resetTracksToStatusesFilterStream (self : EloquentTwitter) : EloquentTwitter :=
  { self with _trackaStatusesFilterStream := [] }

/-! ## `EloquentTwitter.js`: the handlers and their bindings -/

/-- A handler of the shape
`function (data) { registry.fireEvents(logical, [wrapper(data)]); }`. -/
def forwardHandler (beh : Behaviour) (events : EloquentEvent) (logical : String)
    (wrapper : Wrapper) (data : JVal) (log : Log) : Log × Except JSError Unit :=
  match events.fireEvents beh logical (some [wrapper.apply data]) log with
  | (log1, .error e) => (log1, .error e)
  | (log1, .ok _) => (log1, .ok ())

/-- The handler bound to `reconnect` on either stream:
`function (request, response, connectInterval)` fires `RECONNECT` with the
three values. -/
def reconnectHandler (beh : Behaviour) (events : EloquentEvent)
    (request response connectInterval : JVal) (log : Log) : Log × Except JSError Unit :=
  match events.fireEvents beh EloquentTwitterEvent.RECONNECT
      (some [.raw request, .raw response, .raw connectInterval]) log with
  | (log1, .error e) => (log1, .error e)
  | (log1, .ok _) => (log1, .ok ())

/-- The handler that `startUserStream` binds to `direct_message`: the argument
`new DataDirectMessage(data.direct_message)` is built before the call. -/
def EloquentTwitter.startUserStream_direct_message (beh : Behaviour) (self : EloquentTwitter)
    (data : JVal) (log : Log) : Log × Except JSError Unit :=
  match data.getProp "direct_message" with
  | .error e => (log, .error e)
  | .ok directMessage =>
    match self._userStreamEvents.fireEvents beh EloquentTwitterEvent.DIRECT_MESSAGE
        (some [.dataDirectMessage (DataDirectMessage.constructor directMessage none)]) log with
    | (log1, .error e) => (log1, .error e)
    | (log1, .ok _) => (log1, .ok ())

/-- What a handler does when the connection calls it with `args`; a parameter
for which no argument is given is `undefined`. -/
def Handler.run (beh : Behaviour) (self : EloquentTwitter) :
    Handler → List JVal → Log → Log × Except JSError Unit
  | .tweet .user, args, log => self.startUserStream_tweet beh (args.getD 0 .undefined) log
  | .tweet .statusesFilter, args, log =>
    self.startStatusesFilterStream_tweet beh (args.getD 0 .undefined) log
  | .delete, args, log => self.startUserStream_delete beh (args.getD 0 .undefined) log
  | .directMessage, args, log =>
    self.startUserStream_direct_message beh (args.getD 0 .undefined) log
  | .reconnect stream, args, log =>
    reconnectHandler beh (self.events stream) (args.getD 0 .undefined) (args.getD 1 .undefined)
      (args.getD 2 .undefined) log
  | .forward stream logical wrapper, args, log =>
    forwardHandler beh (self.events stream) logical wrapper (args.getD 0 .undefined) log

/-- The `on` calls of `startUserStream`, in source order: external event name
and handler. -/
def userStreamBindings : List (String × Handler) :=
  [("tweet", .tweet .user),
   ("delete", .delete),
   ("limit", .forward .user EloquentTwitterEvent.LIMIT .raw),
   ("scrub_geo", .forward .user EloquentTwitterEvent.SCRUB_GEO .raw),
   ("disconnect", .forward .user EloquentTwitterEvent.DISCONNECT .raw),
   ("connect", .forward .user EloquentTwitterEvent.CONNECT .raw),
   ("connected", .forward .user EloquentTwitterEvent.CONNECTED .raw),
   ("reconnect", .reconnect .user),
   ("warning", .forward .user EloquentTwitterEvent.WARNING .raw),
   ("status_withheld", .forward .user EloquentTwitterEvent.STATUS_WITHHELD .raw),
   ("user_withheld", .forward .user EloquentTwitterEvent.USER_WITHHELD .raw),
   ("friends", .forward .user EloquentTwitterEvent.FRIENDS .raw),
   ("user_event", .forward .user EloquentTwitterEvent.USER_EVENT .raw),
   ("direct_message", .directMessage),
   ("blocked", .forward .user EloquentTwitterEvent.USER_EVENT_BLOCKED .dataEvent),
   ("unblocked", .forward .user EloquentTwitterEvent.USER_EVENT_UNBLOCKED .dataEvent),
   ("favorite", .forward .user EloquentTwitterEvent.USER_EVENT_FAVORITE .dataEvent),
   ("unfavorite", .forward .user EloquentTwitterEvent.USER_EVENT_UNFAVORITE .dataEvent),
   ("follow", .forward .user EloquentTwitterEvent.USER_EVENT_FOLLOW .dataEvent),
   ("unfollow", .forward .user EloquentTwitterEvent.USER_EVENT_UNFOLLOW .dataEvent),
   ("mute", .forward .user EloquentTwitterEvent.USER_EVENT_MUTE .dataEvent),
   ("unmute", .forward .user EloquentTwitterEvent.USER_EVENT_UNMUTE .dataEvent),
   ("user_update", .forward .user EloquentTwitterEvent.USER_EVENT_USER_UPDATE .dataEvent),
   ("list_created", .forward .user EloquentTwitterEvent.USER_EVENT_LIST_CREATED .dataEvent),
   ("list_updated", .forward .user EloquentTwitterEvent.USER_EVENT_LIST_UPDATED .dataEvent),
   ("list_destroyed", .forward .user EloquentTwitterEvent.USER_EVENT_LIST_DESTROYED .dataEvent),
   ("list_member_added", .forward .user EloquentTwitterEvent.USER_EVENT_LIST_MEMBER_ADDED .dataEvent),
   ("list_member_removed", .forward .user EloquentTwitterEvent.USER_EVENT_LIST_MEMBER_REMOVED .dataEvent),
   ("list_user_subscribed", .forward .user EloquentTwitterEvent.USER_EVENT_LIST_USER_SUBSCRIBED .dataEvent),
   ("quoted_tweet", .forward .user EloquentTwitterEvent.USER_EVENT_QUOTED_TWEET .dataEvent),
   ("retweeted_retweet", .forward .user EloquentTwitterEvent.USER_EVENT_RETWEETED_RETWEET .dataEvent),
   ("favorited_retweet", .forward .user EloquentTwitterEvent.USER_EVENT_FAVORITED_RETWEET .dataEvent),
   ("unknown_user_event ", .forward .user EloquentTwitterEvent.USER_EVENT_UNKNOWN .dataEvent),
   ("error", .forward .user EloquentTwitterEvent.ERROR .dataError),
   ("message", .forward .user EloquentTwitterEvent.ANY .raw)]

/-- The `on` calls of `startStatusesFilterStream`, in source order. -/
def statusesFilterStreamBindings : List (String × Handler) :=
  [("tweet", .tweet .statusesFilter),
   ("limit", .forward .statusesFilter EloquentTwitterEvent.LIMIT .raw),
   ("scrub_geo", .forward .statusesFilter EloquentTwitterEvent.SCRUB_GEO .raw),
   ("disconnect", .forward .statusesFilter EloquentTwitterEvent.DISCONNECT .raw),
   ("connect", .forward .statusesFilter EloquentTwitterEvent.CONNECT .raw),
   ("connected", .forward .statusesFilter EloquentTwitterEvent.CONNECTED .raw),
   ("reconnect", .reconnect .statusesFilter),
   ("warning", .forward .statusesFilter EloquentTwitterEvent.WARNING .raw),
   ("status_withheld", .forward .statusesFilter EloquentTwitterEvent.STATUS_WITHHELD .raw),
   ("user_withheld", .forward .statusesFilter EloquentTwitterEvent.USER_WITHHELD .raw)]

/-- The listeners bound to `name` are called in binding order with the
arguments of the event; an exception thrown by one of them leaves the
emission. -/
def runListeners (beh : Behaviour) (self : EloquentTwitter) :
    List (String × Handler) → String → List JVal → Log → Log × Except JSError Unit
  | [], _, _, log => (log, .ok ())
  | (bound, handler) :: rest, name, args, log =>
    if bound = name then
      match handler.run beh self args log with
      | (log1, .error e) => (log1, .error e)
      | (log1, .ok _) => runListeners beh self rest name args log1
    else runListeners beh self rest name args log

/-- The connection emits the external event `name` with `args` while the
instance is in state `self` (the emitter of the client: an `error` event
without a listener throws its argument). -/
def StreamingAPIConnection.emit (beh : Behaviour) (self : EloquentTwitter)
    (c : StreamingAPIConnection) (name : String) (args : List JVal) (log : Log) :
    Log × Except JSError Unit :=
  if name = "error" ∧ (c.listeners.any (fun l => l.1 == "error")) = false then
    (log, .error (.thrown (args.getD 0 .undefined)))
  else runListeners beh self c.listeners name args log

/-! ## `EloquentTwitter.js`: starting and stopping the streams -/

/-- `startUserStream()`: the state it leaves and the connection it returns, or
the exception of `this._twit.stream` when there is no client. -/
def EloquentTwitter.startUserStream (self : EloquentTwitter) :
    EloquentTwitter × Except JSError StreamingAPIConnection :=
  match self._userStream with
  | none =>
    match self._twit with
    | none => (self, .error (.typeError "Cannot read properties of null (reading stream)"))
    | some twit =>
      ({ self with
          _twit := some (twit.stream "user" none).1
          _userStream := some ((twit.stream "user" none).2.onAll userStreamBindings) },
        .ok ((twit.stream "user" none).2.onAll userStreamBindings))
  | some connection =>
    ({ self with _userStream := some connection.start }, .ok connection.start)

/-- `stopUserStream()`: the connection is stopped and stays stored. -/
def EloquentTwitter.stopUserStream (self : EloquentTwitter) :
    EloquentTwitter × Option StreamingAPIConnection :=
  match self._userStream with
  | none => (self, none)
  | some connection => ({ self with _userStream := some connection.stop }, some connection.stop)

/-- `startStatusesFilterStream()`: a new connection is created with
`{ track: this._trackaStatusesFilterStream }`. -/
def EloquentTwitter.startStatusesFilterStream (self : EloquentTwitter) :
    EloquentTwitter × Except JSError StreamingAPIConnection :=
  match self._statusesFilterStream with
  | none =>
    match self._twit with
    | none => (self, .error (.typeError "Cannot read properties of null (reading stream)"))
    | some twit =>
      ({ self with
          _twit := some (twit.stream "statuses/filter" (some self._trackaStatusesFilterStream)).1
          _statusesFilterStream :=
            some ((twit.stream "statuses/filter"
              (some self._trackaStatusesFilterStream)).2.onAll statusesFilterStreamBindings) },
        .ok ((twit.stream "statuses/filter"
          (some self._trackaStatusesFilterStream)).2.onAll statusesFilterStreamBindings))
  | some connection =>
    ({ self with _statusesFilterStream := some connection.start }, .ok connection.start)

/-- `stopStatusesFilterStream()`: the connection is stopped, the field is set
to `null`, and the field (now `null`) is returned. -/
def EloquentTwitter.stopStatusesFilterStream (self : EloquentTwitter) :
    EloquentTwitter × Option StreamingAPIConnection :=
  match self._statusesFilterStream with
  | none => (self, none)
  | some _ => ({ self with _statusesFilterStream := none }, none)

/-- `restartStatusesFilterStream()`. -/
def EloquentTwitter.restartStatusesFilterStream (self : EloquentTwitter) :
    EloquentTwitter × Except JSError StreamingAPIConnection :=
  self.stopStatusesFilterStream.1.startStatusesFilterStream

/-! ## `EloquentTwitter.js`: REST operations -/

/-- Identity of a callback handed to a REST operation. -/
abbrev Callback := Nat

/-- The request methods of the client. -/
inductive HttpMethod where
  | get : HttpMethod
  | post : HttpMethod
  | delete : HttpMethod

/-- What a REST operation hands to `this._twit.get`, `.post` or `.delete`: the
path, the parameter object, and the function `function (err, data, response)`
that the client calls with the answer. -/
structure RestRequest where
  method : HttpMethod
  path : String
  params : List (String × JVal)
  callback : Behaviour → JVal → JVal → Log → Log × Except JSError Unit

/-- A call `fn(...args)` of a callback: it is logged and it returns or
throws. -/
def callFunction (beh : Behaviour) (fn : Callback) (args : List JSArg) (log : Log) :
    Log × Except JSError Unit :=
  match beh log fn args with
  | some e => (log ++ [.invoked fn args], .error (.thrown e))
  | none => (log ++ [.invoked fn args], .ok ())

/-- The answer function shared by the plain REST operations:
`if (err) return (errorCallback) ? errorCallback(new DataError(err)) : null;`
`if (successCallback) successCallback(wrap(data));`
An omitted callback is `none`. -/
def restCallback (successCallback errorCallback : Option Callback) (wrap : JVal → JSArg)
    (beh : Behaviour) (err data : JVal) (log : Log) : Log × Except JSError Unit :=
  if err.truthy then
    match errorCallback with
    | some callback => callFunction beh callback [.dataError (DataError.constructor err)] log
    | none => (log, .ok ())
  else
    match successCallback with
    | some callback => callFunction beh callback [wrap data] log
    | none => (log, .ok ())

/-- Create or overwrite a member of an object literal. -/
def JVal.setField : List (String × JVal) → String → JVal → List (String × JVal)
  | [], key, v => [(key, v)]
  | (k, w) :: rest, key, v =>
    if k = key then (k, v) :: rest else (k, w) :: JVal.setField rest key v

/-- Object spread `{ ...base, ...parameters }` for `parameters` an object
literal or `undefined` (or another value without own enumerable members). -/
def JVal.spreadInto (base : List (String × JVal)) : JVal → List (String × JVal)
  | .obj fields => fields.foldl (fun acc member => JVal.setField acc member.1 member.2) base
  | _ => base

/-- The call `this._twit.<method>(path, params, callback)`: it throws when the
instance has no client. -/
def EloquentTwitter.request (self : EloquentTwitter) (method : HttpMethod) (path : String)
    (params : List (String × JVal))
    (callback : Behaviour → JVal → JVal → Log → Log × Except JSError Unit) :
    Except JSError RestRequest :=
  match self._twit with
  | none => .error (.typeError "Cannot read properties of null")
  | some _ => .ok { method := method, path := path, params := params, callback := callback }

/-- `getCurrentUserInfo(successCallback, errorCallback)`. -/
def EloquentTwitter.getCurrentUserInfo (self : EloquentTwitter)
    (successCallback errorCallback : Option Callback) : Except JSError RestRequest :=
  self.request .get "account/verify_credentials"
    [("include_entities", .bool true), ("include_email", .bool true)]
    (restCallback successCallback errorCallback
      (fun data => .dataUser (DataUser.constructor data)))

/-- `getTweetsByID(tweetId, successCallback, errorCallback)`. -/
def EloquentTwitter.getTweetsByID (self : EloquentTwitter) (tweetId : JVal)
    (successCallback errorCallback : Option Callback) : Except JSError RestRequest :=
  self.request .get "statuses/show/:id"
    [("id", tweetId), ("include_my_retweet", .bool true), ("tweet_mode", .str "extended"),
     ("result_type", .str "recent"), ("include_entities", .bool true)]
    (restCallback successCallback errorCallback
      (fun tweet => .dataTweet (DataTweet.constructor tweet (some self.ref))))

/-- `getUserByID(userId, successCallback, errorCallback)`. -/
def EloquentTwitter.getUserByID (self : EloquentTwitter) (userId : JVal)
    (successCallback errorCallback : Option Callback) : Except JSError RestRequest :=
  self.request .get "users/show"
    [("id", userId), ("tweet_mode", .str "extended"), ("include_entities", .bool true)]
    (restCallback successCallback errorCallback
      (fun data => .dataUser (DataUser.constructor data)))

/-- `getUserByUsername(username, successCallback, errorCallback)`. -/
def EloquentTwitter.getUserByUsername (self : EloquentTwitter) (username : JVal)
    (successCallback errorCallback : Option Callback) : Except JSError RestRequest :=
  self.request .get "users/show"
    [("screen_name", username), ("tweet_mode", .str "extended"),
     ("include_entities", .bool true)]
    (restCallback successCallback errorCallback
      (fun data => .dataUser (DataUser.constructor data)))

/-- `postNewTweet(text, successCallback, errorCallback, parameters)`. -/
def EloquentTwitter.postNewTweet (self : EloquentTwitter) (text : JVal)
    (successCallback errorCallback : Option Callback) (parameters : JVal) :
    Except JSError RestRequest :=
  self.request .post "statuses/update" (JVal.spreadInto [("status", text)] parameters)
    (restCallback successCallback errorCallback
      (fun tweet => .dataTweet (DataTweet.constructor tweet (some self.ref))))

/-- `retweet(tweetId, successCallback, errorCallback)`. -/
def EloquentTwitter.retweet (self : EloquentTwitter) (tweetId : JVal)
    (successCallback errorCallback : Option Callback) : Except JSError RestRequest :=
  self.request .post "statuses/retweet" [("id", tweetId), ("tweet_mode", .str "extended")]
    (restCallback successCallback errorCallback
      (fun tweet => .dataTweet (DataTweet.constructor tweet (some self.ref))))

/-- `unretweet(tweetId, successCallback, errorCallback)`. -/
def EloquentTwitter.unretweet (self : EloquentTwitter) (tweetId : JVal)
    (successCallback errorCallback : Option Callback) : Except JSError RestRequest :=
  self.request .post "statuses/unretweet" [("id", tweetId), ("tweet_mode", .str "extended")]
    (restCallback successCallback errorCallback
      (fun tweet => .dataTweet (DataTweet.constructor tweet (some self.ref))))

/-- `favorite(tweetId, successCallback, errorCallback)`. -/
def EloquentTwitter.favorite (self : EloquentTwitter) (tweetId : JVal)
    (successCallback errorCallback : Option Callback) : Except JSError RestRequest :=
  self.request .post "favorites/create" [("id", tweetId), ("tweet_mode", .str "extended")]
    (restCallback successCallback errorCallback
      (fun tweet => .dataTweet (DataTweet.constructor tweet (some self.ref))))

/-- `unfavorite(tweetId, successCallback, errorCallback)`. -/
def EloquentTwitter.unfavorite (self : EloquentTwitter) (tweetId : JVal)
    (successCallback errorCallback : Option Callback) : Except JSError RestRequest :=
  self.request .post "favorites/destroy" [("id", tweetId), ("tweet_mode", .str "extended")]
    (restCallback successCallback errorCallback
      (fun tweet => .dataTweet (DataTweet.constructor tweet (some self.ref))))

/-- `deleteTweet(tweetId, successCallback, errorCallback)`. -/
def EloquentTwitter.deleteTweet (self : EloquentTwitter) (tweetId : JVal)
    (successCallback errorCallback : Option Callback) : Except JSError RestRequest :=
  self.request .post "statuses/destroy" [("id", tweetId)]
    (restCallback successCallback errorCallback
      (fun tweet => .dataTweet (DataTweet.constructor tweet (some self.ref))))

/-- `getDirectMessage(messageId, successCallback, errorCallback)`. -/
def EloquentTwitter.getDirectMessage (self : EloquentTwitter) (messageId : JVal)
    (successCallback errorCallback : Option Callback) : Except JSError RestRequest :=
  self.request .get "direct_messages/show" [("id", messageId)]
    (restCallback successCallback errorCallback
      (fun data => .dataDirectMessage (DataDirectMessage.constructor data none)))

/-- `deleteDirectMessage(directMessageID, successCallback, errorCallback)`: the
success callback receives `data` as it is. -/
def EloquentTwitter.deleteDirectMessage (self : EloquentTwitter) (directMessageID : JVal)
    (successCallback errorCallback : Option Callback) : Except JSError RestRequest :=
  self.request .delete "direct_messages/events/destroy" [("id", directMessageID)]
    (restCallback successCallback errorCallback (fun data => .raw data))

/-- The answer function of `getUserConnectionsByUserId`:
`if (err) return (errorCallback) ? new errorCallback(DataError(err)) : null;`
`if (successCallback) successCallback(new DataConnections(data));`
The argument `DataError(err)` is evaluated first; `DataError` is a class, and
calling a class without `new` throws. -/
def connectionsCallback (successCallback errorCallback : Option Callback)
    (beh : Behaviour) (err data : JVal) (log : Log) : Log × Except JSError Unit :=
  if err.truthy then
    match errorCallback with
    | some _ =>
      (log, .error (.typeError "Class constructor DataError cannot be invoked without new"))
    | none => (log, .ok ())
  else
    match successCallback with
    | some callback =>
      callFunction beh callback [.dataConnections (DataConnections.constructor data)] log
    | none => (log, .ok ())

/-- `getUserConnectionsByUserId(userId, successCallback, errorCallback,
parameters)`. -/
def EloquentTwitter.getUserConnectionsByUserId (self : EloquentTwitter) (userId : JVal)
    (successCallback errorCallback : Option Callback) (parameters : JVal) :
    Except JSError RestRequest :=
  self.request .get "friendships/lookup" (JVal.spreadInto [("user_id", userId)] parameters)
    (connectionsCallback successCallback errorCallback)

/-- `getUserConnectionsByUsername(username, successCallback, errorCallback,
parameters)`: its own `parameters` is not passed on. -/
def EloquentTwitter.getUserConnectionsByUsername (self : EloquentTwitter) (username : JVal)
    (successCallback errorCallback : Option Callback) (_parameters : JVal) :
    Except JSError RestRequest :=
  self.getUserConnectionsByUserId .null successCallback errorCallback
    (.obj [("screen_name", username)])

/-! ## Sequences of calls on an instance -/

/-- A call of one of the public methods that register subscribers, change the
track list, or start and stop the streams. -/
inductive Call where
  | registerUserStreamEvent (evt : String) (fn : Subscriber) : Call
  | registerStatusesFilterStreamEvent (evt : String) (fn : Subscriber) : Call
  | addTracksToStatusesFilterStream (tracks : List JVal) : Call
  | resetTracksToStatusesFilterStream : Call
  | startUserStream : Call
  | stopUserStream : Call
  | startStatusesFilterStream : Call
  | stopStatusesFilterStream : Call
  | restartStatusesFilterStream : Call

/-- The state an instance is in after a call, whether the call returned or
threw. -/
def EloquentTwitter.call (self : EloquentTwitter) : Call → EloquentTwitter
  | .registerUserStreamEvent evt fn =>
    match self.registerUserStreamEvent evt fn with
    | .ok r => r
    | .error _ => self
  | .registerStatusesFilterStreamEvent evt fn =>
    match self.registerStatusesFilterStreamEvent evt fn with
    | .ok r => r
    | .error _ => self
  | .addTracksToStatusesFilterStream tracks => self.addTracksToStatusesFilterStream tracks
  | .resetTracksToStatusesFilterStream => self.resetTracksToStatusesFilterStream
  | .startUserStream => self.startUserStream.1
  | .stopUserStream => self.stopUserStream.1
  | .startStatusesFilterStream => self.startStatusesFilterStream.1
  | .stopStatusesFilterStream => self.stopStatusesFilterStream.1
  | .restartStatusesFilterStream => self.restartStatusesFilterStream.1

/-- The state after a sequence of calls. -/
def EloquentTwitter.calls : EloquentTwitter → List Call → EloquentTwitter
  | self, [] => self
  | self, c :: rest => EloquentTwitter.calls (self.call c) rest

/-- The registrations that a sequence of calls makes on the user-stream
registry, in order. -/
def userStreamRegistrations : List Call → List (String × Subscriber)
  | [] => []
  | .registerUserStreamEvent evt fn :: rest => (evt, fn) :: userStreamRegistrations rest
  | _ :: rest => userStreamRegistrations rest

/-- The registrations that a sequence of calls makes on the statuses-filter
registry, in order. -/
def statusesFilterStreamRegistrations : List Call → List (String × Subscriber)
  | [] => []
  | .registerStatusesFilterStreamEvent evt fn :: rest =>
    (evt, fn) :: statusesFilterStreamRegistrations rest
  | _ :: rest => statusesFilterStreamRegistrations rest

/-- The log `after` continues the log `before`, and every subscriber invoked
in the continuation is stored in the registry `events` under some name. -/
def ContinuesWithin (events : EloquentEvent) (before after : Log) : Prop :=
  ∃ added, after = before ++ added ∧
    ∀ g ∈ invokedIn added, ∃ name, g ∈ events.subscribers name

/-- What holds of an instance after the calls `done`: every subscriber stored
in a registry was registered on that registry by one of the calls, and the
listeners of a stored connection belong to the stream of that connection. -/
def EloquentTwitter.Consistent (self : EloquentTwitter) (done : List Call) : Prop :=
  (∀ name subs, self._userStreamEvents._eventContainer.own.get name = some subs →
      ∀ g ∈ subs, (name, g) ∈ userStreamRegistrations done)
  ∧ (∀ name subs, self._statusesFilterStreamEvents._eventContainer.own.get name = some subs →
      ∀ g ∈ subs, (name, g) ∈ statusesFilterStreamRegistrations done)
  ∧ (∀ c, self._userStream = some c → ∀ l ∈ c.listeners, l.2.stream = .user)
  ∧ (∀ c, self._statusesFilterStream = some c →
      ∀ l ∈ c.listeners, l.2.stream = .statusesFilter)

/-! ## `data/DataTweet.js`, `data/DataExtendedTweet.js`: accessors -/

/-- Strict equality `a === b` between a value read from a
payload and a value of the caller: primitives are compared by value, an array
or an object of a payload is never the same object as the other operand.
Numbers are integers, so `NaN` does not occur. -/
def JVal.strictEquals : JVal → JVal → Bool
  | .undefined, .undefined => true
  | .null, .null => true
  | .bool a, .bool b => a == b
  | .num a, .num b => a == b
  | .str a, .str b => a == b
  | _, _ => false

/-- Getter `id`: `this._data.id_str`. -/
def DataTweet.id (t : DataTweet) : Except JSError JVal :=
  t._data.getProp "id_str"

/-- Getter `inReplyToStatusId`: `this._data.in_reply_to_status_id_str`. -/
def DataTweet.inReplyToStatusId (t : DataTweet) : Except JSError JVal :=
  t._data.getProp "in_reply_to_status_id_str"

/-- `isThisReply()`: `this.inReplyToStatusId !== null`. -/
def DataTweet.isThisReply (t : DataTweet) : Except JSError Bool :=
  match t.inReplyToStatusId with
  | .error e => .error e
  | .ok v => .ok (!(v.strictEquals .null))

/-- Getter `retweetCount`: `this._data.retweet_count`. -/
def DataTweet.retweetCount (t : DataTweet) : Except JSError JVal :=
  t._data.getProp "retweet_count"

/-- Getter `favoriteCount`: `this._data.retweet_count`. -/
def DataTweet.favoriteCount (t : DataTweet) : Except JSError JVal :=
  t._data.getProp "retweet_count"

/-- `DataExtendedTweet`: a view over the `extended_tweet` member of a tweet. -/
structure DataExtendedTweet where
  _data : JVal

/-- `new DataExtendedTweet(extendedTweet)`. -/
def DataExtendedTweet.constructor (extendedTweet : JVal) : DataExtendedTweet :=
  { _data := extendedTweet }

/-- Getter `text` of `DataExtendedTweet`: `this._data.full_text`. -/
def DataExtendedTweet.text (e : DataExtendedTweet) : Except JSError JVal :=
  e._data.getProp "full_text"

/-- Getter `extendedTweet`:
`(this._data.extended_tweet) ? new DataExtendedTweet(this._data.extended_tweet) : null`. -/
def DataTweet.extendedTweet (t : DataTweet) : Except JSError (Option DataExtendedTweet) :=
  match t._data.getProp "extended_tweet" with
  | .error e => .error e
  | .ok v => .ok (if v.truthy then some (DataExtendedTweet.constructor v) else none)

/-- Getter `text`:
`if (this._data.full_text) return this._data.full_text;`
`let objExtendTweet = this.extendedTweet;`
`return (objExtendTweet == null) ? this._data.text : objExtendTweet.text;` -/
def DataTweet.text (t : DataTweet) : Except JSError JVal :=
  match t._data.getProp "full_text" with
  | .error e => .error e
  | .ok full =>
    if full.truthy then .ok full
    else
      match t.extendedTweet with
      | .error e => .error e
      | .ok none => t._data.getProp "text"
      | .ok (some objExtendTweet) => objExtendTweet.text

/-- `toString()` of `DataTweet`: `this.text`. -/
def DataTweet.toString (t : DataTweet) : Except JSError JVal :=
  t.text

/-! ## `EloquentTwitter.js`: timelines and related tweets -/

/-- What stands in an argument position that may hold a function: a value that
is not a function, a function of the caller (by identity), or the function
that `getRelatedTweetsFromUser` creates, which closes over `tweetId` and
`successCallback`. -/
inductive Argument where
  | value (v : JVal) : Argument
  | function (fn : Callback) : Argument
  | relatedTweets (tweetId : JVal) (successCallback : Option Callback) : Argument

/-- An optional callback of the caller as an argument: an omitted one is
`undefined`. -/
def Argument.ofCallback : Option Callback → Argument
  | none => .value .undefined
  | some fn => .function fn

/-- ToBoolean of an argument: a function is truthy. -/
def Argument.truthy : Argument → Bool
  | .value v => v.truthy
  | .function _ => true
  | .relatedTweets _ _ => true

/-- The test `x !== undefined`. -/
def Argument.isDefined : Argument → Bool
  | .value .undefined => false
  | _ => true

/-- What the answer function of a timeline request hands to a callback: the
wrapped error, or the array of wrapped tweets. -/
inductive Answer where
  | error (e : DataError) : Answer
  | tweets (ts : List DataTweet) : Answer

/-- The answer as the positional argument of a call. -/
def Answer.toArg : Answer → JSArg
  | .error e => .dataError e
  | .tweets ts => .dataTweets ts

/-- The elements visited by `for (let i = 0; i < tweets.length; i++)` with
`tweets[i]`: those of an array; none for a `DataError`, which has no member
`length`, so that the test `0 < undefined` is false. -/
def Answer.elements : Answer → List DataTweet
  | .error _ => []
  | .tweets ts => ts

/-- The loop of the function created by `getRelatedTweetsFromUser`:
`if (tweet.inReplyToStatusId === tweetId) relatedTweets.push(tweet);` for
every visited element, in order.  It stops at the first element whose getter
throws. -/
def relatedTweetsLoop (tweetId : JVal) : List DataTweet → Except JSError (List DataTweet)
  | [] => .ok []
  | tweet :: rest =>
    match tweet.inReplyToStatusId with
    | .error e => .error e
    | .ok v =>
      match relatedTweetsLoop tweetId rest with
      | .error e => .error e
      | .ok relatedTweets =>
        .ok (if v.strictEquals tweetId then tweet :: relatedTweets else relatedTweets)

/-- The function created by `getRelatedTweetsFromUser`, called with `tweets`:
the loop, then `if (successCallback) successCallback(relatedTweets);`. -/
def relatedTweetsFunction (beh : Behaviour) (tweetId : JVal) (successCallback : Option Callback)
    (tweets : Answer) (log : Log) : Log × Except JSError Unit :=
  match relatedTweetsLoop tweetId tweets.elements with
  | .error e => (log, .error e)
  | .ok relatedTweets =>
    match successCallback with
    | some callback => callFunction beh callback [.dataTweets relatedTweets] log
    | none => (log, .ok ())

/-- The call `f(x)` of what stands in a callback position, with the answer
`x`: calling a value that is not a function throws. -/
def Argument.call (beh : Behaviour) : Argument → Answer → Log → Log × Except JSError Unit
  | .value _, _, log => (log, .error (.typeError "the callback is not a function"))
  | .function fn, x, log => callFunction beh fn [x.toArg] log
  | .relatedTweets tweetId successCallback, x, log =>
    relatedTweetsFunction beh tweetId successCallback x log

/-- Create or overwrite a member of a parameter object. -/
def Argument.setField :
    List (String × Argument) → String → Argument → List (String × Argument)
  | [], key, v => [(key, v)]
  | (k, w) :: rest, key, v =>
    if k = key then (k, v) :: rest else (k, w) :: Argument.setField rest key v

/-- Object spread `{ ...base, ...parameters }` into a parameter object, for
`parameters` an object literal or `undefined`. -/
def Argument.spreadInto (base : List (String × Argument)) : JVal → List (String × Argument)
  | .obj fields =>
    fields.foldl (fun acc member => Argument.setField acc member.1 (.value member.2)) base
  | _ => base

/-- What a timeline operation hands to `this._twit.get`: the path, the
parameter object, and the function `function (err, tweets, response)`.  A
successful answer of `statuses/user_timeline` is an array of statuses: the
answer function receives `err` and the elements of `tweets` (which it does
not read when `err` is truthy). -/
structure TimelineRequest where
  method : HttpMethod
  path : String
  params : List (String × Argument)
  callback : Behaviour → JVal → List JVal → Log → Log × Except JSError Unit

/-- The answer function of `getUserTweetsTimelineById`:
`if (err) return (errorCallback) ? errorCallback(new DataError(err)) : null;`
then the array of `new DataTweet(tweets[i], self)` and
`if (successCallback) successCallback(arrayOfTweets);`. -/
def timelineCallback (self : Nat) (successCallback errorCallback : Argument)
    (beh : Behaviour) (err : JVal) (tweets : List JVal) (log : Log) :
    Log × Except JSError Unit :=
  if err.truthy then
    if errorCallback.truthy then errorCallback.call beh (.error (DataError.constructor err)) log
    else (log, .ok ())
  else
    if successCallback.truthy then
      successCallback.call beh
        (.tweets (tweets.map (fun tweet => DataTweet.constructor tweet (some self)))) log
    else (log, .ok ())

/-- `getUserTweetsTimelineById(id, successCallback, errorCallback,
includeRetweet, parameters)`; `include_rts` is
`(includeRetweet !== undefined) ? includeRetweet : false`. -/
def EloquentTwitter.getUserTweetsTimelineById (self : EloquentTwitter) (id : JVal)
    (successCallback errorCallback includeRetweet : Argument) (parameters : JVal) :
    Except JSError TimelineRequest :=
  match self._twit with
  | none => .error (.typeError "Cannot read properties of null")
  | some _ =>
    .ok { method := .get
          path := "statuses/user_timeline"
          params := Argument.spreadInto
            [("user_id", .value id), ("count", .value (.num 200)),
             ("trim_user", .value (.bool true)), ("exclude_replies", .value (.bool false)),
             ("include_rts",
                if includeRetweet.isDefined then includeRetweet else .value (.bool false))]
            parameters
          callback := timelineCallback self.ref successCallback errorCallback }

/-- `getUserTweetsTimelineByUsername(username, successCallback, errorCallback,
includeRetweet, parameters)`: its own `parameters` is not passed on. -/
def EloquentTwitter.getUserTweetsTimelineByUsername (self : EloquentTwitter) (username : JVal)
    (successCallback errorCallback includeRetweet : Argument) (_parameters : JVal) :
    Except JSError TimelineRequest :=
  self.getUserTweetsTimelineById .null successCallback errorCallback includeRetweet
    (.obj [("screen_name", username)])

/-- `getRelatedTweetsFromUser(username, tweetId, successCallback,
errorCallback)`:
`this.getUserTweetsTimelineByUsername(username, false, function (tweets) {…}, errorCallback)`. -/
def EloquentTwitter.getRelatedTweetsFromUser (self : EloquentTwitter) (username tweetId : JVal)
    (successCallback errorCallback : Option Callback) : Except JSError TimelineRequest :=
  self.getUserTweetsTimelineByUsername username (.value (.bool false))
    (.relatedTweets tweetId successCallback) (Argument.ofCallback errorCallback) .undefined

/-! ## `data/DataStandardSearch.js`, and `EloquentTwitter.js`: search and replies -/

/-- `DataStandardSearch`: the parameter object of a search, built member by
member. -/
structure DataStandardSearch where
  _data : List (String × JVal)

/-- Setter `query`: `this._data.q = q`. -/
def DataStandardSearch.query (s : DataStandardSearch) (q : JVal) : DataStandardSearch :=
  { _data := JVal.setField s._data "q" q }

/-- `setTweetModeToExtended()`: `this._data.tweet_mode = 'extended'`. -/
def DataStandardSearch.setTweetModeToExtended (s : DataStandardSearch) : DataStandardSearch :=
  { _data := JVal.setField s._data "tweet_mode" (.str "extended") }

/-- Setter `resultType`: `this._data.result_type = type`. -/
def DataStandardSearch.resultType (s : DataStandardSearch) (type : JVal) : DataStandardSearch :=
  { _data := JVal.setField s._data "result_type" type }

/-- Setter `count`: `this._data.count = count`. -/
def DataStandardSearch.count (s : DataStandardSearch) (count : JVal) : DataStandardSearch :=
  { _data := JVal.setField s._data "count" count }

/-- Setter `sinceId`: `this._data.since_id = id`. -/
def DataStandardSearch.sinceId (s : DataStandardSearch) (id : JVal) : DataStandardSearch :=
  { _data := JVal.setField s._data "since_id" id }

/-- `new DataStandardSearch(query)`: `this._data = {}`,
`if (query) this.query = query`, then the defaults: extended tweet mode,
result type `recent`, count 100. -/
def DataStandardSearch.constructor (query : JVal) : DataStandardSearch :=
  (((if query.truthy then DataStandardSearch.query { _data := [] } query
      else { _data := [] }).setTweetModeToExtended).resultType (.str "recent")).count (.num 100)

/-- `toSearchObject()`: `this._data`. -/
def DataStandardSearch.toSearchObject (s : DataStandardSearch) : List (String × JVal) :=
  s._data

/-- What `searchTweets` hands to `this._twit.get`: the path, the search object,
and the function `function (err, data, response)`.  A successful answer of
`search/tweets` is an object with the array `statuses` and the member
`search_metadata`: the answer function receives `err`, the elements of
`data.statuses` and `data.search_metadata` (it reads neither when `err` is
truthy). -/
structure SearchRequest where
  method : HttpMethod
  path : String
  params : List (String × JVal)
  callback : Behaviour → JVal → List JVal → JVal → Log → Log × Except JSError Unit

/-- The answer function of `searchTweets`, for callbacks of the caller:
`if (err) return (errorCallback) ? errorCallback(new DataError(err)) : null;`
then the array of `new DataTweet(data.statuses[i], self)` and
`if (successCallback) successCallback(arrayOfTweets, new DataSearchMetadata(data.search_metadata));`. -/
def searchCallback (self : Nat) (successCallback errorCallback : Option Callback)
    (beh : Behaviour) (err : JVal) (statuses : List JVal) (search_metadata : JVal) (log : Log) :
    Log × Except JSError Unit :=
  if err.truthy then
    match errorCallback with
    | some callback => callFunction beh callback [.dataError (DataError.constructor err)] log
    | none => (log, .ok ())
  else
    match successCallback with
    | some callback =>
      callFunction beh callback
        [.dataTweets (statuses.map (fun status => DataTweet.constructor status (some self))),
         .dataSearchMetadata (DataSearchMetadata.constructor search_metadata)] log
    | none => (log, .ok ())

/-- The instance method `searchTweets(dataStandardSearch, successCallback,
errorCallback)`. -/
def EloquentTwitter.searchTweets (self : EloquentTwitter) (dataStandardSearch : DataStandardSearch)
    (successCallback errorCallback : Option Callback) : Except JSError SearchRequest :=
  match self._twit with
  | none => .error (.typeError "Cannot read properties of null")
  | some _ =>
    .ok { method := .get
          path := "search/tweets"
          params := dataStandardSearch.toSearchObject
          callback := searchCallback self.ref successCallback errorCallback }

/-- `getTweetsBySearch(query, successCallback, errorCallback)`:
`this.searchTweets(new DataStandardSearch(query), successCallback, errorCallback)`. -/
def EloquentTwitter.getTweetsBySearch (self : EloquentTwitter) (query : JVal)
    (successCallback errorCallback : Option Callback) : Except JSError SearchRequest :=
  self.searchTweets (DataStandardSearch.constructor query) successCallback errorCallback

/-- `getReplies(toUsername, toTweetID, successCallback, errorCallback)`:
`let searchObject = new DataStandardSearch('to:' + toUsername);`
`searchObject.sinceId = toTweetID;`
`return EloquentTwitter.searchTweets(searchObject, (dataTweets, dataSearchMetadata) => {…}, errorCallback);`
The callee is the member `searchTweets` of the class object `EloquentTwitter`,
not of `this`.  The class declares `searchTweets` as an instance method and
declares no static member, so the member read yields `undefined`, and calling
it throws after the arguments are evaluated.  Evaluating the arguments builds
the search object and creates the arrow function, which is never called. -/
def EloquentTwitter.getReplies (_self : EloquentTwitter) (toUsername : String) (toTweetID : JVal)
    (_successCallback _errorCallback : Option Callback) : Except JSError SearchRequest :=
  let _searchObject := (DataStandardSearch.constructor (.str ("to:" ++ toUsername))).sinceId toTweetID
  .error (.typeError "EloquentTwitter.searchTweets is not a function")

/-! ## `EloquentTwitter.js` and `data/DataTweet.js`: replies with media -/

/-- `postNewTweetWithMedia(text, media_ids, successCallback, errorCallback,
parameters)`: `if (!Array.isArray(media_ids)) media_ids = [media_ids];` then
`this.postNewTweet(text, successCallback, errorCallback, {media_ids: media_ids, ...parameters})`. -/
def EloquentTwitter.postNewTweetWithMedia (self : EloquentTwitter) (text media_ids : JVal)
    (successCallback errorCallback : Option Callback) (parameters : JVal) :
    Except JSError RestRequest :=
  self.postNewTweet text successCallback errorCallback
    (.obj (JVal.spreadInto
      [("media_ids", match media_ids with
                     | .arr items => .arr items
                     | other => .arr [other])]
      parameters))

/-- `postNewReplyToTweetWithMedia(text, media_ids, toTweetId, successCallback,
errorCallback, parameters)`: its own `parameters` is not passed on. -/
def EloquentTwitter.postNewReplyToTweetWithMedia (self : EloquentTwitter)
    (text media_ids toTweetId : JVal) (successCallback errorCallback : Option Callback)
    (_parameters : JVal) : Except JSError RestRequest :=
  self.postNewTweetWithMedia text media_ids successCallback errorCallback
    (.obj [("in_reply_to_status_id", toTweetId), ("auto_populate_reply_metadata", .bool true)])

/-- `replyWithMedia(text, media_ids, successCallback, errorCallback)` of
`DataTweet`:
`(this._eloquentTwitter) ? this._eloquentTwitter.postNewReplyToTweetWithMedia(text, this.id, media_ids, successCallback, errorCallback) : null`.
`instances` gives the instance of each identity; the result `none` is
`null`. -/
def DataTweet.replyWithMedia (t : DataTweet) (instances : Nat → EloquentTwitter)
    (text media_ids : JVal) (successCallback errorCallback : Option Callback) :
    Except JSError (Option RestRequest) :=
  match t._eloquentTwitter with
  | none => .ok none
  | some ref =>
    match t.id with
    | .error e => .error e
    | .ok id =>
      match (instances ref).postNewReplyToTweetWithMedia text id media_ids
          successCallback errorCallback .undefined with
      | .error e => .error e
      | .ok request => .ok (some request)

/-! ## `data/DataDirectMessageQuickReply.js` -/

/-- The object `_data` of a `DataDirectMessageQuickReply`:
`{ "type": …, "options": [ … ] }`. -/
structure QuickReplyData where
  type : JVal
  options : List JVal

/-- `DataDirectMessageQuickReply`: the quick-reply options of a direct message
under construction. -/
structure DataDirectMessageQuickReply where
  _data : QuickReplyData

/-- `new DataDirectMessageQuickReply()`:
`this._data = { "type": "options", "options": [] }`. -/
def DataDirectMessageQuickReply.constructor : DataDirectMessageQuickReply :=
  { _data := { type := .str "options", options := [] } }

/-- `addOption(label, description, metadata)` (an omitted argument is
`undefined`):
`if (!metadata) metadata = 'external_id_' + (this._data.options.length + 1);`
`if (!description) description = null;`
then the push of `{ label, description, metadata }`; the result is `this`. -/
def DataDirectMessageQuickReply.addOption (self : DataDirectMessageQuickReply)
    (label description metadata : JVal) : DataDirectMessageQuickReply :=
  { _data :=
      { type := self._data.type
        options := self._data.options ++
          [.obj [("label", label),
                 ("description", if description.truthy then description else .null),
                 ("metadata",
                    if metadata.truthy then metadata
                    else .str ("external_id_" ++ toString (self._data.options.length + 1)))]] } }

/-- Getter `size`: `this._data.options.length`. -/
def DataDirectMessageQuickReply.size (self : DataDirectMessageQuickReply) : Nat :=
  self._data.options.length

/-- Getter `options`: `this._data.options`. -/
def DataDirectMessageQuickReply.options (self : DataDirectMessageQuickReply) : List JVal :=
  self._data.options

/-- `toQuickReplyObject()`:
`(this._data.options.length === 0) ? null : this._data`. -/
def DataDirectMessageQuickReply.toQuickReplyObject (self : DataDirectMessageQuickReply) : JVal :=
  if self._data.options.length = 0 then .null
  else .obj [("type", self._data.type), ("options", .arr self._data.options)]

/-- The object after a sequence of `addOption` calls, each given by its three
arguments. -/
def DataDirectMessageQuickReply.addOptions :
    DataDirectMessageQuickReply → List (JVal × JVal × JVal) → DataDirectMessageQuickReply
  | self, [] => self
  | self, (label, description, metadata) :: rest =>
    DataDirectMessageQuickReply.addOptions (self.addOption label description metadata) rest

/-- The option described for the call of `addOption` at a 1-based position:
the label as given, the description as given when it is truthy and `null`
otherwise, the metadata as given when it is truthy and `external_id_` followed
by the position otherwise. -/
def describedOption (position : Nat) (call : JVal × JVal × JVal) : JVal :=
  .obj [("label", call.1),
        ("description", if call.2.1.truthy then call.2.1 else .null),
        ("metadata",
          if call.2.2.truthy then call.2.2 else .str ("external_id_" ++ toString position))]

/-- The options described for a sequence of calls, the first of which stands
at the 1-based position `first`. -/
def describedOptions : Nat → List (JVal × JVal × JVal) → List JVal
  | _, [] => []
  | first, call :: rest => describedOption first call :: describedOptions (first + 1) rest

/-! ## The registry: basic facts -/

theorem OwnProps.get_put_same (own : OwnProps) (key : String) (v : List Subscriber) :
    (own.put key v).get key = some v := by
  induction own with
  | nil => simp [OwnProps.put, OwnProps.get]
  | cons p rest ih =>
    obtain ⟨k, w⟩ := p
    by_cases h : k = key
    · simp [OwnProps.put, OwnProps.get, h]
    · simp [OwnProps.put, OwnProps.get, h, ih]

theorem OwnProps.get_put_other (own : OwnProps) (key other : String) (v : List Subscriber)
    (h : key ≠ other) : (own.put key v).get other = own.get other := by
  induction own with
  | nil => simp [OwnProps.put, OwnProps.get, h]
  | cons p rest ih =>
    obtain ⟨k, w⟩ := p
    by_cases hk : k = key
    · subst hk
      simp [OwnProps.put, OwnProps.get, h]
    · by_cases ho : k = other
      · subst ho
        simp [OwnProps.put, OwnProps.get, hk]
      · simp [OwnProps.put, OwnProps.get, hk, ho, ih]

theorem invokedIn_append (a b : Log) : invokedIn (a ++ b) = invokedIn a ++ invokedIn b := by
  induction a with
  | nil => rfl
  | cons e rest ih => cases e <;> simp [invokedIn, ih]

theorem invocationsIn_append (a b : Log) :
    invocationsIn (a ++ b) = invocationsIn a ++ invocationsIn b := by
  induction a with
  | nil => rfl
  | cons e rest ih => cases e <;> simp [invocationsIn, ih]

theorem firedIn_append (a b : Log) : firedIn (a ++ b) = firedIn a ++ firedIn b := by
  induction a with
  | nil => rfl
  | cons e rest ih => cases e <;> simp [firedIn, ih]

theorem invokedIn_map_invoked (subs : List Subscriber) (args : List JSArg) :
    invokedIn (subs.map (fun fn => LogEntry.invoked fn args)) = subs := by
  induction subs with
  | nil => rfl
  | cons fn rest ih => simp [invokedIn, ih]

theorem invocationsIn_map_invoked (subs : List Subscriber) (args : List JSArg) :
    invocationsIn (subs.map (fun fn => LogEntry.invoked fn args)) = subs.map (fun fn => (fn, args)) := by
  induction subs with
  | nil => rfl
  | cons fn rest ih => simp [invocationsIn, ih]

theorem firedIn_map_invoked (subs : List Subscriber) (args : List JSArg) :
    firedIn (subs.map (fun fn => LogEntry.invoked fn args)) = [] := by
  induction subs with
  | nil => rfl
  | cons fn rest ih => simp [firedIn, ih]

/-- When no subscriber throws, the loop calls every subscriber of the list, in
list order, and completes. -/
theorem fireLoop_all_return (beh : Behaviour) (args : List JSArg)
    (hret : ∀ log fn, beh log fn args = none) (subs : List Subscriber) (log : Log) :
    fireLoop beh (some args) subs log
      = (log ++ subs.map (fun fn => LogEntry.invoked fn args), .ok ()) := by
  induction subs generalizing log with
  | nil => simp [fireLoop]
  | cons fn rest ih => simp [fireLoop, hret, ih]

/-- The loop stops at the first subscriber that throws: the ones before it
have been called, it has been called, the ones after it have not. -/
theorem fireLoop_first_throw (beh : Behaviour) (args : List JSArg) (before after : List Subscriber)
    (fk : Subscriber) (e : JVal) (log : Log)
    (hbefore : ∀ i, i < before.length →
      beh (log ++ (before.take i).map (fun fn => LogEntry.invoked fn args)) (before.getD i 0) args = none)
    (hthrow : beh (log ++ before.map (fun fn => LogEntry.invoked fn args)) fk args = some e) :
    fireLoop beh (some args) (before ++ fk :: after) log
      = (log ++ (before ++ [fk]).map (fun fn => LogEntry.invoked fn args), .error (.thrown e)) := by
  induction before generalizing log with
  | nil =>
    simp at hthrow
    simp [fireLoop, hthrow]
  | cons fn rest ih =>
    have h0 : beh log fn args = none := by simpa using hbefore 0 (by simp)
    have hrest := ih (log ++ [LogEntry.invoked fn args])
      (by
        intro i hi
        have := hbefore (i + 1) (by simpa using hi)
        simpa [List.append_assoc] using this)
      (by simpa [List.append_assoc] using hthrow)
    simp [fireLoop, h0, hrest, List.append_assoc]

/-- Whatever the subscribers do, the loop only appends invocations of
subscribers taken from the front of the list, with the given arguments. -/
theorem fireLoop_log (beh : Behaviour) (parameters : Option (List JSArg)) (subs : List Subscriber)
    (log : Log) :
    ∃ called : List Subscriber, called <+: subs ∧
      (fireLoop beh parameters subs log).1
        = log ++ called.map (fun fn => LogEntry.invoked fn (parameters.getD [])) := by
  induction subs generalizing log with
  | nil => exact ⟨[], List.nil_prefix, by simp [fireLoop]⟩
  | cons fn rest ih =>
    cases parameters with
    | none => exact ⟨[], List.nil_prefix, by simp [fireLoop]⟩
    | some args =>
      cases hb : beh log fn args with
      | some e =>
        refine ⟨[fn], ?_, by simp [fireLoop, hb]⟩
        exact ⟨rest, rfl⟩
      | none =>
        obtain ⟨called, hpre, hlog⟩ := ih (log ++ [LogEntry.invoked fn args])
        refine ⟨fn :: called, ?_, ?_⟩
        · obtain ⟨t, ht⟩ := hpre
          exact ⟨t, by simp [← ht]⟩
        · simp [fireLoop, hb] at hlog ⊢
          simpa [List.append_assoc] using hlog

/-! ## The registry while `hasOwnProperty` is not shadowed -/

theorem hasOwnProperty_of_unshadowed (self : EloquentEvent) (h : self.Unshadowed) (evt : String) :
    self._eventContainer.hasOwnProperty evt = .ok (self._eventContainer.own.get evt).isSome := by
  unfold EloquentEvent.Unshadowed at h
  simp [EventContainer.hasOwnProperty, h]

/-- Firing a name that has no own entry reports `false` and calls nobody, with
or without parameters. -/
theorem fireEvents_absent (beh : Behaviour) (self : EloquentEvent) (h : self.Unshadowed)
    (evt : String) (habsent : self._eventContainer.own.get evt = none)
    (parameters : Option (List JSArg)) (log : Log) :
    self.fireEvents beh evt parameters log = (log ++ [.fired evt parameters], .ok false) := by
  simp [EloquentEvent.fireEvents, hasOwnProperty_of_unshadowed self h, habsent]

/-- Firing with subscribers that all return calls the stored list in order and
reports whether the name has an own entry. -/
theorem fireEvents_all_return (beh : Behaviour) (self : EloquentEvent) (h : self.Unshadowed)
    (evt : String) (args : List JSArg) (hret : ∀ log fn, beh log fn args = none) (log : Log) :
    self.fireEvents beh evt (some args) log
      = (log ++ .fired evt (some args)
            :: (self.subscribers evt).map (fun fn => LogEntry.invoked fn args),
          .ok (self._eventContainer.own.get evt).isSome) := by
  cases hget : self._eventContainer.own.get evt with
  | none =>
    simp [EloquentEvent.fireEvents, hasOwnProperty_of_unshadowed self h, hget,
      EloquentEvent.subscribers]
  | some subs =>
    simp [EloquentEvent.fireEvents, hasOwnProperty_of_unshadowed self h, hget,
      EloquentEvent.subscribers, fireLoop_all_return beh args hret]

/-- Registering under a name other than `__proto__` appends to the list of
that name (creating it when absent) and leaves every other entry alone. -/
theorem registerEvent_appends (self : EloquentEvent) (h : self.Unshadowed) (evt : String)
    (hname : evt ≠ "__proto__") (fn : Subscriber) :
    ∃ r, self.registerEvent evt fn = .ok r
      ∧ r._eventContainer.own.get evt = some (self.subscribers evt ++ [fn])
      ∧ (∀ other, evt ≠ other → r._eventContainer.own.get other = self._eventContainer.own.get other)
      ∧ r._eventContainer.proto = self._eventContainer.proto := by
  cases hget : self._eventContainer.own.get evt with
  | none =>
    refine ⟨{ _eventContainer := self._eventContainer.assign evt [fn] }, ?_, ?_, ?_, ?_⟩
    · simp [EloquentEvent.registerEvent, hasOwnProperty_of_unshadowed self h, hget]
    · simp [EventContainer.assign, hname, OwnProps.get_put_same, EloquentEvent.subscribers, hget]
    · intro other ho
      simp [EventContainer.assign, hname, OwnProps.get_put_other _ _ _ _ ho]
    · simp [EventContainer.assign, hname]
  | some subs =>
    refine ⟨{ _eventContainer := { self._eventContainer with
        own := self._eventContainer.own.put evt (subs ++ [fn]) } }, ?_, ?_, ?_, ?_⟩
    · simp [EloquentEvent.registerEvent, hasOwnProperty_of_unshadowed self h, hget]
    · simp [OwnProps.get_put_same, EloquentEvent.subscribers, hget]
    · intro other ho
      simp [OwnProps.get_put_other _ _ _ _ ho]
    · rfl

/-- Registering under `__proto__` succeeds but stores nothing among the own
entries: it replaces the prototype of the container. -/
theorem registerEvent_proto (self : EloquentEvent) (h : self.Unshadowed)
    (hown : self._eventContainer.own.get "__proto__" = none) (fn : Subscriber) :
    self.registerEvent "__proto__" fn
      = .ok { _eventContainer := { own := self._eventContainer.own, proto := some [fn] } } := by
  simp [EloquentEvent.registerEvent, hasOwnProperty_of_unshadowed self h, hown,
    EventContainer.assign]

/-- Once a subscriber has been registered under `hasOwnProperty`, every later
call of `registerEvent` and of `fireEvents` throws before doing anything. -/
theorem shadowed_calls_throw (beh : Behaviour) (self : EloquentEvent) (subs : List Subscriber)
    (h : self._eventContainer.own.get "hasOwnProperty" = some subs) (evt : String) :
    (∀ fn, self.registerEvent evt fn
        = .error (.typeError "this._eventContainer.hasOwnProperty is not a function"))
    ∧ (∀ parameters log, self.fireEvents beh evt parameters log
        = (log ++ [.fired evt parameters],
            .error (.typeError "this._eventContainer.hasOwnProperty is not a function"))) := by
  constructor
  · intro fn
    simp [EloquentEvent.registerEvent, EventContainer.hasOwnProperty, h]
  · intro parameters log
    simp [EloquentEvent.fireEvents, EventContainer.hasOwnProperty, h]

/-- No sequence of registrations ever creates an own entry named `__proto__`. -/
theorem registerEvent_no_own_proto (self r : EloquentEvent) (evt : String) (fn : Subscriber)
    (hown : self._eventContainer.own.get "__proto__" = none)
    (hreg : self.registerEvent evt fn = .ok r) :
    r._eventContainer.own.get "__proto__" = none := by
  unfold EloquentEvent.registerEvent at hreg
  cases hh : self._eventContainer.hasOwnProperty evt with
  | error e => simp [hh] at hreg
  | ok b =>
    cases b with
    | false =>
      simp only [hh] at hreg
      injection hreg with hreg
      subst hreg
      by_cases hp : evt = "__proto__"
      · simp [EventContainer.assign, hp, hown]
      · simp [EventContainer.assign, hp, OwnProps.get_put_other _ _ _ _ hp, hown]
    | true =>
      cases hget : self._eventContainer.own.get evt with
      | none => simp [hh, hget] at hreg
      | some subs =>
        simp only [hh, hget] at hreg
        injection hreg with hreg
        subst hreg
        have hp : evt ≠ "__proto__" := by
          intro hp
          rw [hp, hown] at hget
          cases hget
        simp [OwnProps.get_put_other _ _ _ _ hp, hown]

/-! ## Sequences of registrations -/

/-- A sequence of registrations that never uses the name `hasOwnProperty`
succeeds as a whole, and under every name other than `__proto__` the stored
list grows by exactly the subscribers registered under that name, in order. -/
theorem registerAll_spec (regs : List (String × Subscriber)) (self : EloquentEvent)
    (h : self.Unshadowed) (hown : self._eventContainer.own.get "__proto__" = none)
    (hnames : ∀ p ∈ regs, p.1 ≠ "hasOwnProperty") :
    ∃ r, self.registerAll regs = .ok r ∧ r.Unshadowed
      ∧ r._eventContainer.own.get "__proto__" = none
      ∧ ∀ evt, evt ≠ "__proto__" →
          (r.subscribers evt = self.subscribers evt ++ registeredUnder evt regs
            ∧ (r._eventContainer.own.get evt = none ↔
                (self._eventContainer.own.get evt = none ∧ registeredUnder evt regs = []))) := by
  induction regs generalizing self with
  | nil =>
    exact ⟨self, rfl, h, hown, fun evt _ => by simp [registeredUnder]⟩
  | cons p rest ih =>
    obtain ⟨name, fn⟩ := p
    have hname : name ≠ "hasOwnProperty" := hnames (name, fn) (by simp)
    have hrest : ∀ q ∈ rest, q.1 ≠ "hasOwnProperty" := fun q hq => hnames q (by simp [hq])
    by_cases hp : name = "__proto__"
    · subst hp
      have hreg := registerEvent_proto self h hown fn
      obtain ⟨r, hr, hu, ho, hspec⟩ :=
        ih { _eventContainer := { own := self._eventContainer.own, proto := some [fn] } } h hown hrest
      refine ⟨r, by simp [EloquentEvent.registerAll, hreg, hr], hu, ho, ?_⟩
      intro evt hevt
      have hne : ¬ ("__proto__" = evt) := fun heq => hevt heq.symm
      have := hspec evt hevt
      simpa [registeredUnder, hne, EloquentEvent.subscribers] using this
    · obtain ⟨r1, hreg, hget, hother, _⟩ := registerEvent_appends self h name hp fn
      have hu1 : r1.Unshadowed := by
        unfold EloquentEvent.Unshadowed
        rw [hother "hasOwnProperty" hname]
        exact h
      have ho1 : r1._eventContainer.own.get "__proto__" = none := by
        rw [hother "__proto__" hp]
        exact hown
      obtain ⟨r, hr, hu, ho, hspec⟩ := ih r1 hu1 ho1 hrest
      refine ⟨r, by simp [EloquentEvent.registerAll, hreg, hr], hu, ho, ?_⟩
      intro evt hevt
      obtain ⟨hsubs, hnone⟩ := hspec evt hevt
      by_cases he : name = evt
      · subst he
        have h1 : r1.subscribers name = self.subscribers name ++ [fn] := by
          simp [EloquentEvent.subscribers, hget]
        constructor
        · rw [hsubs, h1]
          simp [registeredUnder]
        · simp [hnone, hget, registeredUnder]
      · have h1 : r1.subscribers evt = self.subscribers evt := by
          simp [EloquentEvent.subscribers, hother evt he]
        constructor
        · rw [hsubs, h1]
          simp [registeredUnder, he]
        · simp [hnone, hother evt he, registeredUnder, he]

/-- Registration order is delivery order: after any sequence of registrations
that avoids the name `hasOwnProperty`, firing a name other than `__proto__`
with subscribers that all return calls exactly the subscribers registered
under that name, once per registration and in registration order, each with
the given arguments, and reports whether there was any. -/
theorem fireEvents_after_registrations (beh : Behaviour) (regs : List (String × Subscriber))
    (evt : String) (args : List JSArg)
    (hnames : ∀ p ∈ regs, p.1 ≠ "hasOwnProperty") (hevt : evt ≠ "__proto__")
    (hret : ∀ log fn, beh log fn args = none) (log : Log) :
    ∃ r, EloquentEvent.constructor.registerAll regs = .ok r
      ∧ r.fireEvents beh evt (some args) log
          = (log ++ .fired evt (some args)
                :: (registeredUnder evt regs).map (fun fn => LogEntry.invoked fn args),
              .ok (!(registeredUnder evt regs).isEmpty)) := by
  obtain ⟨r, hr, hu, _, hspec⟩ :=
    registerAll_spec regs EloquentEvent.constructor rfl rfl hnames
  obtain ⟨hsubs, hnone⟩ := hspec evt hevt
  refine ⟨r, hr, ?_⟩
  rw [fireEvents_all_return beh r hu evt args hret log, hsubs]
  have hempty : EloquentEvent.constructor.subscribers evt = [] := rfl
  have hsome : (r._eventContainer.own.get evt).isSome = !(registeredUnder evt regs).isEmpty := by
    have hc : EloquentEvent.constructor._eventContainer.own.get evt = none := rfl
    cases hg : r._eventContainer.own.get evt with
    | none =>
      have := (hnone.mp hg).2
      simp [this]
    | some subs =>
      have hne : registeredUnder evt regs ≠ [] := by
        intro hnil
        have := hnone.mpr ⟨hc, hnil⟩
        rw [hg] at this
        cases this
      cases hl : registeredUnder evt regs with
      | nil => exact absurd hl hne
      | cons a t => simp
  simp [hempty, hsome]

/-! ## Facts that hold in every registry state -/

/-- Every call of `fireEvents` logs the call and then only invocations of
subscribers taken, in order, from the front of the list stored under the fired
name. -/
theorem fireEvents_log (beh : Behaviour) (self : EloquentEvent) (evt : String)
    (parameters : Option (List JSArg)) (log : Log) :
    ∃ called : List Subscriber, called <+: self.subscribers evt ∧
      (self.fireEvents beh evt parameters log).1
        = log ++ .fired evt parameters
            :: called.map (fun fn => LogEntry.invoked fn (parameters.getD [])) := by
  unfold EloquentEvent.fireEvents
  cases hh : self._eventContainer.hasOwnProperty evt with
  | error e => exact ⟨[], List.nil_prefix, by simp⟩
  | ok b =>
    cases b with
    | false => exact ⟨[], List.nil_prefix, by simp⟩
    | true =>
      cases hget : self._eventContainer.own.get evt with
      | none => exact ⟨[], List.nil_prefix, by simp⟩
      | some subs =>
        obtain ⟨called, hpre, hlog⟩ :=
          fireLoop_log beh parameters subs (log ++ [.fired evt parameters])
        refine ⟨called, by simpa [EloquentEvent.subscribers, hget] using hpre, ?_⟩
        simp only []
        cases hloop : fireLoop beh parameters subs (log ++ [.fired evt parameters]) with
        | mk log1 res =>
          rw [hloop] at hlog
          cases res with
          | error e => simpa [List.append_assoc] using hlog
          | ok u => simpa [List.append_assoc] using hlog

/-- A registration, successful or not, only ever extends stored lists at the
end: what was stored under a name is a prefix of what is stored afterwards. -/
theorem register_extends (self : EloquentEvent) (evt : String) (fn : Subscriber) (name : String)
    (subs : List Subscriber) (hget : self._eventContainer.own.get name = some subs) :
    ∃ subs1, (self.register evt fn)._eventContainer.own.get name = some subs1 ∧ subs <+: subs1 := by
  unfold EloquentEvent.register EloquentEvent.registerEvent
  cases hh : self._eventContainer.hasOwnProperty evt with
  | error e => exact ⟨subs, by simpa using hget, List.prefix_refl _⟩
  | ok b =>
    cases b with
    | false =>
      by_cases hp : evt = "__proto__"
      · exact ⟨subs, by simpa [EventContainer.assign, hp] using hget, List.prefix_refl _⟩
      · have hne : evt ≠ name := by
          intro heq
          subst heq
          unfold EventContainer.hasOwnProperty at hh
          cases hs : self._eventContainer.own.get "hasOwnProperty" with
          | some v => simp [hs] at hh
          | none => simp [hs, hget] at hh
        exact ⟨subs, by simpa [EventContainer.assign, hp, OwnProps.get_put_other _ _ _ _ hne]
          using hget, List.prefix_refl _⟩
    | true =>
      cases hg : self._eventContainer.own.get evt with
      | none => exact ⟨subs, by simpa using hget, List.prefix_refl _⟩
      | some old =>
        by_cases hne : evt = name
        · subst hne
          rw [hg] at hget
          injection hget with hget
          subst hget
          exact ⟨old ++ [fn], by simp [OwnProps.get_put_same], List.prefix_append _ _⟩
        · exact ⟨subs, by simpa [OwnProps.get_put_other _ _ _ _ hne] using hget,
            List.prefix_refl _⟩

/-- Every subscriber stored under a name was registered under that name by one
of the registrations made so far. -/
theorem register_sound (self : EloquentEvent) (regs : List (String × Subscriber))
    (evt : String) (fn : Subscriber)
    (hs : ∀ name subs, self._eventContainer.own.get name = some subs →
      ∀ g ∈ subs, (name, g) ∈ regs) :
    ∀ name subs, (self.register evt fn)._eventContainer.own.get name = some subs →
      ∀ g ∈ subs, (name, g) ∈ regs ++ [(evt, fn)] := by
  intro name subs hget g hg
  unfold EloquentEvent.register EloquentEvent.registerEvent at hget
  cases hh : self._eventContainer.hasOwnProperty evt with
  | error e =>
    simp only [hh] at hget
    exact List.mem_append_left _ (hs name subs hget g hg)
  | ok b =>
    cases b with
    | false =>
      simp only [hh] at hget
      by_cases hp : evt = "__proto__"
      · simp only [EventContainer.assign, hp, if_true] at hget
        exact List.mem_append_left _ (hs name subs hget g hg)
      · by_cases hne : evt = name
        · subst hne
          simp [EventContainer.assign, hp, OwnProps.get_put_same] at hget
          subst hget
          simp at hg
          simp [hg]
        · simp [EventContainer.assign, hp, OwnProps.get_put_other _ _ _ _ hne] at hget
          exact List.mem_append_left _ (hs name subs hget g hg)
    | true =>
      cases hgt : self._eventContainer.own.get evt with
      | none =>
        simp only [hh, hgt] at hget
        exact List.mem_append_left _ (hs name subs hget g hg)
      | some old =>
        simp only [hh, hgt] at hget
        by_cases hne : evt = name
        · subst hne
          simp [OwnProps.get_put_same] at hget
          subst hget
          rcases List.mem_append.mp hg with hold | hnew
          · exact List.mem_append_left _ (hs evt old hgt g hold)
          · simp at hnew
            simp [hnew]
        · simp [OwnProps.get_put_other _ _ _ _ hne] at hget
          exact List.mem_append_left _ (hs name subs hget g hg)

theorem registerMany_sound (regs : List (String × Subscriber)) (self : EloquentEvent)
    (done : List (String × Subscriber))
    (hs : ∀ name subs, self._eventContainer.own.get name = some subs →
      ∀ g ∈ subs, (name, g) ∈ done) :
    ∀ name subs, (self.registerMany regs)._eventContainer.own.get name = some subs →
      ∀ g ∈ subs, (name, g) ∈ done ++ regs := by
  induction regs generalizing self done with
  | nil => simpa [EloquentEvent.registerMany] using hs
  | cons p rest ih =>
    obtain ⟨evt, fn⟩ := p
    have := ih (self.register evt fn) (done ++ [(evt, fn)]) (register_sound self done evt fn hs)
    simpa [EloquentEvent.registerMany, List.append_assoc] using this

/-- The registry is append-only under every operation: one step keeps every
stored list as a prefix of the list stored afterwards. -/
theorem step_extends (beh : Behaviour) (self : EloquentEvent) (log : Log) (op : Operation)
    (name : String) (subs : List Subscriber)
    (hget : self._eventContainer.own.get name = some subs) :
    ∃ subs1, (self.step beh log op).1._eventContainer.own.get name = some subs1
      ∧ subs <+: subs1 := by
  cases op with
  | register evt fn => exact register_extends self evt fn name subs hget
  | fire evt parameters => exact ⟨subs, hget, List.prefix_refl _⟩

/-- The registry is append-only along every sequence of operations: no entry
is ever removed and no stored subscriber is ever dropped or moved. -/
theorem run_extends (beh : Behaviour) (ops : List Operation) (self : EloquentEvent) (log : Log)
    (name : String) (subs : List Subscriber)
    (hget : self._eventContainer.own.get name = some subs) :
    ∃ subs1, (self.run beh log ops).1._eventContainer.own.get name = some subs1
      ∧ subs <+: subs1 := by
  induction ops generalizing self log subs with
  | nil => exact ⟨subs, hget, List.prefix_refl _⟩
  | cons op rest ih =>
    obtain ⟨mid, hmid, hpre⟩ := step_extends beh self log op name subs hget
    obtain ⟨subs1, hfin, hpre1⟩ := ih (self.step beh log op).1 (self.step beh log op).2 mid hmid
    exact ⟨subs1, by simpa [EloquentEvent.run] using hfin, hpre.trans hpre1⟩

/-- Subscriber faults are not caught: when the list stored under the fired
name is `before ++ fk :: after`, the subscribers of `before` return and `fk`
throws `e`, the firing calls `before` and then `fk`, calls none of `after`, and
fails with `e`. -/
theorem fireEvents_first_throw (beh : Behaviour) (self : EloquentEvent) (h : self.Unshadowed)
    (evt : String) (args : List JSArg) (before after : List Subscriber) (fk : Subscriber)
    (e : JVal) (log : Log)
    (hget : self._eventContainer.own.get evt = some (before ++ fk :: after))
    (hbefore : ∀ i, i < before.length →
      beh (log ++ .fired evt (some args)
        :: (before.take i).map (fun fn => LogEntry.invoked fn args)) (before.getD i 0) args = none)
    (hthrow : beh (log ++ .fired evt (some args)
        :: before.map (fun fn => LogEntry.invoked fn args)) fk args = some e) :
    self.fireEvents beh evt (some args) log
      = (log ++ .fired evt (some args)
            :: (before ++ [fk]).map (fun fn => LogEntry.invoked fn args),
          .error (.thrown e)) := by
  have hloop := fireLoop_first_throw beh args before after fk e (log ++ [.fired evt (some args)])
    (by
      intro i hi
      simpa [List.append_assoc] using hbefore i hi)
    (by simpa [List.append_assoc] using hthrow)
  simp [EloquentEvent.fireEvents, hasOwnProperty_of_unshadowed self h, hget, hloop,
    List.append_assoc]

/-- Omitting `parameters` when the fired name has subscribers makes the first
iteration throw while spreading `undefined`: nobody is called. -/
theorem fireEvents_omitted_parameters (beh : Behaviour) (self : EloquentEvent)
    (h : self.Unshadowed) (evt : String) (fn : Subscriber) (rest : List Subscriber) (log : Log)
    (hget : self._eventContainer.own.get evt = some (fn :: rest)) :
    self.fireEvents beh evt none log
      = (log ++ [.fired evt none], .error (.typeError "parameters is not iterable")) := by
  simp [EloquentEvent.fireEvents, hasOwnProperty_of_unshadowed self h, hget, fireLoop]

/-! ## The stream handlers -/

/-- A call of `fireEvents` adds exactly one firing to the log, whatever the
registry and the subscribers do. -/
theorem firedIn_fireEvents (beh : Behaviour) (self : EloquentEvent) (evt : String)
    (parameters : Option (List JSArg)) (log : Log) :
    firedIn (self.fireEvents beh evt parameters log).1 = firedIn log ++ [(evt, parameters)] := by
  obtain ⟨called, _, hlog⟩ := fireEvents_log beh self evt parameters log
  rw [hlog, firedIn_append]
  simp [firedIn, firedIn_map_invoked]

/-- The `tweet` handler on any registry: when the generic firing returns, the
handler has fired `TWEET` and then the one classification event selected by
the truthiness of `retweeted_status`, both with the same wrapper. -/
theorem tweetHandler_fired (beh : Behaviour) (events : EloquentEvent) (self : Nat)
    (fields : List (String × JVal)) (log : Log)
    (hret : ∃ b, (events.fireEvents beh EloquentTwitterEvent.TWEET
      (some [.dataTweet (DataTweet.constructor (.obj fields) (some self))]) log).2 = .ok b) :
    firedIn (tweetHandler beh events self (.obj fields) log).1
      = firedIn log ++
        [(EloquentTwitterEvent.TWEET,
            some [.dataTweet (DataTweet.constructor (.obj fields) (some self))]),
         (if (JVal.field fields "retweeted_status").truthy then EloquentTwitterEvent.TWEET_RETWEET
            else EloquentTwitterEvent.TWEET_NOT_RETWEET,
            some [.dataTweet (DataTweet.constructor (.obj fields) (some self))])] := by
  obtain ⟨b, hb⟩ := hret
  have h1 := firedIn_fireEvents beh events EloquentTwitterEvent.TWEET
    (some [.dataTweet (DataTweet.constructor (.obj fields) (some self))]) log
  unfold tweetHandler
  cases hfire : events.fireEvents beh EloquentTwitterEvent.TWEET
      (some [.dataTweet (DataTweet.constructor (.obj fields) (some self))]) log with
  | mk log1 res =>
    rw [hfire] at hb h1
    simp only at hb h1
    subst hb
    have hir : (DataTweet.constructor (.obj fields) (some self)).isRetweet
        = .ok (JVal.field fields "retweeted_status").truthy := rfl
    simp only [hir]
    cases ht : (JVal.field fields "retweeted_status").truthy with
    | true =>
      have h2 := firedIn_fireEvents beh events EloquentTwitterEvent.TWEET_RETWEET
        (some [.dataTweet (DataTweet.constructor (.obj fields) (some self))]) log1
      cases hsecond : events.fireEvents beh EloquentTwitterEvent.TWEET_RETWEET
          (some [.dataTweet (DataTweet.constructor (.obj fields) (some self))]) log1 with
      | mk log2 res2 =>
        rw [hsecond] at h2
        cases res2 <;> simp_all
    | false =>
      have h2 := firedIn_fireEvents beh events EloquentTwitterEvent.TWEET_NOT_RETWEET
        (some [.dataTweet (DataTweet.constructor (.obj fields) (some self))]) log1
      cases hsecond : events.fireEvents beh EloquentTwitterEvent.TWEET_NOT_RETWEET
          (some [.dataTweet (DataTweet.constructor (.obj fields) (some self))]) log1 with
      | mk log2 res2 =>
        rw [hsecond] at h2
        cases res2 <;> simp_all

/-- The `delete` handler of the user stream: when the payload has a `delete`
member that can be read from and the generic firing returns, the handler has
fired `DELETE` and then the one kind selected by the truthiness of
`delete.direct_message`, each with its wrapper. -/
theorem deleteHandler_fired (beh : Behaviour) (self : EloquentTwitter) (data del directMessage
    status : JVal) (log : Log)
    (hdel : data.getProp "delete" = .ok del)
    (hdm : del.getProp "direct_message" = .ok directMessage)
    (hst : del.getProp "status" = .ok status)
    (hret : ∃ b, (self._userStreamEvents.fireEvents beh EloquentTwitterEvent.DELETE
      (some [.raw directMessage]) log).2 = .ok b) :
    firedIn (self.startUserStream_delete beh data log).1
      = firedIn log ++
        [(EloquentTwitterEvent.DELETE, some [.raw directMessage]),
         (if directMessage.truthy then
            (EloquentTwitterEvent.DELETE_DIRECT_MESSAGE,
              some [.dataDirectMessageDelete (DataDirectMessageDelete.constructor directMessage)])
          else
            (EloquentTwitterEvent.DELETE_STATUS,
              some [.dataTweetDelete (DataTweetDelete.constructor status)]))] := by
  obtain ⟨b, hb⟩ := hret
  have h1 := firedIn_fireEvents beh self._userStreamEvents EloquentTwitterEvent.DELETE
    (some [.raw directMessage]) log
  unfold EloquentTwitter.startUserStream_delete
  simp only [hdel, hdm, hst]
  cases hfire : self._userStreamEvents.fireEvents beh EloquentTwitterEvent.DELETE
      (some [.raw directMessage]) log with
  | mk log1 res =>
    rw [hfire] at hb h1
    simp only at hb h1
    subst hb
    cases ht : directMessage.truthy with
    | true =>
      have h2 := firedIn_fireEvents beh self._userStreamEvents
        EloquentTwitterEvent.DELETE_DIRECT_MESSAGE
        (some [.dataDirectMessageDelete (DataDirectMessageDelete.constructor directMessage)]) log1
      cases hsecond : self._userStreamEvents.fireEvents beh
          EloquentTwitterEvent.DELETE_DIRECT_MESSAGE
          (some [.dataDirectMessageDelete (DataDirectMessageDelete.constructor directMessage)])
          log1 with
      | mk log2 res2 =>
        rw [hsecond] at h2
        cases res2 <;> simp_all
    | false =>
      have h2 := firedIn_fireEvents beh self._userStreamEvents EloquentTwitterEvent.DELETE_STATUS
        (some [.dataTweetDelete (DataTweetDelete.constructor status)]) log1
      cases hsecond : self._userStreamEvents.fireEvents beh EloquentTwitterEvent.DELETE_STATUS
          (some [.dataTweetDelete (DataTweetDelete.constructor status)]) log1 with
      | mk log2 res2 =>
        rw [hsecond] at h2
        cases res2 <;> simp_all

/-- The `tweet` handler when the generic firing fails: the exception leaves
the handler, and `TWEET` is the only event that has been fired. -/
theorem tweetHandler_fired_of_error (beh : Behaviour) (events : EloquentEvent) (self : Nat)
    (data : JVal) (log : Log) (e : JSError)
    (herr : (events.fireEvents beh EloquentTwitterEvent.TWEET
      (some [.dataTweet (DataTweet.constructor data (some self))]) log).2 = .error e) :
    firedIn (tweetHandler beh events self data log).1
      = firedIn log ++
        [(EloquentTwitterEvent.TWEET, some [.dataTweet (DataTweet.constructor data (some self))])] := by
  have h1 := firedIn_fireEvents beh events EloquentTwitterEvent.TWEET
    (some [.dataTweet (DataTweet.constructor data (some self))]) log
  unfold tweetHandler
  cases hfire : events.fireEvents beh EloquentTwitterEvent.TWEET
      (some [.dataTweet (DataTweet.constructor data (some self))]) log with
  | mk log1 res =>
    rw [hfire] at herr h1
    simp only at herr h1
    subst herr
    simp only [hfire]
    exact h1

/-- The `tweet` handler in every case: `TWEET` is fired first, and it is
followed by nothing (when its firing failed) or by the one classification
event selected by `retweeted_status`; never by the other one, never by both. -/
theorem tweetHandler_fired_cases (beh : Behaviour) (events : EloquentEvent) (self : Nat)
    (fields : List (String × JVal)) (log : Log) :
    firedIn (tweetHandler beh events self (.obj fields) log).1
        = firedIn log ++
          [(EloquentTwitterEvent.TWEET,
              some [.dataTweet (DataTweet.constructor (.obj fields) (some self))])]
    ∨ firedIn (tweetHandler beh events self (.obj fields) log).1
        = firedIn log ++
          [(EloquentTwitterEvent.TWEET,
              some [.dataTweet (DataTweet.constructor (.obj fields) (some self))]),
           (if (JVal.field fields "retweeted_status").truthy
              then EloquentTwitterEvent.TWEET_RETWEET
              else EloquentTwitterEvent.TWEET_NOT_RETWEET,
              some [.dataTweet (DataTweet.constructor (.obj fields) (some self))])] := by
  cases hres : (events.fireEvents beh EloquentTwitterEvent.TWEET
      (some [.dataTweet (DataTweet.constructor (.obj fields) (some self))]) log).2 with
  | error e => exact Or.inl (tweetHandler_fired_of_error beh events self _ log e hres)
  | ok b => exact Or.inr (tweetHandler_fired beh events self fields log ⟨b, hres⟩)

/-- The `delete` handler when the generic firing fails: `DELETE` is the only
event that has been fired. -/
theorem deleteHandler_fired_of_error (beh : Behaviour) (self : EloquentTwitter)
    (data del directMessage : JVal) (log : Log) (e : JSError)
    (hdel : data.getProp "delete" = .ok del)
    (hdm : del.getProp "direct_message" = .ok directMessage)
    (herr : (self._userStreamEvents.fireEvents beh EloquentTwitterEvent.DELETE
      (some [.raw directMessage]) log).2 = .error e) :
    firedIn (self.startUserStream_delete beh data log).1
      = firedIn log ++ [(EloquentTwitterEvent.DELETE, some [.raw directMessage])] := by
  have h1 := firedIn_fireEvents beh self._userStreamEvents EloquentTwitterEvent.DELETE
    (some [.raw directMessage]) log
  unfold EloquentTwitter.startUserStream_delete
  simp only [hdel, hdm]
  cases hfire : self._userStreamEvents.fireEvents beh EloquentTwitterEvent.DELETE
      (some [.raw directMessage]) log with
  | mk log1 res =>
    rw [hfire] at herr h1
    simp only at herr h1
    subst herr
    simp only [hfire]
    exact h1

/-! ## Claims about the registry -/

/-- C1, at the event name `__proto__`: two subscribers are registered under
that name, both calls of `registerEvent` return, and one firing of the name
with an empty argument list calls neither of them and reports `false`.  For
every other name that is not affected by `hasOwnProperty`,
`fireEvents_after_registrations` gives delivery in registration order. -/
theorem proto_registrations_are_never_delivered :
    ∃ r, EloquentEvent.constructor.registerAll [("__proto__", 1), ("__proto__", 2)] = .ok r
      ∧ r.fireEvents (fun _ _ _ => none) "__proto__" (some []) []
          = ([.fired "__proto__" (some [])], .ok false) :=
  ⟨_, rfl, rfl⟩

/-- C2, in the registry state left by one registration under `hasOwnProperty`:
the name `TWEET` has no registration, yet firing it fails with a type error
instead of returning `false`. -/
theorem fire_unregistered_fails_once_shadowed :
    ∃ r, EloquentEvent.constructor.registerEvent "hasOwnProperty" 1 = .ok r
      ∧ r._eventContainer.own.get "TWEET" = none
      ∧ r.fireEvents (fun _ _ _ => none) "TWEET" (some [.raw (.str "hello")]) []
          = ([.fired "TWEET" (some [.raw (.str "hello")])],
              .error (.typeError "this._eventContainer.hasOwnProperty is not a function")) :=
  ⟨_, rfl, rfl, rfl⟩

/-- C3, at the event names `__proto__` and `hasOwnProperty`: after one
successful registration under the name, firing `__proto__` returns `false`,
and firing `hasOwnProperty` fails with a type error; neither returns `true`. -/
theorem fire_after_registration_not_true :
    (∃ r, EloquentEvent.constructor.registerEvent "__proto__" 1 = .ok r
      ∧ (r.fireEvents (fun _ _ _ => none) "__proto__" (some [.raw (.str "hello")]) []).2
          = .ok false)
    ∧ (∃ r, EloquentEvent.constructor.registerEvent "hasOwnProperty" 1 = .ok r
      ∧ (r.fireEvents (fun _ _ _ => none) "hasOwnProperty" (some [.raw (.str "hello")]) []).2
          = .error (.typeError "this._eventContainer.hasOwnProperty is not a function")) :=
  ⟨⟨_, rfl, rfl⟩, ⟨_, rfl, rfl⟩⟩

/-- C4: a subscriber whose registrations are all under the name `A` is never
called by a firing of a different name `B`, whatever else has been registered
(under any names, in any order), whatever the payload, and whatever the
subscribers do. -/
theorem fireEvents_isolates_names (beh : Behaviour) (regs : List (String × Subscriber))
    (A B : String) (f : Subscriber) (hAB : A ≠ B)
    (honly : ∀ name, (name, f) ∈ regs → name = A)
    (parameters : Option (List JSArg)) (log : Log) :
    f ∉ invokedIn
      (((EloquentEvent.constructor.registerMany regs).fireEvents beh B parameters log).1.drop
        log.length) := by
  obtain ⟨called, hpre, hlog⟩ :=
    fireEvents_log beh (EloquentEvent.constructor.registerMany regs) B parameters log
  rw [hlog, List.drop_left]
  intro hmem
  simp only [invokedIn, invokedIn_map_invoked] at hmem
  have hsub : f ∈ (EloquentEvent.constructor.registerMany regs).subscribers B :=
    hpre.subset hmem
  unfold EloquentEvent.subscribers at hsub
  cases hget : (EloquentEvent.constructor.registerMany regs)._eventContainer.own.get B with
  | none => simp [hget] at hsub
  | some subs =>
    simp [hget] at hsub
    have hreg := registerMany_sound regs EloquentEvent.constructor []
      (by intro name subs0 h0; cases h0) B subs hget f hsub
    exact hAB (honly B (by simpa using hreg)).symm

theorem fireEvents_isolates_names_witness :
    (1 : Subscriber) ∉ invokedIn
      (((EloquentEvent.constructor.registerMany [("A", 1), ("B", 2), ("A", 3)]).fireEvents
        (fun _ _ _ => none) "B" (some [.raw (.str "hello")]) []).1.drop
        ([] : Log).length) :=
  fireEvents_isolates_names (fun _ _ _ => none) [("A", 1), ("B", 2), ("A", 3)] "A" "B" 1
    (by decide) (by intro name h; simp at h; exact h) (some [.raw (.str "hello")]) []

/-- C5, at the event name `hasOwnProperty`: the first registration under that
name returns, and from then on `registerEvent` fails with a type error for
any name, here `TWEET`. -/
theorem registerEvent_fails_once_shadowed :
    ∃ r, EloquentEvent.constructor.registerEvent "hasOwnProperty" 1 = .ok r
      ∧ r.registerEvent "TWEET" 2
          = .error (.typeError "this._eventContainer.hasOwnProperty is not a function") :=
  ⟨_, rfl, rfl⟩

/-- C6, with one subscriber registered under `TWEET`: calling `fireEvents`
with the parameters omitted fails with a type error before the subscriber is
called. -/
theorem fireEvents_without_parameters_fails :
    ∃ r, EloquentEvent.constructor.registerEvent "TWEET" 1 = .ok r
      ∧ r.fireEvents (fun _ _ _ => none) "TWEET" none []
          = ([.fired "TWEET" none], .error (.typeError "parameters is not iterable")) :=
  ⟨_, rfl, rfl⟩

/-- C7, at the event name `hasOwnProperty`: a subscriber that throws `boom` on
every call is registered under that name; firing the name fails with a type
error raised by the registry itself, and the subscriber is never called.  For
names that are not affected, `fireEvents_first_throw` gives the propagation of
the first fault. -/
theorem fault_of_shadowing_subscriber_not_reached :
    ∃ r, EloquentEvent.constructor.registerEvent "hasOwnProperty" 1 = .ok r
      ∧ r.fireEvents (fun _ _ _ => some (.str "boom")) "hasOwnProperty" (some []) []
          = ([.fired "hasOwnProperty" (some [])],
              .error (.typeError "this._eventContainer.hasOwnProperty is not a function")) :=
  ⟨_, rfl, rfl⟩

/-- C8, at the event name `__proto__`: a registration under that name returns
but creates no list for the name, and a second registration under it discards
the subscriber of the first.  For the stored lists, `run_extends` gives the
append-only invariant and `registerEvent_appends` the effect of a registration
under any other name. -/
theorem proto_registration_creates_no_list :
    ∃ r1 r2, EloquentEvent.constructor.registerEvent "__proto__" 1 = .ok r1
      ∧ r1._eventContainer.own.get "__proto__" = none
      ∧ r1._eventContainer.proto = some [1]
      ∧ r1.registerEvent "__proto__" 2 = .ok r2
      ∧ r2._eventContainer.own.get "__proto__" = none
      ∧ r2._eventContainer.proto = some [2] :=
  ⟨_, _, rfl, rfl, rfl, rfl, rfl, rfl⟩

/-! ## The handlers only reach the registry of their own stream -/

theorem ContinuesWithin.refl (events : EloquentEvent) (log : Log) :
    ContinuesWithin events log log :=
  ⟨[], by simp, by simp [invokedIn]⟩

theorem ContinuesWithin.trans {events : EloquentEvent} {a b c : Log}
    (hab : ContinuesWithin events a b) (hbc : ContinuesWithin events b c) :
    ContinuesWithin events a c := by
  obtain ⟨x, hx, hxs⟩ := hab
  obtain ⟨y, hy, hys⟩ := hbc
  refine ⟨x ++ y, by rw [hy, hx, List.append_assoc], ?_⟩
  intro g hg
  rw [invokedIn_append] at hg
  rcases List.mem_append.mp hg with h | h
  · exact hxs g h
  · exact hys g h

theorem fireEvents_continuesWithin (beh : Behaviour) (events : EloquentEvent) (evt : String)
    (parameters : Option (List JSArg)) (log : Log) :
    ContinuesWithin events log (events.fireEvents beh evt parameters log).1 := by
  obtain ⟨called, hpre, hlog⟩ := fireEvents_log beh events evt parameters log
  refine ⟨_, hlog, ?_⟩
  intro g hg
  simp only [invokedIn, invokedIn_map_invoked] at hg
  exact ⟨evt, hpre.subset hg⟩

theorem forwardHandler_continuesWithin (beh : Behaviour) (events : EloquentEvent)
    (logical : String) (wrapper : Wrapper) (data : JVal) (log : Log) :
    ContinuesWithin events log (forwardHandler beh events logical wrapper data log).1 := by
  have h := fireEvents_continuesWithin beh events logical (some [wrapper.apply data]) log
  unfold forwardHandler
  cases hfire : events.fireEvents beh logical (some [wrapper.apply data]) log with
  | mk log1 res =>
    rw [hfire] at h
    cases res <;> exact h

theorem reconnectHandler_continuesWithin (beh : Behaviour) (events : EloquentEvent)
    (request response connectInterval : JVal) (log : Log) :
    ContinuesWithin events log
      (reconnectHandler beh events request response connectInterval log).1 := by
  have h := fireEvents_continuesWithin beh events EloquentTwitterEvent.RECONNECT
    (some [.raw request, .raw response, .raw connectInterval]) log
  unfold reconnectHandler
  cases hfire : events.fireEvents beh EloquentTwitterEvent.RECONNECT
      (some [.raw request, .raw response, .raw connectInterval]) log with
  | mk log1 res =>
    rw [hfire] at h
    cases res <;> exact h

theorem tweetHandler_continuesWithin (beh : Behaviour) (events : EloquentEvent) (self : Nat)
    (data : JVal) (log : Log) :
    ContinuesWithin events log (tweetHandler beh events self data log).1 := by
  have h1 := fireEvents_continuesWithin beh events EloquentTwitterEvent.TWEET
    (some [.dataTweet (DataTweet.constructor data (some self))]) log
  unfold tweetHandler
  cases hfire : events.fireEvents beh EloquentTwitterEvent.TWEET
      (some [.dataTweet (DataTweet.constructor data (some self))]) log with
  | mk log1 res =>
    rw [hfire] at h1
    simp only [hfire]
    cases res with
    | error e => exact h1
    | ok b =>
      simp only []
      cases hir : (DataTweet.constructor data (some self)).isRetweet with
      | error e => exact h1
      | ok r =>
        cases r with
        | true =>
          have h2 := fireEvents_continuesWithin beh events EloquentTwitterEvent.TWEET_RETWEET
            (some [.dataTweet (DataTweet.constructor data (some self))]) log1
          simp only []
          cases hsecond : events.fireEvents beh EloquentTwitterEvent.TWEET_RETWEET
              (some [.dataTweet (DataTweet.constructor data (some self))]) log1 with
          | mk log2 res2 =>
            rw [hsecond] at h2
            cases res2 <;> exact h1.trans h2
        | false =>
          have h2 := fireEvents_continuesWithin beh events EloquentTwitterEvent.TWEET_NOT_RETWEET
            (some [.dataTweet (DataTweet.constructor data (some self))]) log1
          simp only []
          cases hsecond : events.fireEvents beh EloquentTwitterEvent.TWEET_NOT_RETWEET
              (some [.dataTweet (DataTweet.constructor data (some self))]) log1 with
          | mk log2 res2 =>
            rw [hsecond] at h2
            cases res2 <;> exact h1.trans h2

theorem deleteHandler_continuesWithin (beh : Behaviour) (self : EloquentTwitter) (data : JVal)
    (log : Log) :
    ContinuesWithin self._userStreamEvents log (self.startUserStream_delete beh data log).1 := by
  unfold EloquentTwitter.startUserStream_delete
  cases hdel : data.getProp "delete" with
  | error e => exact ContinuesWithin.refl _ _
  | ok del =>
    simp only []
    cases hdm : del.getProp "direct_message" with
    | error e => exact ContinuesWithin.refl _ _
    | ok directMessage =>
      simp only []
      have h1 := fireEvents_continuesWithin beh self._userStreamEvents
        EloquentTwitterEvent.DELETE (some [.raw directMessage]) log
      cases hfire : self._userStreamEvents.fireEvents beh EloquentTwitterEvent.DELETE
          (some [.raw directMessage]) log with
      | mk log1 res =>
        rw [hfire] at h1
        cases res with
        | error e => exact h1
        | ok b =>
          simp only []
          cases ht : directMessage.truthy with
          | true =>
            have h2 := fireEvents_continuesWithin beh self._userStreamEvents
              EloquentTwitterEvent.DELETE_DIRECT_MESSAGE
              (some [.dataDirectMessageDelete
                (DataDirectMessageDelete.constructor directMessage)]) log1
            simp only [if_true]
            cases hsecond : self._userStreamEvents.fireEvents beh
                EloquentTwitterEvent.DELETE_DIRECT_MESSAGE
                (some [.dataDirectMessageDelete
                  (DataDirectMessageDelete.constructor directMessage)]) log1 with
            | mk log2 res2 =>
              rw [hsecond] at h2
              cases res2 <;> exact h1.trans h2
          | false =>
            simp only [Bool.false_eq_true, if_false]
            cases hst : del.getProp "status" with
            | error e => exact h1
            | ok status =>
              have h2 := fireEvents_continuesWithin beh self._userStreamEvents
                EloquentTwitterEvent.DELETE_STATUS
                (some [.dataTweetDelete (DataTweetDelete.constructor status)]) log1
              simp only []
              cases hsecond : self._userStreamEvents.fireEvents beh
                  EloquentTwitterEvent.DELETE_STATUS
                  (some [.dataTweetDelete (DataTweetDelete.constructor status)]) log1 with
              | mk log2 res2 =>
                rw [hsecond] at h2
                cases res2 <;> exact h1.trans h2

theorem directMessageHandler_continuesWithin (beh : Behaviour) (self : EloquentTwitter)
    (data : JVal) (log : Log) :
    ContinuesWithin self._userStreamEvents log
      (self.startUserStream_direct_message beh data log).1 := by
  unfold EloquentTwitter.startUserStream_direct_message
  cases hdm : data.getProp "direct_message" with
  | error e => exact ContinuesWithin.refl _ _
  | ok directMessage =>
    simp only []
    have h1 := fireEvents_continuesWithin beh self._userStreamEvents
      EloquentTwitterEvent.DIRECT_MESSAGE
      (some [.dataDirectMessage (DataDirectMessage.constructor directMessage none)]) log
    cases hfire : self._userStreamEvents.fireEvents beh EloquentTwitterEvent.DIRECT_MESSAGE
        (some [.dataDirectMessage (DataDirectMessage.constructor directMessage none)]) log with
    | mk log1 res =>
      rw [hfire] at h1
      cases res <;> exact h1

/-- Whatever it is called with, a handler only invokes subscribers stored in
the registry of its own stream. -/
theorem Handler.run_continuesWithin (beh : Behaviour) (self : EloquentTwitter) (handler : Handler)
    (args : List JVal) (log : Log) :
    ContinuesWithin (self.events handler.stream) log (handler.run beh self args log).1 := by
  cases handler with
  | tweet stream =>
    cases stream
    · exact tweetHandler_continuesWithin beh self._userStreamEvents self.ref _ log
    · exact tweetHandler_continuesWithin beh self._statusesFilterStreamEvents self.ref _ log
  | delete => exact deleteHandler_continuesWithin beh self _ log
  | directMessage => exact directMessageHandler_continuesWithin beh self _ log
  | reconnect stream => exact reconnectHandler_continuesWithin beh (self.events stream) _ _ _ log
  | forward stream logical wrapper =>
    exact forwardHandler_continuesWithin beh (self.events stream) logical wrapper _ log

theorem runListeners_continuesWithin (beh : Behaviour) (self : EloquentTwitter)
    (stream : StreamKind) (listeners : List (String × Handler))
    (hkind : ∀ l ∈ listeners, l.2.stream = stream) (name : String) (args : List JVal)
    (log : Log) :
    ContinuesWithin (self.events stream) log
      (runListeners beh self listeners name args log).1 := by
  induction listeners generalizing log with
  | nil => exact ContinuesWithin.refl _ _
  | cons l rest ih =>
    obtain ⟨bound, handler⟩ := l
    have hrest : ∀ l ∈ rest, l.2.stream = stream := fun l hl => hkind l (by simp [hl])
    have hh : handler.stream = stream := hkind (bound, handler) (by simp)
    unfold runListeners
    by_cases hb : bound = name
    · simp only [hb, if_true]
      have h1 := Handler.run_continuesWithin beh self handler args log
      rw [hh] at h1
      cases hrun : handler.run beh self args log with
      | mk log1 res =>
        rw [hrun] at h1
        cases res with
        | error e => exact h1
        | ok u => exact h1.trans (ih hrest log1)
    · simp only [hb, if_false]
      exact ih hrest log

/-- An emission on a connection whose listeners all belong to one stream only
invokes subscribers stored in the registry of that stream. -/
theorem emit_continuesWithin (beh : Behaviour) (self : EloquentTwitter) (stream : StreamKind)
    (c : StreamingAPIConnection) (hkind : ∀ l ∈ c.listeners, l.2.stream = stream)
    (name : String) (args : List JVal) (log : Log) :
    ContinuesWithin (self.events stream) log (c.emit beh self name args log).1 := by
  unfold StreamingAPIConnection.emit
  split
  · exact ContinuesWithin.refl _ _
  · exact runListeners_continuesWithin beh self stream c.listeners hkind name args log

/-! ## Connections and call sequences -/

theorem onAll_listeners (bindings : List (String × Handler)) (c : StreamingAPIConnection) :
    (c.onAll bindings).listeners = c.listeners ++ bindings
      ∧ (c.onAll bindings).id = c.id ∧ (c.onAll bindings).path = c.path
      ∧ (c.onAll bindings).track = c.track ∧ (c.onAll bindings).calls = c.calls := by
  induction bindings generalizing c with
  | nil => simp [StreamingAPIConnection.onAll]
  | cons b rest ih =>
    obtain ⟨name, handler⟩ := b
    obtain ⟨h1, h2, h3, h4, h5⟩ := ih (c.on name handler)
    refine ⟨?_, ?_, ?_, ?_, ?_⟩
    · show ((c.on name handler).onAll rest).listeners = _
      rw [h1]
      simp [StreamingAPIConnection.on]
    · show ((c.on name handler).onAll rest).id = _
      rw [h2]
      rfl
    · show ((c.on name handler).onAll rest).path = _
      rw [h3]
      rfl
    · show ((c.on name handler).onAll rest).track = _
      rw [h4]
      rfl
    · show ((c.on name handler).onAll rest).calls = _
      rw [h5]
      rfl

theorem userStreamBindings_stream : ∀ l ∈ userStreamBindings, l.2.stream = .user := by
  intro l hl
  simp only [userStreamBindings, List.mem_cons, List.mem_singleton, List.mem_nil_iff,
    or_false] at hl
  repeat (rcases hl with rfl | hl; exact rfl)

theorem statusesFilterStreamBindings_stream :
    ∀ l ∈ statusesFilterStreamBindings, l.2.stream = .statusesFilter := by
  intro l hl
  simp only [statusesFilterStreamBindings, List.mem_cons, List.mem_singleton, List.mem_nil_iff,
    or_false] at hl
  repeat (rcases hl with rfl | hl; exact rfl)

theorem userStreamRegistrations_append (a b : List Call) :
    userStreamRegistrations (a ++ b) = userStreamRegistrations a ++ userStreamRegistrations b := by
  induction a with
  | nil => rfl
  | cons c rest ih => cases c <;> simp [userStreamRegistrations, ih]

theorem statusesFilterStreamRegistrations_append (a b : List Call) :
    statusesFilterStreamRegistrations (a ++ b)
      = statusesFilterStreamRegistrations a ++ statusesFilterStreamRegistrations b := by
  induction a with
  | nil => rfl
  | cons c rest ih => cases c <;> simp [statusesFilterStreamRegistrations, ih]

/-- A registration on the user stream changes the user-stream registry as
`registerEvent` does and nothing else; when it throws nothing changes. -/
theorem call_registerUserStreamEvent (self : EloquentTwitter) (evt : String) (fn : Subscriber) :
    self.call (.registerUserStreamEvent evt fn)
      = { self with _userStreamEvents := self._userStreamEvents.register evt fn } := by
  cases h : self._userStreamEvents.registerEvent evt fn <;>
    simp [EloquentTwitter.call, EloquentTwitter.registerUserStreamEvent, EloquentEvent.register, h]

/-- A registration on the statuses-filter stream changes the statuses-filter
registry as `registerEvent` does and nothing else. -/
theorem call_registerStatusesFilterStreamEvent (self : EloquentTwitter) (evt : String)
    (fn : Subscriber) :
    self.call (.registerStatusesFilterStreamEvent evt fn)
      = { self with
          _statusesFilterStreamEvents := self._statusesFilterStreamEvents.register evt fn } := by
  cases h : self._statusesFilterStreamEvents.registerEvent evt fn <;>
    simp [EloquentTwitter.call, EloquentTwitter.registerStatusesFilterStreamEvent,
      EloquentEvent.register, h]

/-- Starting or stopping a stream never touches a registry or the track
list. -/
theorem stream_calls_keep_registries (self : EloquentTwitter) :
    (self.startUserStream.1._userStreamEvents = self._userStreamEvents
      ∧ self.startUserStream.1._statusesFilterStreamEvents = self._statusesFilterStreamEvents
      ∧ self.startUserStream.1._statusesFilterStream = self._statusesFilterStream)
    ∧ (self.stopUserStream.1._userStreamEvents = self._userStreamEvents
      ∧ self.stopUserStream.1._statusesFilterStreamEvents = self._statusesFilterStreamEvents
      ∧ self.stopUserStream.1._statusesFilterStream = self._statusesFilterStream)
    ∧ (self.startStatusesFilterStream.1._userStreamEvents = self._userStreamEvents
      ∧ self.startStatusesFilterStream.1._statusesFilterStreamEvents
          = self._statusesFilterStreamEvents
      ∧ self.startStatusesFilterStream.1._userStream = self._userStream)
    ∧ (self.stopStatusesFilterStream.1._userStreamEvents = self._userStreamEvents
      ∧ self.stopStatusesFilterStream.1._statusesFilterStreamEvents
          = self._statusesFilterStreamEvents
      ∧ self.stopStatusesFilterStream.1._userStream = self._userStream) := by
  refine ⟨?_, ?_, ?_, ?_⟩
  · unfold EloquentTwitter.startUserStream
    cases self._userStream <;> cases self._twit <;> simp
  · unfold EloquentTwitter.stopUserStream
    cases self._userStream <;> simp
  · unfold EloquentTwitter.startStatusesFilterStream
    cases self._statusesFilterStream <;> cases self._twit <;> simp
  · unfold EloquentTwitter.stopStatusesFilterStream
    cases self._statusesFilterStream <;> simp

/-- The connection stored for the user stream after `startUserStream` or
`stopUserStream` has user-stream listeners only, if the one stored before
had. -/
theorem userStream_listeners_kept (self : EloquentTwitter)
    (h : ∀ c, self._userStream = some c → ∀ l ∈ c.listeners, l.2.stream = .user) :
    (∀ c, self.startUserStream.1._userStream = some c → ∀ l ∈ c.listeners, l.2.stream = .user)
    ∧ (∀ c, self.stopUserStream.1._userStream = some c →
        ∀ l ∈ c.listeners, l.2.stream = .user) := by
  constructor
  · unfold EloquentTwitter.startUserStream
    cases hu : self._userStream with
    | none =>
      cases ht : self._twit with
      | none => simp [hu]
      | some twit =>
        intro c hc l hl
        simp only [Option.some.injEq] at hc
        subst hc
        rw [(onAll_listeners userStreamBindings _).1] at hl
        simp only [Twit.stream, List.nil_append] at hl
        exact userStreamBindings_stream l hl
    | some connection =>
      intro c hc l hl
      simp only [Option.some.injEq] at hc
      subst hc
      exact h connection hu l hl
  · unfold EloquentTwitter.stopUserStream
    cases hu : self._userStream with
    | none => simp [hu]
    | some connection =>
      intro c hc l hl
      simp only [Option.some.injEq] at hc
      subst hc
      exact h connection hu l hl

/-- The same for the statuses-filter stream. -/
theorem statusesFilterStream_listeners_kept (self : EloquentTwitter)
    (h : ∀ c, self._statusesFilterStream = some c →
      ∀ l ∈ c.listeners, l.2.stream = .statusesFilter) :
    (∀ c, self.startStatusesFilterStream.1._statusesFilterStream = some c →
        ∀ l ∈ c.listeners, l.2.stream = .statusesFilter)
    ∧ (∀ c, self.stopStatusesFilterStream.1._statusesFilterStream = some c →
        ∀ l ∈ c.listeners, l.2.stream = .statusesFilter) := by
  constructor
  · unfold EloquentTwitter.startStatusesFilterStream
    cases hu : self._statusesFilterStream with
    | none =>
      cases ht : self._twit with
      | none => simp [hu]
      | some twit =>
        intro c hc l hl
        simp only [Option.some.injEq] at hc
        subst hc
        rw [(onAll_listeners statusesFilterStreamBindings _).1] at hl
        simp only [Twit.stream, List.nil_append] at hl
        exact statusesFilterStreamBindings_stream l hl
    | some connection =>
      intro c hc l hl
      simp only [Option.some.injEq] at hc
      subst hc
      exact h connection hu l hl
  · unfold EloquentTwitter.stopStatusesFilterStream
    cases hu : self._statusesFilterStream with
    | none => simp [hu]
    | some connection => simp

theorem call_consistent (self : EloquentTwitter) (done : List Call) (c : Call)
    (h : self.Consistent done) : (self.call c).Consistent (done ++ [c]) := by
  obtain ⟨hu, hf, hcu, hcf⟩ := h
  have keep : ∀ s : EloquentTwitter,
      s._userStreamEvents = self._userStreamEvents →
      s._statusesFilterStreamEvents = self._statusesFilterStreamEvents →
      (∀ c, s._userStream = some c → ∀ l ∈ c.listeners, l.2.stream = .user) →
      (∀ c, s._statusesFilterStream = some c →
        ∀ l ∈ c.listeners, l.2.stream = .statusesFilter) →
      userStreamRegistrations (done ++ [c]) = userStreamRegistrations done →
      statusesFilterStreamRegistrations (done ++ [c]) = statusesFilterStreamRegistrations done →
      s.Consistent (done ++ [c]) := by
    intro s h1 h2 h3 h4 h5 h6
    refine ⟨?_, ?_, h3, h4⟩
    · rw [h1, h5]
      exact hu
    · rw [h2, h6]
      exact hf
  obtain ⟨⟨a1, a2, a3⟩, ⟨b1, b2, b3⟩, ⟨c1, c2, c3⟩, ⟨d1, d2, d3⟩⟩ :=
    stream_calls_keep_registries self
  cases c with
  | registerUserStreamEvent evt fn =>
    rw [call_registerUserStreamEvent]
    refine ⟨?_, ?_, hcu, hcf⟩
    · rw [userStreamRegistrations_append]
      exact register_sound self._userStreamEvents (userStreamRegistrations done) evt fn hu
    · rw [statusesFilterStreamRegistrations_append]
      simpa [statusesFilterStreamRegistrations] using hf
  | registerStatusesFilterStreamEvent evt fn =>
    rw [call_registerStatusesFilterStreamEvent]
    refine ⟨?_, ?_, hcu, hcf⟩
    · rw [userStreamRegistrations_append]
      simpa [userStreamRegistrations] using hu
    · rw [statusesFilterStreamRegistrations_append]
      exact register_sound self._statusesFilterStreamEvents
        (statusesFilterStreamRegistrations done) evt fn hf
  | addTracksToStatusesFilterStream tracks =>
    exact keep _ rfl rfl hcu hcf
      (by simp [userStreamRegistrations_append, userStreamRegistrations])
      (by simp [statusesFilterStreamRegistrations_append, statusesFilterStreamRegistrations])
  | resetTracksToStatusesFilterStream =>
    exact keep _ rfl rfl hcu hcf
      (by simp [userStreamRegistrations_append, userStreamRegistrations])
      (by simp [statusesFilterStreamRegistrations_append, statusesFilterStreamRegistrations])
  | startUserStream =>
    exact keep _ a1 a2 (userStream_listeners_kept self hcu).1
      (by
        show ∀ c, self.startUserStream.1._statusesFilterStream = some c → _
        rw [a3]
        exact hcf)
      (by simp [userStreamRegistrations_append, userStreamRegistrations])
      (by simp [statusesFilterStreamRegistrations_append, statusesFilterStreamRegistrations])
  | stopUserStream =>
    exact keep _ b1 b2 (userStream_listeners_kept self hcu).2
      (by
        show ∀ c, self.stopUserStream.1._statusesFilterStream = some c → _
        rw [b3]
        exact hcf)
      (by simp [userStreamRegistrations_append, userStreamRegistrations])
      (by simp [statusesFilterStreamRegistrations_append, statusesFilterStreamRegistrations])
  | startStatusesFilterStream =>
    exact keep _ c1 c2
      (by
        show ∀ c, self.startStatusesFilterStream.1._userStream = some c → _
        rw [c3]
        exact hcu)
      (statusesFilterStream_listeners_kept self hcf).1
      (by simp [userStreamRegistrations_append, userStreamRegistrations])
      (by simp [statusesFilterStreamRegistrations_append, statusesFilterStreamRegistrations])
  | stopStatusesFilterStream =>
    exact keep _ d1 d2
      (by
        show ∀ c, self.stopStatusesFilterStream.1._userStream = some c → _
        rw [d3]
        exact hcu)
      (statusesFilterStream_listeners_kept self hcf).2
      (by simp [userStreamRegistrations_append, userStreamRegistrations])
      (by simp [statusesFilterStreamRegistrations_append, statusesFilterStreamRegistrations])
  | restartStatusesFilterStream =>
    obtain ⟨_, _, ⟨e1, e2, e3⟩, _⟩ := stream_calls_keep_registries self.stopStatusesFilterStream.1
    have hstopped : ∀ c, self.stopStatusesFilterStream.1._statusesFilterStream = some c →
        ∀ l ∈ c.listeners, l.2.stream = .statusesFilter :=
      (statusesFilterStream_listeners_kept self hcf).2
    exact keep _ (e1.trans d1) (e2.trans d2)
      (by
        show ∀ c, self.stopStatusesFilterStream.1.startStatusesFilterStream.1._userStream
          = some c → _
        rw [e3, d3]
        exact hcu)
      (statusesFilterStream_listeners_kept self.stopStatusesFilterStream.1 hstopped).1
      (by simp [userStreamRegistrations_append, userStreamRegistrations])
      (by simp [statusesFilterStreamRegistrations_append, statusesFilterStreamRegistrations])

theorem calls_consistent (cs : List Call) (self : EloquentTwitter) (done : List Call)
    (h : self.Consistent done) : (self.calls cs).Consistent (done ++ cs) := by
  induction cs generalizing self done with
  | nil => simpa [EloquentTwitter.calls] using h
  | cons c rest ih =>
    have := ih (self.call c) (done ++ [c]) (call_consistent self done c h)
    simpa [EloquentTwitter.calls, List.append_assoc] using this

theorem constructor_consistent (ref : Nat) (keysObject : JVal) :
    (EloquentTwitter.constructor ref keysObject).Consistent [] := by
  refine ⟨?_, ?_, ?_, ?_⟩
  · intro name subs h
    cases h
  · intro name subs h
    cases h
  · intro c h
    cases h
  · intro c h
    cases h

theorem mem_userStreamRegistrations (cs : List Call) (evt : String) (fn : Subscriber) :
    (evt, fn) ∈ userStreamRegistrations cs ↔ Call.registerUserStreamEvent evt fn ∈ cs := by
  induction cs with
  | nil => simp [userStreamRegistrations]
  | cons c rest ih => cases c <;> simp [userStreamRegistrations, ih]

theorem mem_statusesFilterStreamRegistrations (cs : List Call) (evt : String) (fn : Subscriber) :
    (evt, fn) ∈ statusesFilterStreamRegistrations cs
      ↔ Call.registerStatusesFilterStreamEvent evt fn ∈ cs := by
  induction cs with
  | nil => simp [statusesFilterStreamRegistrations]
  | cons c rest ih => cases c <;> simp [statusesFilterStreamRegistrations, ih]

/-- A subscriber invoked by an emission on a connection of one stream is
stored, under some name, in the registry of that stream. -/
theorem emit_invokes_stored (beh : Behaviour) (self : EloquentTwitter) (stream : StreamKind)
    (c : StreamingAPIConnection) (hkind : ∀ l ∈ c.listeners, l.2.stream = stream)
    (name : String) (args : List JVal) (log : Log) (g : Subscriber)
    (hg : g ∈ invokedIn ((c.emit beh self name args log).1.drop log.length)) :
    ∃ evt subs, (self.events stream)._eventContainer.own.get evt = some subs ∧ g ∈ subs := by
  obtain ⟨added, hlog, honly⟩ := emit_continuesWithin beh self stream c hkind name args log
  rw [hlog, List.drop_left] at hg
  obtain ⟨evt, hmem⟩ := honly g hg
  unfold EloquentEvent.subscribers at hmem
  cases hget : (self.events stream)._eventContainer.own.get evt with
  | none => simp [hget] at hmem
  | some subs => exact ⟨evt, subs, hget, by simpa [hget] using hmem⟩

/-- What a handler does depends on the instance only through its identity and
its two registries. -/
theorem Handler.run_congr (beh : Behaviour) (s1 s2 : EloquentTwitter) (href : s1.ref = s2.ref)
    (hu : s1._userStreamEvents = s2._userStreamEvents)
    (hf : s1._statusesFilterStreamEvents = s2._statusesFilterStreamEvents) (handler : Handler)
    (args : List JVal) (log : Log) :
    handler.run beh s1 args log = handler.run beh s2 args log := by
  cases handler with
  | tweet stream =>
    cases stream <;>
      simp [Handler.run, EloquentTwitter.startUserStream_tweet,
        EloquentTwitter.startStatusesFilterStream_tweet, href, hu, hf]
  | delete => simp [Handler.run, EloquentTwitter.startUserStream_delete, hu]
  | directMessage => simp [Handler.run, EloquentTwitter.startUserStream_direct_message, hu]
  | reconnect stream => cases stream <;> simp [Handler.run, EloquentTwitter.events, hu, hf]
  | forward stream logical wrapper =>
    cases stream <;> simp [Handler.run, EloquentTwitter.events, hu, hf]

theorem runListeners_congr (beh : Behaviour) (s1 s2 : EloquentTwitter) (href : s1.ref = s2.ref)
    (hu : s1._userStreamEvents = s2._userStreamEvents)
    (hf : s1._statusesFilterStreamEvents = s2._statusesFilterStreamEvents)
    (listeners : List (String × Handler)) (name : String) (args : List JVal) (log : Log) :
    runListeners beh s1 listeners name args log = runListeners beh s2 listeners name args log := by
  induction listeners generalizing log with
  | nil => rfl
  | cons l rest ih =>
    obtain ⟨bound, handler⟩ := l
    unfold runListeners
    rw [Handler.run_congr beh s1 s2 href hu hf handler args log]
    by_cases hb : bound = name
    · simp only [hb, if_true]
      cases handler.run beh s2 args log with
      | mk log1 res =>
        cases res with
        | error e => rfl
        | ok u => exact ih log1
    · simp only [hb, if_false]
      exact ih log

/-- Two connections with the same listeners, on instances with the same
identity and registries, emit alike. -/
theorem emit_congr (beh : Behaviour) (s1 s2 : EloquentTwitter) (href : s1.ref = s2.ref)
    (hu : s1._userStreamEvents = s2._userStreamEvents)
    (hf : s1._statusesFilterStreamEvents = s2._statusesFilterStreamEvents)
    (c1 c2 : StreamingAPIConnection) (hl : c1.listeners = c2.listeners) (name : String)
    (args : List JVal) (log : Log) :
    c1.emit beh s1 name args log = c2.emit beh s2 name args log := by
  unfold StreamingAPIConnection.emit
  rw [hl, runListeners_congr beh s1 s2 href hu hf c2.listeners name args log]

/-- While the user stream is bound, any number of further `startUserStream`
calls keeps the stored connection, its listeners and everything else, and
only adds `start()` calls to it. -/
theorem startUserStream_again (n : Nat) (self : EloquentTwitter) (c : StreamingAPIConnection)
    (hc : self._userStream = some c) :
    self.calls (List.replicate n .startUserStream)
      = { self with
          _userStream :=
            some { c with calls := c.calls ++ List.replicate n ConnectionCall.start } } := by
  induction n generalizing self c with
  | zero =>
    cases self
    simp only [List.replicate, EloquentTwitter.calls, List.append_nil]
    simp only at hc
    rw [hc]
  | succ k ih =>
    have hstep : self.call .startUserStream = { self with _userStream := some c.start } := by
      simp [EloquentTwitter.call, EloquentTwitter.startUserStream, hc]
    rw [List.replicate_succ, EloquentTwitter.calls, hstep, ih _ c.start rfl]
    simp [StreamingAPIConnection.start, List.append_assoc, List.replicate_succ]

/-- The same for the statuses-filter stream. -/
theorem startStatusesFilterStream_again (n : Nat) (self : EloquentTwitter)
    (c : StreamingAPIConnection) (hc : self._statusesFilterStream = some c) :
    self.calls (List.replicate n .startStatusesFilterStream)
      = { self with
          _statusesFilterStream :=
            some { c with calls := c.calls ++ List.replicate n ConnectionCall.start } } := by
  induction n generalizing self c with
  | zero =>
    cases self
    simp only [List.replicate, EloquentTwitter.calls, List.append_nil]
    simp only at hc
    rw [hc]
  | succ k ih =>
    have hstep : self.call .startStatusesFilterStream
        = { self with _statusesFilterStream := some c.start } := by
      simp [EloquentTwitter.call, EloquentTwitter.startStatusesFilterStream, hc]
    rw [List.replicate_succ, EloquentTwitter.calls, hstep, ih _ c.start rfl]
    simp [StreamingAPIConnection.start, List.append_assoc, List.replicate_succ]

/-- The connection that `startUserStream` returns is the one it leaves
stored. -/
theorem startUserStream_stores (self : EloquentTwitter) (c : StreamingAPIConnection)
    (h : self.startUserStream.2 = .ok c) : self.startUserStream.1._userStream = some c := by
  unfold EloquentTwitter.startUserStream at h ⊢
  cases hu : self._userStream with
  | none =>
    cases ht : self._twit with
    | none => simp [hu, ht] at h
    | some twit =>
      simp only [hu, ht, Except.ok.injEq] at h
      simp [h]
  | some connection =>
    simp only [hu, Except.ok.injEq] at h
    simp [h]

/-- With a client, `restartStatusesFilterStream` creates a connection from the
track list of that moment, whether a connection was stored or not. -/
theorem restartStatusesFilterStream_creates (self : EloquentTwitter) (twit : Twit)
    (ht : self._twit = some twit) :
    self.restartStatusesFilterStream
      = ({ self with
            _twit := some (twit.stream "statuses/filter" (some self._trackaStatusesFilterStream)).1
            _statusesFilterStream :=
              some ((twit.stream "statuses/filter"
                (some self._trackaStatusesFilterStream)).2.onAll statusesFilterStreamBindings) },
          .ok ((twit.stream "statuses/filter"
            (some self._trackaStatusesFilterStream)).2.onAll statusesFilterStreamBindings)) := by
  unfold EloquentTwitter.restartStatusesFilterStream EloquentTwitter.stopStatusesFilterStream
    EloquentTwitter.startStatusesFilterStream
  cases hf : self._statusesFilterStream with
  | none => simp [hf, ht]
  | some c => simp [ht]

/-- While a user-stream connection is stored, `startUserStream` calls
`start()` on it and returns it. -/
theorem startUserStream_bound (self : EloquentTwitter) (c : StreamingAPIConnection)
    (hc : self._userStream = some c) :
    self.startUserStream = ({ self with _userStream := some c.start }, .ok c.start) := by
  simp [EloquentTwitter.startUserStream, hc]

/-! ## Emission on a bound connection -/

/-- An event name without a listener runs no handler. -/
theorem runListeners_unbound (beh : Behaviour) (s : EloquentTwitter)
    (listeners : List (String × Handler)) (name : String)
    (hnot : name ∉ listeners.map Prod.fst) (args : List JVal) (log : Log) :
    runListeners beh s listeners name args log = (log, .ok ()) := by
  induction listeners with
  | nil => rfl
  | cons l rest ih =>
    obtain ⟨bound, handler⟩ := l
    simp only [List.map_cons, List.mem_cons, not_or] at hnot
    have hb : ¬ bound = name := fun h => hnot.1 h.symm
    simp only [runListeners, hb, if_false]
    exact ih hnot.2

/-- When the bound names are pairwise different, an event runs the one handler
bound to its name, once. -/
theorem runListeners_unique (beh : Behaviour) (s : EloquentTwitter)
    (listeners : List (String × Handler)) (name : String) (handler : Handler)
    (hnodup : (listeners.map Prod.fst).Nodup) (hmem : (name, handler) ∈ listeners)
    (args : List JVal) (log : Log) :
    runListeners beh s listeners name args log
      = ((handler.run beh s args log).1,
          (handler.run beh s args log).2.map (fun _ => ())) := by
  induction listeners with
  | nil => cases hmem
  | cons l rest ih =>
    obtain ⟨bound, h⟩ := l
    simp only [List.map_cons, List.nodup_cons] at hnodup
    rcases List.mem_cons.mp hmem with heq | hin
    · simp only [Prod.mk.injEq] at heq
      obtain ⟨rfl, rfl⟩ := heq
      simp only [runListeners, if_true]
      cases hrun : handler.run beh s args log with
      | mk log1 res =>
        cases res with
        | error e => rfl
        | ok u =>
          simp only []
          rw [runListeners_unbound beh s rest name hnodup.1 args log1]
          rfl
    · have hb : ¬ bound = name := by
        intro hb
        subst hb
        exact hnodup.1 (List.mem_map.mpr ⟨(bound, handler), hin, rfl⟩)
      simp only [runListeners, hb, if_false]
      exact ih hnodup.2 hin

theorem userStreamBindings_nodup : (userStreamBindings.map Prod.fst).Nodup := by decide

theorem statusesFilterStreamBindings_nodup :
    (statusesFilterStreamBindings.map Prod.fst).Nodup := by decide

/-- One-for-one forwarding on the user stream: for each of the external names
below, an emission on a connection bound by `startUserStream` is exactly one
run of the forwarding handler, which makes exactly one `fireEvents` call, of
the listed logical event, with the payload presented by the listed wrapper. -/
theorem userStream_forwarding (beh : Behaviour) (s : EloquentTwitter)
    (c : StreamingAPIConnection) (hl : c.listeners = userStreamBindings)
    (name logical : String) (wrapper : Wrapper)
    (hmem : (name, logical, wrapper) ∈
      [("limit", EloquentTwitterEvent.LIMIT, Wrapper.raw),
       ("scrub_geo", EloquentTwitterEvent.SCRUB_GEO, Wrapper.raw),
       ("disconnect", EloquentTwitterEvent.DISCONNECT, Wrapper.raw),
       ("connect", EloquentTwitterEvent.CONNECT, Wrapper.raw),
       ("connected", EloquentTwitterEvent.CONNECTED, Wrapper.raw),
       ("warning", EloquentTwitterEvent.WARNING, Wrapper.raw),
       ("status_withheld", EloquentTwitterEvent.STATUS_WITHHELD, Wrapper.raw),
       ("user_withheld", EloquentTwitterEvent.USER_WITHHELD, Wrapper.raw),
       ("friends", EloquentTwitterEvent.FRIENDS, Wrapper.raw),
       ("user_event", EloquentTwitterEvent.USER_EVENT, Wrapper.raw),
       ("blocked", EloquentTwitterEvent.USER_EVENT_BLOCKED, Wrapper.dataEvent),
       ("unblocked", EloquentTwitterEvent.USER_EVENT_UNBLOCKED, Wrapper.dataEvent),
       ("favorite", EloquentTwitterEvent.USER_EVENT_FAVORITE, Wrapper.dataEvent),
       ("unfavorite", EloquentTwitterEvent.USER_EVENT_UNFAVORITE, Wrapper.dataEvent),
       ("follow", EloquentTwitterEvent.USER_EVENT_FOLLOW, Wrapper.dataEvent),
       ("unfollow", EloquentTwitterEvent.USER_EVENT_UNFOLLOW, Wrapper.dataEvent),
       ("mute", EloquentTwitterEvent.USER_EVENT_MUTE, Wrapper.dataEvent),
       ("unmute", EloquentTwitterEvent.USER_EVENT_UNMUTE, Wrapper.dataEvent),
       ("user_update", EloquentTwitterEvent.USER_EVENT_USER_UPDATE, Wrapper.dataEvent),
       ("list_created", EloquentTwitterEvent.USER_EVENT_LIST_CREATED, Wrapper.dataEvent),
       ("list_updated", EloquentTwitterEvent.USER_EVENT_LIST_UPDATED, Wrapper.dataEvent),
       ("list_destroyed", EloquentTwitterEvent.USER_EVENT_LIST_DESTROYED, Wrapper.dataEvent),
       ("list_member_added", EloquentTwitterEvent.USER_EVENT_LIST_MEMBER_ADDED, Wrapper.dataEvent),
       ("list_member_removed", EloquentTwitterEvent.USER_EVENT_LIST_MEMBER_REMOVED, Wrapper.dataEvent),
       ("list_user_subscribed", EloquentTwitterEvent.USER_EVENT_LIST_USER_SUBSCRIBED, Wrapper.dataEvent),
       ("quoted_tweet", EloquentTwitterEvent.USER_EVENT_QUOTED_TWEET, Wrapper.dataEvent),
       ("retweeted_retweet", EloquentTwitterEvent.USER_EVENT_RETWEETED_RETWEET, Wrapper.dataEvent),
       ("favorited_retweet", EloquentTwitterEvent.USER_EVENT_FAVORITED_RETWEET, Wrapper.dataEvent),
       ("error", EloquentTwitterEvent.ERROR, Wrapper.dataError),
       ("message", EloquentTwitterEvent.ANY, Wrapper.raw)])
    (args : List JVal) (log : Log) :
    c.emit beh s name args log
        = forwardHandler beh s._userStreamEvents logical wrapper (args.getD 0 .undefined) log
      ∧ firedIn (c.emit beh s name args log).1
        = firedIn log ++ [(logical, some [wrapper.apply (args.getD 0 .undefined)])] := by
  have hbound : (name, Handler.forward .user logical wrapper) ∈ userStreamBindings := by
    simp only [List.mem_cons, List.mem_singleton, List.mem_nil_iff, or_false,
      Prod.mk.injEq] at hmem
    repeat (rcases hmem with h | hmem; (obtain ⟨rfl, rfl, rfl⟩ := h; simp [userStreamBindings]))
    obtain ⟨rfl, rfl, rfl⟩ := hmem
    simp [userStreamBindings]
  have hany : (userStreamBindings.any (fun l => l.1 == "error")) = true := by decide
  have hemit : c.emit beh s name args log
      = forwardHandler beh s._userStreamEvents logical wrapper (args.getD 0 .undefined) log := by
    unfold StreamingAPIConnection.emit
    rw [hl, hany]
    simp only [Bool.true_eq_false, and_false, if_false]
    rw [runListeners_unique beh s userStreamBindings name _ userStreamBindings_nodup hbound]
    simp only [Handler.run, EloquentTwitter.events]
    unfold forwardHandler
    cases s._userStreamEvents.fireEvents beh logical
        (some [wrapper.apply (args.getD 0 .undefined)]) log with
    | mk log1 res => cases res <;> rfl
  refine ⟨hemit, ?_⟩
  rw [hemit]
  have hfired := firedIn_fireEvents beh s._userStreamEvents logical
    (some [wrapper.apply (args.getD 0 .undefined)]) log
  unfold forwardHandler
  cases hfire : s._userStreamEvents.fireEvents beh logical
      (some [wrapper.apply (args.getD 0 .undefined)]) log with
  | mk log1 res =>
    rw [hfire] at hfired
    cases res <;> exact hfired

/-- An emission of a name that is not bound, other than `error`, does nothing. -/
theorem emit_unbound (beh : Behaviour) (s : EloquentTwitter) (c : StreamingAPIConnection)
    (name : String) (hname : name ≠ "error") (hnot : name ∉ c.listeners.map Prod.fst)
    (args : List JVal) (log : Log) :
    c.emit beh s name args log = (log, .ok ()) := by
  unfold StreamingAPIConnection.emit
  simp only [hname, false_and, if_false]
  exact runListeners_unbound beh s c.listeners name hnot args log

/-- The external event `reconnect` on the user stream: one `fireEvents` call of
`RECONNECT` with the three values of the event. -/
theorem userStream_reconnect (beh : Behaviour) (s : EloquentTwitter)
    (c : StreamingAPIConnection) (hl : c.listeners = userStreamBindings) (args : List JVal)
    (log : Log) :
    firedIn (c.emit beh s "reconnect" args log).1
      = firedIn log ++
        [(EloquentTwitterEvent.RECONNECT,
          some [.raw (args.getD 0 .undefined), .raw (args.getD 1 .undefined),
            .raw (args.getD 2 .undefined)])] := by
  have hbound : ("reconnect", Handler.reconnect .user) ∈ userStreamBindings := by
    simp [userStreamBindings]
  unfold StreamingAPIConnection.emit
  rw [hl]
  simp only [show ¬ ("reconnect" = "error") by decide, false_and, if_false]
  rw [runListeners_unique beh s userStreamBindings "reconnect" _ userStreamBindings_nodup hbound]
  simp only [Handler.run, EloquentTwitter.events]
  have hfired := firedIn_fireEvents beh s._userStreamEvents EloquentTwitterEvent.RECONNECT
    (some [.raw (args.getD 0 .undefined), .raw (args.getD 1 .undefined),
      .raw (args.getD 2 .undefined)]) log
  unfold reconnectHandler
  cases hfire : s._userStreamEvents.fireEvents beh EloquentTwitterEvent.RECONNECT
      (some [.raw (args.getD 0 .undefined), .raw (args.getD 1 .undefined),
        .raw (args.getD 2 .undefined)]) log with
  | mk log1 res =>
    rw [hfire] at hfired
    cases res <;> exact hfired

/-- The external event `direct_message` on the user stream, with an object
payload: one `fireEvents` call of `DIRECT_MESSAGE` with a `DataDirectMessage`
wrapper of the member `direct_message`. -/
theorem userStream_direct_message (beh : Behaviour) (s : EloquentTwitter)
    (c : StreamingAPIConnection) (hl : c.listeners = userStreamBindings)
    (fields : List (String × JVal)) (log : Log) :
    firedIn (c.emit beh s "direct_message" [.obj fields] log).1
      = firedIn log ++
        [(EloquentTwitterEvent.DIRECT_MESSAGE,
          some [.dataDirectMessage
            (DataDirectMessage.constructor (JVal.field fields "direct_message") none)])] := by
  have hbound : ("direct_message", Handler.directMessage) ∈ userStreamBindings := by
    simp [userStreamBindings]
  unfold StreamingAPIConnection.emit
  rw [hl]
  simp only [show ¬ ("direct_message" = "error") by decide, false_and, if_false]
  rw [runListeners_unique beh s userStreamBindings "direct_message" _ userStreamBindings_nodup
    hbound]
  simp only [Handler.run, List.getD_cons_zero]
  have hfired := firedIn_fireEvents beh s._userStreamEvents EloquentTwitterEvent.DIRECT_MESSAGE
    (some [.dataDirectMessage
      (DataDirectMessage.constructor (JVal.field fields "direct_message") none)]) log
  unfold EloquentTwitter.startUserStream_direct_message
  simp only [JVal.getProp]
  cases hfire : s._userStreamEvents.fireEvents beh EloquentTwitterEvent.DIRECT_MESSAGE
      (some [.dataDirectMessage
        (DataDirectMessage.constructor (JVal.field fields "direct_message") none)]) log with
  | mk log1 res =>
    rw [hfire] at hfired
    cases res <;> exact hfired

/-! ## Claims about the two streams of an instance -/

/-- C14: the two registries of an instance are independent.  A registration
on one stream leaves the registry of the other stream as it was; and after
any sequence of calls on a new instance (registrations on either stream,
changes of the track list, starts, stops and restarts), an event emitted by
the statuses-filter connection never invokes a subscriber that was never
registered with `registerStatusesFilterStreamEvent`, and an event emitted by
the user-stream connection never invokes a subscriber that was never
registered with `registerUserStreamEvent`, whatever the event name, the
arguments and the behaviour of the subscribers. -/
theorem stream_registries_are_independent (ref : Nat) (keysObject : JVal) (cs : List Call)
    (f : Subscriber) :
    (∀ (self : EloquentTwitter) evt fn r, self.registerUserStreamEvent evt fn = .ok r →
        r._statusesFilterStreamEvents = self._statusesFilterStreamEvents)
    ∧ (∀ (self : EloquentTwitter) evt fn r,
        self.registerStatusesFilterStreamEvent evt fn = .ok r →
        r._userStreamEvents = self._userStreamEvents)
    ∧ ((∀ evt, Call.registerStatusesFilterStreamEvent evt f ∉ cs) →
        ∀ c, ((EloquentTwitter.constructor ref keysObject).calls cs)._statusesFilterStream
            = some c →
          ∀ beh name args log,
            f ∉ invokedIn
              ((c.emit beh ((EloquentTwitter.constructor ref keysObject).calls cs) name args
                log).1.drop log.length))
    ∧ ((∀ evt, Call.registerUserStreamEvent evt f ∉ cs) →
        ∀ c, ((EloquentTwitter.constructor ref keysObject).calls cs)._userStream = some c →
          ∀ beh name args log,
            f ∉ invokedIn
              ((c.emit beh ((EloquentTwitter.constructor ref keysObject).calls cs) name args
                log).1.drop log.length)) := by
  have hcons := calls_consistent cs (EloquentTwitter.constructor ref keysObject) []
    (constructor_consistent ref keysObject)
  rw [List.nil_append] at hcons
  obtain ⟨hu, hf, hcu, hcf⟩ := hcons
  refine ⟨?_, ?_, ?_, ?_⟩
  · intro self evt fn r h
    unfold EloquentTwitter.registerUserStreamEvent at h
    cases hr : self._userStreamEvents.registerEvent evt fn with
    | error e => simp [hr] at h
    | ok r1 =>
      simp only [hr, Except.ok.injEq] at h
      subst h
      rfl
  · intro self evt fn r h
    unfold EloquentTwitter.registerStatusesFilterStreamEvent at h
    cases hr : self._statusesFilterStreamEvents.registerEvent evt fn with
    | error e => simp [hr] at h
    | ok r1 =>
      simp only [hr, Except.ok.injEq] at h
      subst h
      rfl
  · intro hnever c hc beh name args log hmem
    obtain ⟨evt, subs, hget, hin⟩ :=
      emit_invokes_stored beh _ .statusesFilter c (hcf c hc) name args log f hmem
    exact hnever evt ((mem_statusesFilterStreamRegistrations cs evt f).mp (hf evt subs hget f hin))
  · intro hnever c hc beh name args log hmem
    obtain ⟨evt, subs, hget, hin⟩ :=
      emit_invokes_stored beh _ .user c (hcu c hc) name args log f hmem
    exact hnever evt ((mem_userStreamRegistrations cs evt f).mp (hu evt subs hget f hin))

theorem stream_registries_are_independent_witness :
    (1 : Subscriber) ∉ invokedIn
      ((((Twit.stream { streams := [] } "statuses/filter" (some [])).2.onAll
          statusesFilterStreamBindings).emit (fun _ _ _ => none)
        ((EloquentTwitter.constructor 7 (.obj [("consumer_key", .str "k")])).calls
          [.registerUserStreamEvent "TWEET" 1, .registerStatusesFilterStreamEvent "TWEET" 2,
           .startStatusesFilterStream])
        "tweet" [.obj [("text", .str "hello")]] []).1.drop ([] : Log).length) :=
  (stream_registries_are_independent 7 (.obj [("consumer_key", .str "k")])
    [.registerUserStreamEvent "TWEET" 1, .registerStatusesFilterStreamEvent "TWEET" 2,
     .startStatusesFilterStream] 1).2.2.1
    (by intro evt h; simp at h) _ rfl (fun _ _ _ => none) "tweet"
    [.obj [("text", .str "hello")]] []

/-- C15: calling `startUserStream` (respectively `startStatusesFilterStream`)
while a connection is stored creates no connection and binds no handler: the
client receives no `stream` call, the stored connection receives one
`start()` call and is the connection returned, with the identity and the
listeners it had.  After any number `n` of such calls the listeners are still
the ones bound once, so every external event is handled exactly as before
the calls.  The names bound by either start function are pairwise different,
so an event runs at most one handler. -/
theorem start_while_bound_keeps_binding (self : EloquentTwitter) (c : StreamingAPIConnection)
    (n : Nat) :
    (self._userStream = some c →
        self.startUserStream.2 = .ok c.start
        ∧ self.startUserStream.1._userStream = some c.start
        ∧ self.startUserStream.1._twit = self._twit
        ∧ c.start.id = c.id ∧ c.start.listeners = c.listeners
        ∧ c.start.calls = c.calls ++ [.start]
        ∧ (self.calls (List.replicate n .startUserStream))._twit = self._twit
        ∧ ∃ cn, (self.calls (List.replicate n .startUserStream))._userStream = some cn
            ∧ cn.id = c.id ∧ cn.listeners = c.listeners
            ∧ cn.calls = c.calls ++ List.replicate n .start
            ∧ ∀ beh name args log,
                cn.emit beh (self.calls (List.replicate n .startUserStream)) name args log
                  = c.emit beh self name args log)
    ∧ (self._statusesFilterStream = some c →
        self.startStatusesFilterStream.2 = .ok c.start
        ∧ self.startStatusesFilterStream.1._statusesFilterStream = some c.start
        ∧ self.startStatusesFilterStream.1._twit = self._twit
        ∧ c.start.id = c.id ∧ c.start.listeners = c.listeners
        ∧ c.start.calls = c.calls ++ [.start]
        ∧ (self.calls (List.replicate n .startStatusesFilterStream))._twit = self._twit
        ∧ ∃ cn, (self.calls (List.replicate n .startStatusesFilterStream))._statusesFilterStream
              = some cn
            ∧ cn.id = c.id ∧ cn.listeners = c.listeners
            ∧ cn.calls = c.calls ++ List.replicate n .start
            ∧ ∀ beh name args log,
                cn.emit beh (self.calls (List.replicate n .startStatusesFilterStream)) name args
                    log
                  = c.emit beh self name args log)
    ∧ (userStreamBindings.map Prod.fst).Nodup
    ∧ (statusesFilterStreamBindings.map Prod.fst).Nodup := by
  refine ⟨?_, ?_, by decide, by decide⟩
  · intro hc
    have hagain := startUserStream_again n self c hc
    refine ⟨by simp [EloquentTwitter.startUserStream, hc],
      by simp [EloquentTwitter.startUserStream, hc],
      by simp [EloquentTwitter.startUserStream, hc], rfl, rfl, rfl, by rw [hagain], ?_⟩
    refine ⟨{ c with calls := c.calls ++ List.replicate n ConnectionCall.start },
      by rw [hagain], rfl, rfl, rfl, ?_⟩
    intro beh name args log
    rw [hagain]
    refine emit_congr beh _ self ?_ ?_ ?_ _ c ?_ name args log <;> rfl
  · intro hc
    have hagain := startStatusesFilterStream_again n self c hc
    refine ⟨by simp [EloquentTwitter.startStatusesFilterStream, hc],
      by simp [EloquentTwitter.startStatusesFilterStream, hc],
      by simp [EloquentTwitter.startStatusesFilterStream, hc], rfl, rfl, rfl, by rw [hagain], ?_⟩
    refine ⟨{ c with calls := c.calls ++ List.replicate n ConnectionCall.start },
      by rw [hagain], rfl, rfl, rfl, ?_⟩
    intro beh name args log
    rw [hagain]
    refine emit_congr beh _ self ?_ ?_ ?_ _ c ?_ name args log <;> rfl

theorem start_while_bound_keeps_binding_witness :
    ((EloquentTwitter.constructor 7 (.obj [("consumer_key", .str "k")])).startUserStream.1).startUserStream.2
        = .ok ((Twit.stream { streams := [] } "user" none).2.onAll userStreamBindings).start
    ∧ (((EloquentTwitter.constructor 7 (.obj [("consumer_key", .str "k")])).startUserStream.1).calls
          (List.replicate 2 .startUserStream))._twit
        = ((EloquentTwitter.constructor 7 (.obj [("consumer_key", .str "k")])).startUserStream.1)._twit :=
  ⟨((start_while_bound_keeps_binding
      ((EloquentTwitter.constructor 7 (.obj [("consumer_key", .str "k")])).startUserStream.1)
      ((Twit.stream { streams := [] } "user" none).2.onAll userStreamBindings) 2).1 rfl).1,
   ((start_while_bound_keeps_binding
      ((EloquentTwitter.constructor 7 (.obj [("consumer_key", .str "k")])).startUserStream.1)
      ((Twit.stream { streams := [] } "user" none).2.onAll userStreamBindings)
      2).1 rfl).2.2.2.2.2.2.1⟩

/-- C16, as stated, fails for the user stream: on an instance with a client,
after `startUserStream` then `stopUserStream` the connection is still stored
(stopped), and `stopUserStream` has returned it. -/
theorem user_stream_stays_stored_after_stop :
    (EloquentTwitter.constructor 7
        (.obj [("consumer_key", .str "k")])).startUserStream.1.stopUserStream.1._userStream
      = some ((Twit.stream { streams := [] } "user" none).2.onAll userStreamBindings).stop
    ∧ (EloquentTwitter.constructor 7
        (.obj [("consumer_key", .str "k")])).startUserStream.1.stopUserStream.2
      = some ((Twit.stream { streams := [] } "user" none).2.onAll userStreamBindings).stop :=
  ⟨rfl, rfl⟩

/-- C16, amended: the statuses-filter stream follows unbound, start, bound,
stop, unbound: after `startStatusesFilterStream` then
`stopStatusesFilterStream` no connection is stored.  `stopUserStream` stops
the stored connection but keeps it stored: after `startUserStream` then
`stopUserStream` the connection that was started is stored with one more
`stop()` call, is what `stopUserStream` returned, and is the connection that
the next `startUserStream` resumes.  Stopping while unbound changes nothing
and returns `null`, on both streams. -/
theorem stop_lifecycle (self : EloquentTwitter) :
    self.startStatusesFilterStream.1.stopStatusesFilterStream.1._statusesFilterStream = none
    ∧ self.startStatusesFilterStream.1.stopStatusesFilterStream.2 = none
    ∧ (∀ c, self.startUserStream.2 = .ok c →
        self.startUserStream.1.stopUserStream.1._userStream = some c.stop
        ∧ self.startUserStream.1.stopUserStream.2 = some c.stop
        ∧ self.startUserStream.1.stopUserStream.1.startUserStream.2 = .ok c.stop.start)
    ∧ (self._userStream = none → self.stopUserStream = (self, none))
    ∧ (self._statusesFilterStream = none → self.stopStatusesFilterStream = (self, none)) := by
  refine ⟨?_, ?_, ?_, ?_, ?_⟩
  · unfold EloquentTwitter.stopStatusesFilterStream
    cases h : self.startStatusesFilterStream.1._statusesFilterStream <;> simp [h]
  · unfold EloquentTwitter.stopStatusesFilterStream
    cases h : self.startStatusesFilterStream.1._statusesFilterStream <;> simp
  · intro c hc
    have hstored := startUserStream_stores self c hc
    have hstop : self.startUserStream.1.stopUserStream.1._userStream = some c.stop := by
      simp [EloquentTwitter.stopUserStream, hstored]
    refine ⟨hstop, by simp [EloquentTwitter.stopUserStream, hstored], ?_⟩
    rw [startUserStream_bound _ c.stop hstop]
  · intro h
    simp [EloquentTwitter.stopUserStream, h]
  · intro h
    simp [EloquentTwitter.stopStatusesFilterStream, h]

theorem stop_lifecycle_witness :
    (EloquentTwitter.constructor 7
        (.obj [("consumer_key", .str "k")])).startUserStream.1.stopUserStream.1._userStream
      = some ((Twit.stream { streams := [] } "user" none).2.onAll userStreamBindings).stop
    ∧ (EloquentTwitter.constructor 7 (.obj [("consumer_key", .str "k")])).stopUserStream
      = (EloquentTwitter.constructor 7 (.obj [("consumer_key", .str "k")]), none) :=
  ⟨((stop_lifecycle (EloquentTwitter.constructor 7 (.obj [("consumer_key", .str "k")]))).2.2.1
      _ rfl).1,
   (stop_lifecycle (EloquentTwitter.constructor 7 (.obj [("consumer_key", .str "k")]))).2.2.2.1
      rfl⟩

/-- C17: the track list is read only when a connection is created.  Changing
the list (adding tracks, or resetting and adding) touches neither the client
nor the stored connection; while a statuses-filter connection is stored,
`startStatusesFilterStream` after any such change creates no connection (the
client receives no `stream` call) and returns the stored connection with the
`track` parameter it was created with; and `restartStatusesFilterStream` on
an instance with a client makes exactly one `stream` call and stores and
returns a new connection whose `track` parameter is the track list of that
moment. -/
theorem track_list_is_read_on_creation (self : EloquentTwitter) (c : StreamingAPIConnection)
    (tracks : List JVal) (twit : Twit) :
    ((self.addTracksToStatusesFilterStream tracks)._statusesFilterStream
          = self._statusesFilterStream
      ∧ (self.addTracksToStatusesFilterStream tracks)._twit = self._twit
      ∧ self.resetTracksToStatusesFilterStream._statusesFilterStream
          = self._statusesFilterStream
      ∧ self.resetTracksToStatusesFilterStream._twit = self._twit)
    ∧ (self._statusesFilterStream = some c →
        (self.addTracksToStatusesFilterStream tracks).startStatusesFilterStream.2 = .ok c.start
        ∧ (self.addTracksToStatusesFilterStream tracks).startStatusesFilterStream.1._twit
            = self._twit
        ∧ (self.resetTracksToStatusesFilterStream.addTracksToStatusesFilterStream
              tracks).startStatusesFilterStream.2 = .ok c.start
        ∧ (self.resetTracksToStatusesFilterStream.addTracksToStatusesFilterStream
              tracks).startStatusesFilterStream.1._twit = self._twit
        ∧ c.start.track = c.track ∧ c.start.id = c.id)
    ∧ (self._twit = some twit →
        ∃ created, self.restartStatusesFilterStream.2 = .ok created
          ∧ self.restartStatusesFilterStream.1._statusesFilterStream = some created
          ∧ created.track = some self._trackaStatusesFilterStream
          ∧ created.path = "statuses/filter"
          ∧ created.id = twit.streams.length
          ∧ created.listeners = statusesFilterStreamBindings
          ∧ created.calls = []
          ∧ self.restartStatusesFilterStream.1._twit
              = some { streams := twit.streams
                  ++ [("statuses/filter", some self._trackaStatusesFilterStream)] }) := by
  refine ⟨⟨rfl, rfl, rfl, rfl⟩, ?_, ?_⟩
  · intro hc
    refine ⟨?_, ?_, ?_, ?_, rfl, rfl⟩ <;>
      simp [EloquentTwitter.startStatusesFilterStream,
        EloquentTwitter.addTracksToStatusesFilterStream,
        EloquentTwitter.resetTracksToStatusesFilterStream, hc]
  · intro ht
    rw [restartStatusesFilterStream_creates self twit ht]
    obtain ⟨h1, h2, h3, h4, h5⟩ := onAll_listeners statusesFilterStreamBindings
      (twit.stream "statuses/filter" (some self._trackaStatusesFilterStream)).2
    exact ⟨_, rfl, rfl, by rw [h4]; rfl, by rw [h3]; rfl, by rw [h2]; rfl,
      by rw [h1]; rfl, by rw [h5]; rfl, rfl⟩

theorem track_list_is_read_on_creation_witness :
    ((((EloquentTwitter.constructor 7 (.obj [("consumer_key", .str "k")])).addTracksToStatusesFilterStream
          [.str "nodejs"]).startStatusesFilterStream.1).addTracksToStatusesFilterStream
        [.str "java"]).startStatusesFilterStream.2
      = .ok ((Twit.stream { streams := [] } "statuses/filter"
          (some [.str "nodejs"])).2.onAll statusesFilterStreamBindings).start :=
  ((track_list_is_read_on_creation
    (((EloquentTwitter.constructor 7 (.obj [("consumer_key", .str "k")])).addTracksToStatusesFilterStream
      [.str "nodejs"]).startStatusesFilterStream.1)
    ((Twit.stream { streams := [] } "statuses/filter"
      (some [.str "nodejs"])).2.onAll statusesFilterStreamBindings)
    [.str "java"] { streams := [] }).2.1 rfl).1

/-! ## REST answers -/

/-- The shared answer function on an error: the error callback, when there is
one, is called once with the wrapped error, and nothing else is called. -/
theorem restCallback_error (successCallback errorCallback : Option Callback)
    (wrap : JVal → JSArg) (beh : Behaviour) (err data : JVal) (log : Log)
    (herr : err.truthy = true) :
    (restCallback successCallback errorCallback wrap beh err data log).1
        = (match errorCallback with
            | some callback => log ++ [.invoked callback [.dataError (DataError.constructor err)]]
            | none => log)
    ∧ (errorCallback = none →
        restCallback successCallback errorCallback wrap beh err data log = (log, .ok ())) := by
  unfold restCallback
  simp only [herr, if_true]
  cases errorCallback with
  | none => simp
  | some callback =>
    simp only [callFunction]
    cases beh log callback [.dataError (DataError.constructor err)] <;> simp

/-- The shared answer function without an error: the success callback, when
there is one, is called once with the wrapped payload, and nothing else is
called. -/
theorem restCallback_success (successCallback errorCallback : Option Callback)
    (wrap : JVal → JSArg) (beh : Behaviour) (err data : JVal) (log : Log)
    (herr : err.truthy = false) :
    (restCallback successCallback errorCallback wrap beh err data log).1
        = (match successCallback with
            | some callback => log ++ [.invoked callback [wrap data]]
            | none => log)
    ∧ (successCallback = none →
        restCallback successCallback errorCallback wrap beh err data log = (log, .ok ())) := by
  unfold restCallback
  simp only [herr, Bool.false_eq_true, if_false]
  cases successCallback with
  | none => simp
  | some callback =>
    simp only [callFunction]
    cases beh log callback [wrap data] <;> simp

/-- Error routing of the twelve plain REST operations: on an instance with a
client each of them hands the client an answer function that, on an error,
calls the error callback (when supplied) exactly once with
`new DataError(err)` and calls nothing else, and that neither calls anything
nor throws when no error callback was supplied. -/
theorem rest_error_routing (self : EloquentTwitter) (twit : Twit) (ht : self._twit = some twit)
    (a parameters : JVal) (successCallback errorCallback : Option Callback) :
    ∀ r ∈ [self.getCurrentUserInfo successCallback errorCallback,
           self.getTweetsByID a successCallback errorCallback,
           self.getUserByID a successCallback errorCallback,
           self.getUserByUsername a successCallback errorCallback,
           self.postNewTweet a successCallback errorCallback parameters,
           self.retweet a successCallback errorCallback,
           self.unretweet a successCallback errorCallback,
           self.favorite a successCallback errorCallback,
           self.unfavorite a successCallback errorCallback,
           self.deleteTweet a successCallback errorCallback,
           self.getDirectMessage a successCallback errorCallback,
           self.deleteDirectMessage a successCallback errorCallback],
      ∃ req, r = .ok req ∧ ∀ beh err data log, err.truthy = true →
        (req.callback beh err data log).1
            = (match errorCallback with
                | some callback =>
                  log ++ [.invoked callback [.dataError (DataError.constructor err)]]
                | none => log)
        ∧ (errorCallback = none → req.callback beh err data log = (log, .ok ())) := by
  intro r hr
  simp only [List.mem_cons, List.mem_singleton, List.mem_nil_iff, or_false] at hr
  rcases hr with h | h | h | h | h | h | h | h | h | h | h | h <;>
    (subst h
     refine ⟨_, by
       simp only [EloquentTwitter.getCurrentUserInfo, EloquentTwitter.getTweetsByID,
         EloquentTwitter.getUserByID, EloquentTwitter.getUserByUsername,
         EloquentTwitter.postNewTweet, EloquentTwitter.retweet, EloquentTwitter.unretweet,
         EloquentTwitter.favorite, EloquentTwitter.unfavorite, EloquentTwitter.deleteTweet,
         EloquentTwitter.getDirectMessage, EloquentTwitter.deleteDirectMessage,
         EloquentTwitter.request, ht]
       rfl, ?_⟩
     intro beh err data log herr
     exact restCallback_error successCallback errorCallback _ beh err data log herr)

/-- Success routing of the plain REST operations: without an error the success
callback (when supplied) is called exactly once and nothing else is called,
with a `DataUser`, `DataTweet` or `DataDirectMessage` wrapper of the payload,
except that `deleteDirectMessage` hands over the payload as it is. -/
theorem rest_success_routing (self : EloquentTwitter) (twit : Twit) (ht : self._twit = some twit)
    (a parameters : JVal) (successCallback errorCallback : Option Callback) :
    ∀ p ∈ [(self.getCurrentUserInfo successCallback errorCallback,
              fun data => JSArg.dataUser (DataUser.constructor data)),
           (self.getTweetsByID a successCallback errorCallback,
              fun data => JSArg.dataTweet (DataTweet.constructor data (some self.ref))),
           (self.getUserByID a successCallback errorCallback,
              fun data => JSArg.dataUser (DataUser.constructor data)),
           (self.getUserByUsername a successCallback errorCallback,
              fun data => JSArg.dataUser (DataUser.constructor data)),
           (self.postNewTweet a successCallback errorCallback parameters,
              fun data => JSArg.dataTweet (DataTweet.constructor data (some self.ref))),
           (self.retweet a successCallback errorCallback,
              fun data => JSArg.dataTweet (DataTweet.constructor data (some self.ref))),
           (self.unretweet a successCallback errorCallback,
              fun data => JSArg.dataTweet (DataTweet.constructor data (some self.ref))),
           (self.favorite a successCallback errorCallback,
              fun data => JSArg.dataTweet (DataTweet.constructor data (some self.ref))),
           (self.unfavorite a successCallback errorCallback,
              fun data => JSArg.dataTweet (DataTweet.constructor data (some self.ref))),
           (self.deleteTweet a successCallback errorCallback,
              fun data => JSArg.dataTweet (DataTweet.constructor data (some self.ref))),
           (self.getDirectMessage a successCallback errorCallback,
              fun data => JSArg.dataDirectMessage (DataDirectMessage.constructor data none)),
           (self.deleteDirectMessage a successCallback errorCallback,
              fun data => JSArg.raw data)],
      ∃ req, p.1 = .ok req ∧ ∀ beh err data log, err.truthy = false →
        (req.callback beh err data log).1
            = (match successCallback with
                | some callback => log ++ [.invoked callback [p.2 data]]
                | none => log)
        ∧ (successCallback = none → req.callback beh err data log = (log, .ok ())) := by
  intro p hp
  simp only [List.mem_cons, List.mem_singleton, List.mem_nil_iff, or_false] at hp
  rcases hp with h | h | h | h | h | h | h | h | h | h | h | h <;>
    (subst h
     refine ⟨_, by
       simp only [EloquentTwitter.getCurrentUserInfo, EloquentTwitter.getTweetsByID,
         EloquentTwitter.getUserByID, EloquentTwitter.getUserByUsername,
         EloquentTwitter.postNewTweet, EloquentTwitter.retweet, EloquentTwitter.unretweet,
         EloquentTwitter.favorite, EloquentTwitter.unfavorite, EloquentTwitter.deleteTweet,
         EloquentTwitter.getDirectMessage, EloquentTwitter.deleteDirectMessage,
         EloquentTwitter.request, ht]
       rfl, ?_⟩
     intro beh err data log herr
     exact restCallback_success successCallback errorCallback _ beh err data log herr)

/-- The answer function of `getUserConnectionsByUserId` on an error with an
error callback supplied: it throws a type error and calls nothing. -/
theorem connectionsCallback_error (successCallback : Option Callback) (errorCallback : Callback)
    (beh : Behaviour) (err data : JVal) (log : Log) (herr : err.truthy = true) :
    connectionsCallback successCallback (some errorCallback) beh err data log
      = (log, .error (.typeError "Class constructor DataError cannot be invoked without new")) := by
  simp [connectionsCallback, herr]

/-! ## Claims that the code does not meet -/

/-- C9, at a tweet arriving on a started stream whose registry holds
subscribers under `TWEET`, under `TWEET_NOT_RETWEET` and under the name
`hasOwnProperty`, all of which return when called: on the user stream and on
the statuses-filter stream alike, the handler fires `TWEET`, that firing fails
with the type error of the registry, and neither `TWEET_RETWEET` nor
`TWEET_NOT_RETWEET` is fired; no subscriber is called.  Without the
registration under `hasOwnProperty` the same emission fires `TWEET` and then
`TWEET_NOT_RETWEET`, both with the wrapper of the payload, and calls the two
subscribers in that order. -/
theorem tweet_classification_not_fired_once_shadowed :
    (∃ c, ((EloquentTwitter.constructor 7 (.obj [("consumer_key", .str "k")])).calls
            [.registerUserStreamEvent EloquentTwitterEvent.TWEET 1,
             .registerUserStreamEvent EloquentTwitterEvent.TWEET_NOT_RETWEET 2,
             .registerUserStreamEvent "hasOwnProperty" 3,
             .startUserStream])._userStream = some c
      ∧ c.emit (fun _ _ _ => none)
          ((EloquentTwitter.constructor 7 (.obj [("consumer_key", .str "k")])).calls
            [.registerUserStreamEvent EloquentTwitterEvent.TWEET 1,
             .registerUserStreamEvent EloquentTwitterEvent.TWEET_NOT_RETWEET 2,
             .registerUserStreamEvent "hasOwnProperty" 3,
             .startUserStream])
          "tweet" [.obj [("id_str", .str "1"), ("text", .str "hello")]] []
        = ([.fired "TWEET" (some [.dataTweet
              { _data := .obj [("id_str", .str "1"), ("text", .str "hello")]
                _eloquentTwitter := some 7 }])],
           .error (.typeError "this._eventContainer.hasOwnProperty is not a function")))
    ∧ (∃ c, ((EloquentTwitter.constructor 7 (.obj [("consumer_key", .str "k")])).calls
            [.registerStatusesFilterStreamEvent EloquentTwitterEvent.TWEET 1,
             .registerStatusesFilterStreamEvent EloquentTwitterEvent.TWEET_NOT_RETWEET 2,
             .registerStatusesFilterStreamEvent "hasOwnProperty" 3,
             .startStatusesFilterStream])._statusesFilterStream = some c
      ∧ c.emit (fun _ _ _ => none)
          ((EloquentTwitter.constructor 7 (.obj [("consumer_key", .str "k")])).calls
            [.registerStatusesFilterStreamEvent EloquentTwitterEvent.TWEET 1,
             .registerStatusesFilterStreamEvent EloquentTwitterEvent.TWEET_NOT_RETWEET 2,
             .registerStatusesFilterStreamEvent "hasOwnProperty" 3,
             .startStatusesFilterStream])
          "tweet" [.obj [("id_str", .str "1"), ("text", .str "hello")]] []
        = ([.fired "TWEET" (some [.dataTweet
              { _data := .obj [("id_str", .str "1"), ("text", .str "hello")]
                _eloquentTwitter := some 7 }])],
           .error (.typeError "this._eventContainer.hasOwnProperty is not a function")))
    ∧ (∃ c, ((EloquentTwitter.constructor 7 (.obj [("consumer_key", .str "k")])).calls
            [.registerUserStreamEvent EloquentTwitterEvent.TWEET 1,
             .registerUserStreamEvent EloquentTwitterEvent.TWEET_NOT_RETWEET 2,
             .startUserStream])._userStream = some c
      ∧ c.emit (fun _ _ _ => none)
          ((EloquentTwitter.constructor 7 (.obj [("consumer_key", .str "k")])).calls
            [.registerUserStreamEvent EloquentTwitterEvent.TWEET 1,
             .registerUserStreamEvent EloquentTwitterEvent.TWEET_NOT_RETWEET 2,
             .startUserStream])
          "tweet" [.obj [("id_str", .str "1"), ("text", .str "hello")]] []
        = ([.fired "TWEET" (some [.dataTweet
              { _data := .obj [("id_str", .str "1"), ("text", .str "hello")]
                _eloquentTwitter := some 7 }]),
            .invoked 1 [.dataTweet
              { _data := .obj [("id_str", .str "1"), ("text", .str "hello")]
                _eloquentTwitter := some 7 }],
            .fired "TWEET_NOT_RETWEET" (some [.dataTweet
              { _data := .obj [("id_str", .str "1"), ("text", .str "hello")]
                _eloquentTwitter := some 7 }]),
            .invoked 2 [.dataTweet
              { _data := .obj [("id_str", .str "1"), ("text", .str "hello")]
                _eloquentTwitter := some 7 }]],
           .ok ())) :=
  ⟨⟨_, rfl, rfl⟩, ⟨_, rfl, rfl⟩, ⟨_, rfl, rfl⟩⟩

/-- C10, at a status deletion arriving on a started user stream whose registry
holds subscribers under `DELETE`, under `DELETE_STATUS` and under the name
`hasOwnProperty`, all of which return when called: the handler fires `DELETE`,
that firing fails with the type error of the registry, and neither
`DELETE_DIRECT_MESSAGE` nor `DELETE_STATUS` is fired; no subscriber is called.
Without the registration under `hasOwnProperty` the same emission fires
`DELETE` and then `DELETE_STATUS` with the wrapper of `delete.status`, and
calls the two subscribers in that order. -/
theorem delete_kind_not_fired_once_shadowed :
    (∃ c, ((EloquentTwitter.constructor 7 (.obj [("consumer_key", .str "k")])).calls
            [.registerUserStreamEvent EloquentTwitterEvent.DELETE 1,
             .registerUserStreamEvent EloquentTwitterEvent.DELETE_STATUS 2,
             .registerUserStreamEvent "hasOwnProperty" 3,
             .startUserStream])._userStream = some c
      ∧ c.emit (fun _ _ _ => none)
          ((EloquentTwitter.constructor 7 (.obj [("consumer_key", .str "k")])).calls
            [.registerUserStreamEvent EloquentTwitterEvent.DELETE 1,
             .registerUserStreamEvent EloquentTwitterEvent.DELETE_STATUS 2,
             .registerUserStreamEvent "hasOwnProperty" 3,
             .startUserStream])
          "delete"
          [.obj [("delete", .obj [("status", .obj [("id_str", .str "42"),
            ("user_id_str", .str "9")])])]] []
        = ([.fired "DELETE" (some [.raw .undefined])],
           .error (.typeError "this._eventContainer.hasOwnProperty is not a function")))
    ∧ (∃ c, ((EloquentTwitter.constructor 7 (.obj [("consumer_key", .str "k")])).calls
            [.registerUserStreamEvent EloquentTwitterEvent.DELETE 1,
             .registerUserStreamEvent EloquentTwitterEvent.DELETE_STATUS 2,
             .startUserStream])._userStream = some c
      ∧ c.emit (fun _ _ _ => none)
          ((EloquentTwitter.constructor 7 (.obj [("consumer_key", .str "k")])).calls
            [.registerUserStreamEvent EloquentTwitterEvent.DELETE 1,
             .registerUserStreamEvent EloquentTwitterEvent.DELETE_STATUS 2,
             .startUserStream])
          "delete"
          [.obj [("delete", .obj [("status", .obj [("id_str", .str "42"),
            ("user_id_str", .str "9")])])]] []
        = ([.fired "DELETE" (some [.raw .undefined]),
            .invoked 1 [.raw .undefined],
            .fired "DELETE_STATUS" (some [.dataTweetDelete
              { _data := .obj [("id_str", .str "42"), ("user_id_str", .str "9")] }]),
            .invoked 2 [.dataTweetDelete
              { _data := .obj [("id_str", .str "42"), ("user_id_str", .str "9")] }]],
           .ok ())) :=
  ⟨⟨_, rfl, rfl⟩, ⟨_, rfl, rfl⟩⟩

/-- C11, at a status deletion and at a direct-message deletion: the `delete`
handler fires `DELETE` with `data.delete.direct_message`, not with the content
of the `delete` member.  For the payload of a status deletion the generic
event carries `undefined`; for the payload of a direct-message deletion it
carries the inner `direct_message` object. -/
theorem delete_fires_generic_with_direct_message_member :
    firedIn ((EloquentTwitter.constructor 7 (.obj [("consumer_key", .str "k")])).startUserStream_delete
        (fun _ _ _ => none)
        (.obj [("delete", .obj [("status", .obj [("id_str", .str "42"),
          ("user_id_str", .str "9")])])]) []).1
      = [(EloquentTwitterEvent.DELETE, some [.raw .undefined]),
         (EloquentTwitterEvent.DELETE_STATUS,
            some [.dataTweetDelete (DataTweetDelete.constructor
              (.obj [("id_str", .str "42"), ("user_id_str", .str "9")]))])]
    ∧ firedIn ((EloquentTwitter.constructor 7 (.obj [("consumer_key", .str "k")])).startUserStream_delete
        (fun _ _ _ => none)
        (.obj [("delete", .obj [("direct_message", .obj [("id_str", .str "43")])])]) []).1
      = [(EloquentTwitterEvent.DELETE, some [.raw (.obj [("id_str", .str "43")])]),
         (EloquentTwitterEvent.DELETE_DIRECT_MESSAGE,
            some [.dataDirectMessageDelete (DataDirectMessageDelete.constructor
              (.obj [("id_str", .str "43")]))])] :=
  ⟨rfl, rfl⟩

/-- C12, at the external names `list_user_unsubscribed` and
`unknown_user_event`: subscribers are registered under
`USER_EVENT_LIST_USER_UNSUBSCRIBED` and `USER_EVENT_UNKNOWN`, the user stream
is started, and neither emission fires or invokes anything, because
`startUserStream` binds no handler to the first name and binds the handler of
the second under the name with a trailing blank.  For the other names
`userStream_forwarding` gives the one-for-one forwarding. -/
theorem unsubscribed_and_unknown_are_not_forwarded :
    ∃ c, ((EloquentTwitter.constructor 7 (.obj [("consumer_key", .str "k")])).calls
            [.registerUserStreamEvent EloquentTwitterEvent.USER_EVENT_LIST_USER_UNSUBSCRIBED 1,
             .registerUserStreamEvent EloquentTwitterEvent.USER_EVENT_UNKNOWN 2,
             .startUserStream])._userStream = some c
      ∧ c.emit (fun _ _ _ => none)
          ((EloquentTwitter.constructor 7 (.obj [("consumer_key", .str "k")])).calls
            [.registerUserStreamEvent EloquentTwitterEvent.USER_EVENT_LIST_USER_UNSUBSCRIBED 1,
             .registerUserStreamEvent EloquentTwitterEvent.USER_EVENT_UNKNOWN 2,
             .startUserStream])
          "list_user_unsubscribed" [.obj [("event", .str "list_user_unsubscribed")]] []
        = ([], .ok ())
      ∧ c.emit (fun _ _ _ => none)
          ((EloquentTwitter.constructor 7 (.obj [("consumer_key", .str "k")])).calls
            [.registerUserStreamEvent EloquentTwitterEvent.USER_EVENT_LIST_USER_UNSUBSCRIBED 1,
             .registerUserStreamEvent EloquentTwitterEvent.USER_EVENT_UNKNOWN 2,
             .startUserStream])
          "unknown_user_event" [.obj [("event", .str "new_kind")]] []
        = ([], .ok ())
      ∧ "list_user_unsubscribed" ∉ userStreamBindings.map Prod.fst
      ∧ "unknown_user_event" ∉ userStreamBindings.map Prod.fst
      ∧ "unknown_user_event " ∈ userStreamBindings.map Prod.fst :=
  ⟨_, rfl, rfl, rfl, by decide, by decide, by decide⟩

/-- C13, on the statuses-filter stream: a subscriber is registered under `ANY`
on the statuses-filter registry and the stream is started; the emission of
`message` fires nothing and invokes nobody, because
`startStatusesFilterStream` binds no handler to `message`.  On the user
stream `userStream_forwarding` gives the firing of `ANY` with the raw
payload. -/
theorem filter_stream_message_fires_nothing :
    ∃ c, ((EloquentTwitter.constructor 7 (.obj [("consumer_key", .str "k")])).calls
            [.registerStatusesFilterStreamEvent EloquentTwitterEvent.ANY 1,
             .startStatusesFilterStream])._statusesFilterStream = some c
      ∧ c.emit (fun _ _ _ => none)
          ((EloquentTwitter.constructor 7 (.obj [("consumer_key", .str "k")])).calls
            [.registerStatusesFilterStreamEvent EloquentTwitterEvent.ANY 1,
             .startStatusesFilterStream])
          "message" [.obj [("text", .str "hello")]] []
        = ([], .ok ())
      ∧ "message" ∉ statusesFilterStreamBindings.map Prod.fst
      ∧ "message" ∈ userStreamBindings.map Prod.fst :=
  ⟨_, rfl, rfl, by decide, by decide⟩

/-- C18, at `deleteDirectMessage` answered without an error: the success
callback is called once, with the payload as it is and not with a wrapper of
it.  The rest of the claim holds: `rest_error_routing` and
`rest_success_routing`. -/
theorem deleteDirectMessage_hands_over_raw_payload :
    ∃ req, (EloquentTwitter.constructor 7 (.obj [("consumer_key", .str "k")])).deleteDirectMessage
          (.str "1001") (some 1) (some 2) = .ok req
      ∧ req.callback (fun _ _ _ => none) .null (.obj [("id", .str "1001")]) []
        = ([.invoked 1 [.raw (.obj [("id", .str "1001")])]], .ok ()) :=
  ⟨_, rfl, rfl⟩

/-- C19, at an error answer with an error callback supplied: the answer
function of `getUserConnectionsByUserId`, and so of
`getUserConnectionsByUsername`, throws a type error and calls neither
callback, because it evaluates `DataError(err)` without `new`. -/
theorem connections_error_answer_throws :
    (∃ req, (EloquentTwitter.constructor 7 (.obj [("consumer_key", .str "k")])).getUserConnectionsByUserId
          (.str "12") (some 1) (some 2) .undefined = .ok req
      ∧ req.callback (fun _ _ _ => none) (.obj [("message", .str "Rate limit exceeded")])
          .undefined []
        = ([], .error (.typeError "Class constructor DataError cannot be invoked without new")))
    ∧ (∃ req, (EloquentTwitter.constructor 7 (.obj [("consumer_key", .str "k")])).getUserConnectionsByUsername
          (.str "mrahmad1") (some 1) (some 2) .undefined = .ok req
      ∧ req.callback (fun _ _ _ => none) (.obj [("message", .str "Rate limit exceeded")])
          .undefined []
        = ([], .error (.typeError "Class constructor DataError cannot be invoked without new"))) :=
  ⟨⟨_, rfl, rfl⟩, ⟨_, rfl, rfl⟩⟩

/-- C20, at the call of the demo,
`addTracksToStatusesFilterStream(["nodejs", "java"])`: the rest parameter
makes the array the single argument, so the track list becomes a list with
one element, the array itself, and not the two strings.  The same two strings
given as two arguments are appended as two tracks, and a reset empties the
list. -/
theorem demo_tracks_are_nested :
    ((EloquentTwitter.constructor 7
        (.obj [("consumer_key", .str "k")])).addTracksToStatusesFilterStream
        [.arr [.str "nodejs", .str "java"]]).getTrackaStatusesFilterStream
      = [.arr [.str "nodejs", .str "java"]]
    ∧ ((EloquentTwitter.constructor 7
        (.obj [("consumer_key", .str "k")])).addTracksToStatusesFilterStream
        [.str "nodejs", .str "java"]).getTrackaStatusesFilterStream
      = [.str "nodejs", .str "java"]
    ∧ (((EloquentTwitter.constructor 7
        (.obj [("consumer_key", .str "k")])).addTracksToStatusesFilterStream
        [.arr [.str "nodejs", .str "java"]]).resetTracksToStatusesFilterStream
          ).getTrackaStatusesFilterStream
      = [] :=
  ⟨rfl, rfl, rfl⟩

/-! ## Tweet accessors -/

/-- Reading a member of an object literal. -/
theorem JVal.getProp_obj (fields : List (String × JVal)) (key : String) :
    (JVal.obj fields).getProp key = .ok (JVal.field fields key) :=
  rfl

/-- Reading a member of a truthy value does not throw. -/
theorem JVal.getProp_of_truthy (v : JVal) (key : String) (h : v.truthy = true) :
    ∃ w, v.getProp key = .ok w := by
  cases v with
  | undefined => simp [JVal.truthy] at h
  | null => simp [JVal.truthy] at h
  | bool b => exact ⟨_, rfl⟩
  | num n => exact ⟨_, rfl⟩
  | str s => exact ⟨_, rfl⟩
  | arr items => exact ⟨_, rfl⟩
  | obj fields => exact ⟨_, rfl⟩

/-- For an object payload the getter `text` chooses between the three members
by truthiness. -/
theorem DataTweet.text_of_obj (fields : List (String × JVal)) (eloquentTwitter : Option Nat) :
    (DataTweet.constructor (.obj fields) eloquentTwitter).text
      = if (JVal.field fields "full_text").truthy then .ok (JVal.field fields "full_text")
        else if (JVal.field fields "extended_tweet").truthy then
          (JVal.field fields "extended_tweet").getProp "full_text"
        else .ok (JVal.field fields "text") := by
  simp only [DataTweet.text, DataTweet.constructor, JVal.getProp_obj, DataTweet.extendedTweet]
  by_cases h1 : (JVal.field fields "full_text").truthy = true
  · simp only [h1, if_true]
  · by_cases h2 : (JVal.field fields "extended_tweet").truthy = true
    · simp only [h1, h2, if_true, if_false, DataExtendedTweet.text,
        DataExtendedTweet.constructor]
    · simp only [h1, h2, if_false]
      rfl

/-- For an object payload `isThisReply()` answers whether the member
`in_reply_to_status_id_str` differs from `null`; an absent member reads as
`undefined`. -/
theorem DataTweet.isThisReply_of_obj (fields : List (String × JVal))
    (eloquentTwitter : Option Nat) :
    (DataTweet.constructor (.obj fields) eloquentTwitter).isThisReply
      = .ok (!((JVal.field fields "in_reply_to_status_id_str").strictEquals .null)) :=
  rfl

/-- A value is strictly equal to `null` only when it is `null`. -/
theorem JVal.strictEquals_null (v : JVal) : v.strictEquals .null = true ↔ v = .null := by
  cases v <;> simp [JVal.strictEquals]

/-! ## Claims about the tweet accessors -/

/-- C24, at a payload liked five times and retweeted twice: `favoriteCount`
reads the member `retweet_count`, so it returns 2 and not the 5 of
`favorite_count`; on every payload it returns what `retweetCount` returns. -/
theorem favoriteCount_reads_retweet_count :
    (DataTweet.constructor
        (.obj [("id_str", .str "10"), ("favorite_count", .num 5), ("retweet_count", .num 2)])
        none).favoriteCount = .ok (.num 2)
    ∧ JVal.field [("id_str", .str "10"), ("favorite_count", .num 5), ("retweet_count", .num 2)]
        "favorite_count" = .num 5
    ∧ (∀ t : DataTweet, t.favoriteCount = t.retweetCount)
    ∧ (∀ (fields : List (String × JVal)) (eloquentTwitter : Option Nat),
        (DataTweet.constructor (.obj fields) eloquentTwitter).favoriteCount
          = .ok (JVal.field fields "retweet_count")) :=
  ⟨rfl, rfl, fun _ => rfl, fun _ _ => rfl⟩

/-- C25, at a payload without the member `in_reply_to_status_id_str`: the
getter `inReplyToStatusId` yields `undefined`, which differs from `null`, so
`isThisReply()` returns true.  With the member `null` it returns false, with
an identifier it returns true. -/
theorem isThisReply_true_when_field_absent :
    (DataTweet.constructor (.obj [("id_str", .str "10"), ("text", .str "hello")])
        none).inReplyToStatusId = .ok .undefined
    ∧ (DataTweet.constructor (.obj [("id_str", .str "10"), ("text", .str "hello")])
        none).isThisReply = .ok true
    ∧ (DataTweet.constructor
        (.obj [("id_str", .str "10"), ("in_reply_to_status_id_str", .null)])
        none).isThisReply = .ok false
    ∧ (DataTweet.constructor
        (.obj [("id_str", .str "10"), ("in_reply_to_status_id_str", .str "9")])
        none).isThisReply = .ok true :=
  ⟨rfl, rfl, rfl, rfl⟩

/-- C26, for every object payload: `text` is the member `full_text` when that
member is truthy (for a string: not empty); otherwise it is the member
`full_text` of `extended_tweet` when the payload has a truthy
`extended_tweet`; otherwise it is the member `text`.  It does not throw, and
`toString()` returns the same value. -/
theorem text_prefers_full_text (fields : List (String × JVal)) (eloquentTwitter : Option Nat) :
    ((JVal.field fields "full_text").truthy = true →
      (DataTweet.constructor (.obj fields) eloquentTwitter).text
        = .ok (JVal.field fields "full_text"))
    ∧ (∀ s : String, JVal.field fields "full_text" = .str s → s ≠ "" →
      (DataTweet.constructor (.obj fields) eloquentTwitter).text = .ok (.str s))
    ∧ ((JVal.field fields "full_text").truthy = false →
      (JVal.field fields "extended_tweet").truthy = true →
      (DataTweet.constructor (.obj fields) eloquentTwitter).text
        = (JVal.field fields "extended_tweet").getProp "full_text")
    ∧ (∀ extended : List (String × JVal),
      (JVal.field fields "full_text").truthy = false →
      JVal.field fields "extended_tweet" = .obj extended →
      (DataTweet.constructor (.obj fields) eloquentTwitter).text
        = .ok (JVal.field extended "full_text"))
    ∧ ((JVal.field fields "full_text").truthy = false →
      (JVal.field fields "extended_tweet").truthy = false →
      (DataTweet.constructor (.obj fields) eloquentTwitter).text
        = .ok (JVal.field fields "text"))
    ∧ (∃ v, (DataTweet.constructor (.obj fields) eloquentTwitter).text = .ok v)
    ∧ (DataTweet.constructor (.obj fields) eloquentTwitter).toString
        = (DataTweet.constructor (.obj fields) eloquentTwitter).text := by
  have key := DataTweet.text_of_obj fields eloquentTwitter
  refine ⟨?_, ?_, ?_, ?_, ?_, ?_, rfl⟩
  · intro h1
    rw [key, if_pos h1]
  · intro s hs hne
    rw [key, hs, if_pos (by simp [JVal.truthy, hne])]
  · intro h1 h2
    rw [key, h1, h2]
    rfl
  · intro extended h1 h2
    rw [key, h1, h2]
    rfl
  · intro h1 h2
    rw [key, h1, h2]
    rfl
  · rw [key]
    by_cases h1 : (JVal.field fields "full_text").truthy = true
    · rw [if_pos h1]
      exact ⟨_, rfl⟩
    · by_cases h2 : (JVal.field fields "extended_tweet").truthy = true
      · rw [if_neg h1, if_pos h2]
        exact JVal.getProp_of_truthy _ _ h2
      · rw [if_neg h1, if_neg h2]
        exact ⟨_, rfl⟩

/-- C26 at three payloads: an extended payload with `full_text`, a truncated
payload carrying `extended_tweet`, and a plain payload. -/
theorem text_prefers_full_text_witness :
    (DataTweet.constructor
        (.obj [("full_text", .str "the whole text"), ("text", .str "the whole")]) none).text
      = .ok (.str "the whole text")
    ∧ (DataTweet.constructor
        (.obj [("full_text", .str "the whole text"), ("text", .str "the whole")]) (some 7)).text
      = .ok (.str "the whole text")
    ∧ (DataTweet.constructor
        (.obj [("text", .str "the whole"),
               ("extended_tweet", .obj [("full_text", .str "the whole text")])]) none).text
      = .ok (.str "the whole text")
    ∧ (DataTweet.constructor
        (.obj [("text", .str "the whole"),
               ("extended_tweet", .obj [("full_text", .str "the whole text")])]) (some 7)).text
      = .ok (.str "the whole text")
    ∧ (DataTweet.constructor (.obj [("text", .str "short")]) none).text
      = .ok (.str "short") :=
  ⟨(text_prefers_full_text
      [("full_text", .str "the whole text"), ("text", .str "the whole")] none).1 rfl,
   (text_prefers_full_text
      [("full_text", .str "the whole text"), ("text", .str "the whole")] (some 7)).2.1
      "the whole text" rfl (by decide),
   (text_prefers_full_text
      [("text", .str "the whole"),
       ("extended_tweet", .obj [("full_text", .str "the whole text")])] none).2.2.1 rfl rfl,
   (text_prefers_full_text
      [("text", .str "the whole"),
       ("extended_tweet", .obj [("full_text", .str "the whole text")])] (some 7)).2.2.2.1
      [("full_text", .str "the whole text")] rfl rfl,
   (text_prefers_full_text [("text", .str "short")] none).2.2.2.2.1 rfl rfl⟩

/-! ## Related tweets, replies, media -/

/-- The request of `getRelatedTweetsFromUser`, when the instance has a client:
the value `false` stands in the position of `successCallback`, the created
function in the position of `errorCallback`, and the caller's `errorCallback`
in the position of `includeRetweet`. -/
theorem getRelatedTweetsFromUser_request (self : EloquentTwitter) (client : Twit)
    (hclient : self._twit = some client) (username tweetId : JVal)
    (successCallback errorCallback : Option Callback) :
    self.getRelatedTweetsFromUser username tweetId successCallback errorCallback
      = .ok { method := .get
              path := "statuses/user_timeline"
              params :=
                [("user_id", .value .null), ("count", .value (.num 200)),
                 ("trim_user", .value (.bool true)), ("exclude_replies", .value (.bool false)),
                 ("include_rts",
                    match errorCallback with
                    | some fn => .function fn
                    | none => .value (.bool false)),
                 ("screen_name", .value username)]
              callback := timelineCallback self.ref (.value (.bool false))
                (.relatedTweets tweetId successCallback) } := by
  cases errorCallback <;>
    simp [EloquentTwitter.getRelatedTweetsFromUser, EloquentTwitter.getUserTweetsTimelineByUsername,
      EloquentTwitter.getUserTweetsTimelineById, hclient, Argument.ofCallback,
      Argument.isDefined, Argument.spreadInto, Argument.setField]

/-- The answer function of `getRelatedTweetsFromUser`: an answer without an
error calls nothing; an answer with an error calls `successCallback`, when
one is given, with the empty array.  The caller's `errorCallback` is not
among the functions the answer function can call. -/
theorem getRelatedTweetsFromUser_answer (self : Nat) (tweetId : JVal)
    (successCallback : Option Callback) (beh : Behaviour) (err : JVal) (tweets : List JVal)
    (log : Log) :
    timelineCallback self (.value (.bool false)) (.relatedTweets tweetId successCallback)
        beh err tweets log
      = if err.truthy then
          match successCallback with
          | some callback => callFunction beh callback [.dataTweets []] log
          | none => (log, .ok ())
        else (log, .ok ()) := by
  unfold timelineCallback
  by_cases herr : err.truthy = true
  · rw [if_pos herr, if_pos herr]
    cases successCallback <;> rfl
  · rw [if_neg herr, if_neg herr]
    rfl

/-- The tweets kept by the loop of the created function, when no getter
throws: those whose `inReplyToStatusId` is strictly equal to `tweetId`, in
order. -/
theorem relatedTweetsLoop_of_obj (tweetId : JVal) (self : Option Nat)
    (payloads : List (List (String × JVal))) :
    relatedTweetsLoop tweetId (payloads.map (fun p => DataTweet.constructor (.obj p) self))
      = .ok ((payloads.filter (fun p =>
          (JVal.field p "in_reply_to_status_id_str").strictEquals tweetId)).map
            (fun p => DataTweet.constructor (.obj p) self)) := by
  induction payloads with
  | nil => rfl
  | cons p rest ih =>
    simp only [List.map_cons, relatedTweetsLoop, DataTweet.inReplyToStatusId,
      DataTweet.constructor, JVal.getProp_obj, List.filter_cons]
    simp only [DataTweet.constructor] at ih
    rw [ih]
    by_cases h : (JVal.field p "in_reply_to_status_id_str").strictEquals tweetId = true
    · simp [h]
    · simp [h]

/-! ## Claims about related tweets, replies and media -/

/-- C21, at a timeline of two tweets of which the first replies to tweet 100,
and at an error answer: `getRelatedTweetsFromUser` hands `false` over as the
success callback and its filtering function as the error callback.  The
answer without an error calls nobody; the answer with an error calls
`successCallback` with the empty array and does not call `errorCallback`,
which travels as the parameter `include_rts`.  Handed over in the position of
the success callback, the same filtering function delivers the first tweet. -/
theorem related_tweets_callbacks_are_misplaced :
    ∃ request,
      (EloquentTwitter.constructor 7 (.obj [("consumer_key", .str "k")])).getRelatedTweetsFromUser
          (.str "ahmad_tayeb") (.str "100") (some 1) (some 2) = .ok request
      ∧ request.callback (fun _ _ _ => none) .null
          [.obj [("id_str", .str "101"), ("in_reply_to_status_id_str", .str "100")],
           .obj [("id_str", .str "102"), ("in_reply_to_status_id_str", .null)]] []
        = ([], .ok ())
      ∧ request.callback (fun _ _ _ => none) (.obj [("message", .str "Rate limit exceeded")])
          [] []
        = ([.invoked 1 [.dataTweets []]], .ok ())
      ∧ request.params
        = [("user_id", .value .null), ("count", .value (.num 200)),
           ("trim_user", .value (.bool true)), ("exclude_replies", .value (.bool false)),
           ("include_rts", .function 2), ("screen_name", .value (.str "ahmad_tayeb"))]
      ∧ ∃ intended,
          (EloquentTwitter.constructor 7
              (.obj [("consumer_key", .str "k")])).getUserTweetsTimelineByUsername
            (.str "ahmad_tayeb") (.relatedTweets (.str "100") (some 1)) (.function 2)
            (.value (.bool false)) .undefined = .ok intended
          ∧ intended.callback (fun _ _ _ => none) .null
              [.obj [("id_str", .str "101"), ("in_reply_to_status_id_str", .str "100")],
               .obj [("id_str", .str "102"), ("in_reply_to_status_id_str", .null)]] []
            = ([.invoked 1 [.dataTweets [DataTweet.constructor
                  (.obj [("id_str", .str "101"), ("in_reply_to_status_id_str", .str "100")])
                  (some 7)]]], .ok ())
          ∧ intended.callback (fun _ _ _ => none)
              (.obj [("message", .str "Rate limit exceeded")]) [] []
            = ([.invoked 2 [.dataError (DataError.constructor
                  (.obj [("message", .str "Rate limit exceeded")]))]], .ok ()) :=
  ⟨_, rfl, rfl, rfl, rfl, _, rfl, rfl, rfl⟩

/-- C22, for every instance and all arguments: `getReplies` throws a type
error and issues no search, because it calls `searchTweets` on the class
`EloquentTwitter`, which has no such member, instead of on `this`.  Reached
through `this`, as `getTweetsBySearch` does, the same search object is handed
to `search/tweets`. -/
theorem getReplies_throws_before_searching :
    (∀ (self : EloquentTwitter) (toUsername : String) (toTweetID : JVal)
        (successCallback errorCallback : Option Callback),
        self.getReplies toUsername toTweetID successCallback errorCallback
          = .error (.typeError "EloquentTwitter.searchTweets is not a function"))
    ∧ (EloquentTwitter.constructor 7 (.obj [("consumer_key", .str "k")])).getReplies
          "ahmad_tayeb" (.str "100") (some 1) (some 2)
        = .error (.typeError "EloquentTwitter.searchTweets is not a function")
    ∧ ∃ request,
        (EloquentTwitter.constructor 7 (.obj [("consumer_key", .str "k")])).searchTweets
            ((DataStandardSearch.constructor (.str ("to:" ++ "ahmad_tayeb"))).sinceId
              (.str "100")) (some 1) (some 2) = .ok request
        ∧ request.path = "search/tweets"
        ∧ request.params
          = [("q", .str "to:ahmad_tayeb"), ("tweet_mode", .str "extended"),
             ("result_type", .str "recent"), ("count", .num 100), ("since_id", .str "100")] :=
  ⟨fun _ _ _ _ _ => rfl, rfl, _, rfl, rfl, rfl⟩

/-- C23, at the tweet of identifier 10 and the media identifier 99:
`replyWithMedia` hands `this.id` over in the position of `media_ids` and the
media in the position of `toTweetId`, so the request carries
`media_ids = ["10"]` and `in_reply_to_status_id = "99"`, whereas
`postNewReplyToTweetWithMedia(text, "99", "10")` carries `media_ids = ["99"]`
and `in_reply_to_status_id = "10"`.  Without an instance the result is
`null`, for every payload and all arguments. -/
theorem replyWithMedia_swaps_media_and_tweet :
    (∃ request,
      (DataTweet.constructor (.obj [("id_str", .str "10")]) (some 7)).replyWithMedia
          (fun ref => EloquentTwitter.constructor ref (.obj [("consumer_key", .str "k")]))
          (.str "thanks") (.str "99") (some 1) (some 2) = .ok (some request)
      ∧ request.path = "statuses/update"
      ∧ request.params
        = [("status", .str "thanks"), ("media_ids", .arr [.str "10"]),
           ("in_reply_to_status_id", .str "99"),
           ("auto_populate_reply_metadata", .bool true)])
    ∧ (∃ request,
      (EloquentTwitter.constructor 7
          (.obj [("consumer_key", .str "k")])).postNewReplyToTweetWithMedia
          (.str "thanks") (.str "99") (.str "10") (some 1) (some 2) .undefined = .ok request
      ∧ request.path = "statuses/update"
      ∧ request.params
        = [("status", .str "thanks"), ("media_ids", .arr [.str "99"]),
           ("in_reply_to_status_id", .str "10"),
           ("auto_populate_reply_metadata", .bool true)])
    ∧ (∀ (payload : JVal) (instances : Nat → EloquentTwitter) (text media_ids : JVal)
        (successCallback errorCallback : Option Callback),
        (DataTweet.constructor payload none).replyWithMedia instances text media_ids
          successCallback errorCallback = .ok none) :=
  ⟨⟨_, rfl, rfl, rfl⟩, ⟨_, rfl, rfl, rfl⟩, fun _ _ _ _ _ _ => rfl⟩

/-! ## Quick-reply options -/

/-- One call of `addOption` appends the described option at the position after
the current size and keeps the member `type`. -/
theorem addOption_data (self : DataDirectMessageQuickReply) (label description metadata : JVal) :
    (self.addOption label description metadata)._data.options
      = self._data.options
        ++ [describedOption (self._data.options.length + 1) (label, description, metadata)]
    ∧ (self.addOption label description metadata)._data.type = self._data.type :=
  ⟨rfl, rfl⟩

/-- A sequence of `addOption` calls appends the described options, one for each
call, in the order of the calls, and keeps the member `type`. -/
theorem addOptions_data (calls : List (JVal × JVal × JVal)) :
    ∀ self : DataDirectMessageQuickReply,
      (self.addOptions calls)._data.options
        = self._data.options ++ describedOptions (self._data.options.length + 1) calls
      ∧ (self.addOptions calls)._data.type = self._data.type := by
  induction calls with
  | nil =>
    intro self
    simp [DataDirectMessageQuickReply.addOptions, describedOptions]
  | cons call rest ih =>
    intro self
    obtain ⟨label, description, metadata⟩ := call
    have h := ih (self.addOption label description metadata)
    have hstep := addOption_data self label description metadata
    simp only [DataDirectMessageQuickReply.addOptions]
    rw [h.1, h.2, hstep.1, hstep.2]
    simp [describedOptions]

/-- There are as many described options as calls. -/
theorem describedOptions_length (calls : List (JVal × JVal × JVal)) :
    ∀ first, (describedOptions first calls).length = calls.length := by
  induction calls with
  | nil => intro first; rfl
  | cons call rest ih => intro first; simp [describedOptions, ih]

/-! ## Claims about the quick-reply options -/

/-- C27, at `addOption("Yes", "", "")` on a new object: the description and the
metadata are given, as empty strings, and the stored option has the
description `null` and the metadata `external_id_1`, not the two empty
strings. -/
theorem addOption_replaces_given_empty_strings :
    (DataDirectMessageQuickReply.constructor.addOption (.str "Yes") (.str "") (.str "")).options
      = [.obj [("label", .str "Yes"), ("description", .null),
               ("metadata", .str "external_id_1")]] :=
  rfl

/-- C27 as amended, for every object and every sequence of `addOption` calls:
a call appends exactly one option at the end, with the label as given, the
description as given when it is truthy and `null` when it is omitted or falsy,
the metadata as given when it is truthy and `external_id_` followed by the
1-based position when it is omitted or falsy; after the calls on a new object
the options are those of the calls in order, `size` is the number of calls,
and `toQuickReplyObject()` is `null` exactly when there was no call and
otherwise the object of type `options` with these options. -/
theorem addOption_appends_one_option (self : DataDirectMessageQuickReply)
    (label description metadata : JVal) (calls : List (JVal × JVal × JVal)) :
    (self.addOption label description metadata).options
      = self.options ++ [describedOption (self.size + 1) (label, description, metadata)]
    ∧ (self.addOption label description metadata).size = self.size + 1
    ∧ (description.truthy = true → metadata.truthy = true →
        describedOption (self.size + 1) (label, description, metadata)
          = .obj [("label", label), ("description", description), ("metadata", metadata)])
    ∧ describedOption (self.size + 1) (label, .undefined, .undefined)
        = .obj [("label", label), ("description", .null),
                ("metadata", .str ("external_id_" ++ toString (self.size + 1)))]
    ∧ (DataDirectMessageQuickReply.constructor.addOptions calls).options
        = describedOptions 1 calls
    ∧ (DataDirectMessageQuickReply.constructor.addOptions calls).size = calls.length
    ∧ ((DataDirectMessageQuickReply.constructor.addOptions calls).toQuickReplyObject = .null
        ↔ calls = [])
    ∧ (calls ≠ [] →
        (DataDirectMessageQuickReply.constructor.addOptions calls).toQuickReplyObject
          = .obj [("type", .str "options"), ("options", .arr (describedOptions 1 calls))]) := by
  have hall := addOptions_data calls DataDirectMessageQuickReply.constructor
  have hoptions : (DataDirectMessageQuickReply.constructor.addOptions calls)._data.options
      = describedOptions 1 calls := by
    rw [hall.1]
    rfl
  have htype : (DataDirectMessageQuickReply.constructor.addOptions calls)._data.type
      = .str "options" := by
    rw [hall.2]
    rfl
  have hlength : (DataDirectMessageQuickReply.constructor.addOptions calls)._data.options.length
      = calls.length := by
    rw [hoptions, describedOptions_length]
  refine ⟨rfl, ?_, ?_, rfl, hoptions, hlength, ?_, ?_⟩
  · simp [DataDirectMessageQuickReply.size, DataDirectMessageQuickReply.addOption]
  · intro hd hm
    simp [describedOption, hd, hm]
  · unfold DataDirectMessageQuickReply.toQuickReplyObject
    rw [hlength]
    cases calls with
    | nil => simp
    | cons call rest => simp
  · intro hne
    unfold DataDirectMessageQuickReply.toQuickReplyObject
    rw [hlength, htype, hoptions]
    cases calls with
    | nil => exact absurd rfl hne
    | cons call rest => simp

/-- C27 as amended, at three calls on a new object: the first omits the
description and the metadata, the second gives both, the third gives an empty
description; and at a call that gives a description and a metadata. -/
theorem addOption_appends_one_option_witness :
    (DataDirectMessageQuickReply.constructor.addOptions
        [(.str "Yes", .undefined, .undefined), (.str "No", .str "decline", .str "meta_no"),
         (.str "Later", .str "", .undefined)]).toQuickReplyObject
      = .obj [("type", .str "options"), ("options", .arr
          [.obj [("label", .str "Yes"), ("description", .null),
                 ("metadata", .str "external_id_1")],
           .obj [("label", .str "No"), ("description", .str "decline"),
                 ("metadata", .str "meta_no")],
           .obj [("label", .str "Later"), ("description", .null),
                 ("metadata", .str "external_id_3")]])]
    ∧ describedOption (DataDirectMessageQuickReply.constructor.size + 1)
        (.str "No", .str "decline", .str "meta_no")
      = .obj [("label", .str "No"), ("description", .str "decline"),
              ("metadata", .str "meta_no")] :=
  ⟨(addOption_appends_one_option DataDirectMessageQuickReply.constructor (.str "Yes")
      .undefined .undefined
      [(.str "Yes", .undefined, .undefined), (.str "No", .str "decline", .str "meta_no"),
       (.str "Later", .str "", .undefined)]).2.2.2.2.2.2.2 (by simp),
   (addOption_appends_one_option DataDirectMessageQuickReply.constructor (.str "No")
      (.str "decline") (.str "meta_no") []).2.2.1 rfl rfl⟩

end Eloquent
